import Mathlib

/-!
# MPTCP state engine of packetdrill (`mptcp.c`, `mptcp.h`)

A shallow embedding of the MPTCP option rewriter.  The process-wide singleton
`mp_state` becomes an explicit value of type `mp_state_s` that every function
receives and returns.  Pointers into the subflow list become list positions,
pointers stored in the variable table become references to the key slot they
point to.  A NULL dereference (or reading a queued name through a
`struct mp_join_info *`, past the end of its buffer) is the outcome `fault`: the
C program has no defined result there.  A queued `struct mp_join_info` read
through a `char *` is the string of its leading bytes, see `read_as_name`.

Machine integers are natural numbers, reduced modulo `2 ^ w` at every store
into a `w`-bit location.  The host is little-endian (the source stores 64-bit
keys through `unsigned long *`), so `htonl` and friends swap bytes.
-/

namespace Mptcp

/-! ## Constants -/

/-- Status codes of `types.h` (that header is outside the sources at hand). -/
abbrev STATUS_OK : Int := 0
/-- Error status of `types.h`. -/
abbrev STATUS_ERR : Int := -1

/-- Values of `enum direction_t` of `packet.h`. -/
abbrev DIRECTION_INVALID : Nat := 0
/-- A packet the harness injects toward the kernel. -/
abbrev DIRECTION_INBOUND : Nat := 1
/-- A packet captured from the kernel. -/
abbrev DIRECTION_OUTBOUND : Nat := 2

/-- TCP option kind of MPTCP (`tcp_options.h`, RFC 6824). -/
abbrev TCPOPT_MPTCP : Nat := 30

abbrev MP_CAPABLE_SUBTYPE : Nat := 0
abbrev MP_JOIN_SUBTYPE : Nat := 1
abbrev DSS_SUBTYPE : Nat := 2
abbrev ADD_ADDR_SUBTYPE : Nat := 3

abbrev TCPOLEN_MP_CAPABLE_SYN : Nat := 12
abbrev TCPOLEN_MP_CAPABLE : Nat := 20
abbrev TCPOLEN_MP_JOIN_SYN : Nat := 12
abbrev TCPOLEN_MP_JOIN_SYN_ACK : Nat := 16
abbrev TCPOLEN_MP_JOIN_ACK : Nat := 24

abbrev SCRIPT_DEFINED : Nat := 1

/-- Modelled from the spec: bit width of the fields `idsn`, `remote_idsn` and
`last_dsn_rcvd` of `mp_state`.  The `mptcp.h` at hand predates these fields; the
spec makes the IDSNs 64-bit values. -/
abbrev DSN_BITS : Nat := 64

/-! ## Byte order (little-endian host) -/

def bswap16 (x : Nat) : Nat :=
  (x % 256) * 256 + (x / 256) % 256

def bswap32 (x : Nat) : Nat :=
  (x % 256) * 2 ^ 24 + (x / 2 ^ 8 % 256) * 2 ^ 16 + (x / 2 ^ 16 % 256) * 2 ^ 8
    + (x / 2 ^ 24 % 256)

def bswap64 (x : Nat) : Nat :=
  bswap32 (x % 2 ^ 32) * 2 ^ 32 + bswap32 (x / 2 ^ 32 % 2 ^ 32)

def ntohs (x : Nat) : Nat := bswap16 x
def htons (x : Nat) : Nat := bswap16 x
def htonl (x : Nat) : Nat := bswap32 x
def ntohl (x : Nat) : Nat := bswap32 x
def htobe32 (x : Nat) : Nat := bswap32 x
def htobe64 (x : Nat) : Nat := bswap64 x

/-- The `n` bytes of `x` as they lie in memory on the little-endian host. -/
def le_bytes : Nat → Nat → List Nat
  | 0, _ => []
  | n + 1, x => (x % 256) :: le_bytes n (x / 256)

/-! ## Data model -/

/-- What `mp_var.value` points to: a buffer owned by the table (script-defined
variables) or one of the two key slots of `mp_state`. -/
inductive var_value where
  | owned (v : Nat)
  | packetdrill_key_ref
  | kernel_key_ref
deriving DecidableEq, Repr

/-- The record `struct mp_var`. -/
structure mp_var where
  name : String
  value : var_value
  mptcp_subtype : Nat
  script_defined : Bool
deriving DecidableEq, Repr

/-- The record `struct mp_join_info` (its `syn_or_syn_ack` member). -/
structure mp_join_info where
  address_id_script_defined : Bool
  address_id : Nat
  is_script_defined : Bool
  is_var : Bool
  var : String
  var2 : String
  hash : Nat
  rand_script_defined : Bool
  rand : Nat
deriving DecidableEq, Repr

/-- An element of `vars_queue`.  The C queue holds `void *`: the parser
enqueues either a variable name or a `struct mp_join_info`. -/
inductive queue_el where
  | var_name (name : String)
  | join_info (info : mp_join_info)
deriving DecidableEq, Repr

structure ip_address where
  family : Nat
  addr : Nat
deriving DecidableEq, Repr

/-- The record `struct mp_subflow`. -/
structure mp_subflow where
  src_ip : ip_address
  dst_ip : ip_address
  src_port : Nat
  dst_port : Nat
  packetdrill_addr_id : Nat
  kernel_addr_id : Nat
  kernel_rand_nbr : Nat
  packetdrill_rand_nbr : Nat
  ssn : Nat
deriving DecidableEq, Repr

/-- The fields of `struct tcp_option` the engine touches.  The C type is a union
of per-subtype layouts; every member path read or written by `mptcp.c` is one
field here (`data.mp_join.syn.no_ack.receiver_token` is
`mp_join_syn_no_ack_receiver_token`, and so on).  The overlap of the union
members in memory is not represented. -/
structure tcp_option where
  kind : Nat
  length : Nat
  subtype : Nat
  mp_capable_syn_key : Nat
  mp_capable_no_syn_sender_key : Nat
  mp_capable_no_syn_receiver_key : Nat
  mp_join_syn_address_id : Nat
  mp_join_syn_no_ack_receiver_token : Nat
  mp_join_syn_no_ack_sender_random_number : Nat
  mp_join_syn_ack_sender_hmac : Nat
  mp_join_syn_ack_sender_random_number : Nat
  mp_join_no_syn_sender_hmac : List Nat
  dss_flag_M : Bool
  dss_flag_m : Bool
  dss_flag_A : Bool
  dss_flag_a : Bool
  dss_dack_dack4 : Nat
deriving DecidableEq, Repr

structure ipv4_hdr where
  ihl : Nat
  src_ip : Nat
  dst_ip : Nat
deriving DecidableEq, Repr

structure ipv6_hdr where
  src_ip : Nat
  dst_ip : Nat
deriving DecidableEq, Repr

/-- TCP header fields; the ports are the 16-bit wire values. -/
structure tcp_hdr where
  src_port : Nat
  dst_port : Nat
  syn : Bool
  ack : Bool
  doff : Nat
deriving DecidableEq, Repr

/-- The parts of `struct packet` the engine reads; `ipv4` and `ipv6` are the
nullable header pointers, `options` is what the TCP option iterator yields. -/
structure packet where
  ipv4 : Option ipv4_hdr
  ipv6 : Option ipv6_hdr
  tcp : tcp_hdr
  ip_bytes : Nat
  options : List tcp_option
deriving DecidableEq, Repr

/-- The global `mp_state`.  The fields `idsn`, `remote_idsn`, `remote_ssn` and
`last_dsn_rcvd` are used by `mptcp.c` but not declared in the `mptcp.h` at hand
(see `DSN_BITS` and `Env.remote_ssn_bits` for their widths).  `prng` is the
state of the process-wide random generator and `heap` counts `malloc` calls for
subflows; both live outside `struct mp_state_s` in C and are carried here
because the engine uses them. -/
structure mp_state_s where
  packetdrill_key : Nat
  kernel_key : Nat
  packetdrill_key_set : Bool
  kernel_key_set : Bool
  vars_queue : List queue_el
  vars : List mp_var
  subflows : List mp_subflow
  last_packetdrill_addr_id : Nat
  idsn : Nat
  remote_idsn : Nat
  remote_ssn : Nat
  last_dsn_rcvd : Nat
  prng : Nat
  heap : Nat
deriving DecidableEq, Repr

/-- Functions, constants and widths that `mptcp.c` uses and that are declared
elsewhere (`utils`, the SHA-1 code, libc): the digest truncations, the HMAC,
the random generator as a transition on its state, the indeterminate contents
of a freshly allocated subflow, the sentinel `UNDEFINED` and the bit width of
the counter `remote_ssn`. -/
structure Env where
  sha1_64 : Nat → Nat
  sha1_32 : Nat → Nat
  hmac_64 : List Nat → List Nat → Nat
  hmac_160 : List Nat → List Nat → List Nat
  seed : Nat → Nat
  rand64 : Nat → Nat × Nat
  rand32 : Nat → Nat × Nat
  malloc_subflow : Nat → mp_subflow
  UNDEFINED : Int
  remote_ssn_bits : Nat

/-- Result of a C call: it returns a value, or it dereferences NULL or reads a
queued name through a `struct mp_join_info *`. -/
inductive Outcome (α : Type) where
  | ret (a : α)
  | fault
deriving DecidableEq, Repr

/-- Conversion of the `int` constant `c` to an unsigned `w`-bit value. -/
def to_unsigned (w : Nat) (c : Int) : Nat := (c % (2 ^ w : Nat)).toNat

/-- The C expression `a || b` on two `int`s. -/
def c_or (a b : Int) : Int := if a ≠ 0 ∨ b ≠ 0 then 1 else 0

def sha1_least_64bits (E : Env) (key : Nat) : Nat := E.sha1_64 key % 2 ^ 64

def sha1_least_32bits (E : Env) (key : Nat) : Nat := E.sha1_32 key % 2 ^ 32

def hmac_sha1_truncat_64 (E : Env) (key msg : List Nat) : Nat :=
  E.hmac_64 key msg % 2 ^ 64

def hmac_sha1 (E : Env) (key msg : List Nat) : List Nat := E.hmac_160 key msg

def seed_generator (E : Env) (s : mp_state_s) : mp_state_s :=
  { s with prng := E.seed s.prng }

def rand_64 (E : Env) (s : mp_state_s) : Nat × mp_state_s :=
  ((E.rand64 s.prng).1 % 2 ^ 64, { s with prng := (E.rand64 s.prng).2 })

def generate_32 (E : Env) (s : mp_state_s) : Nat × mp_state_s :=
  ((E.rand32 s.prng).1 % 2 ^ 32, { s with prng := (E.rand32 s.prng).2 })

/-- The zero-initialised global before `init_mp_state` runs. -/
def mp_state_zero (prng : Nat) : mp_state_s :=
  { packetdrill_key := 0, kernel_key := 0, packetdrill_key_set := false,
    kernel_key_set := false, vars_queue := [], vars := [], subflows := [],
    last_packetdrill_addr_id := 0, idsn := 0, remote_idsn := 0, remote_ssn := 0,
    last_dsn_rcvd := 0, prng := prng, heap := 0 }

def init_mp_state (E : Env) (s : mp_state_s) : mp_state_s :=
  { s with
    packetdrill_key_set := false
    kernel_key_set := false
    vars_queue := []
    vars := []
    last_packetdrill_addr_id := 0
    idsn := to_unsigned DSN_BITS E.UNDEFINED
    remote_idsn := to_unsigned DSN_BITS E.UNDEFINED
    remote_ssn := 0
    last_dsn_rcvd := 0 }

def set_packetdrill_key (s : mp_state_s) (sender_key : Nat) : mp_state_s :=
  { s with packetdrill_key := sender_key, packetdrill_key_set := true }

def set_kernel_key (s : mp_state_s) (receiver_key : Nat) : mp_state_s :=
  { s with kernel_key := receiver_key, kernel_key_set := true }

/-! ## Hint queue and variable table -/

/-- Modelled from the spec: `queue_front` of `queue/queue.h`, the non-destructive
peek of the strict FIFO; `none` is the empty-queue error. -/
def queue_front (q : List queue_el) : Option queue_el := q.head?

/-- Modelled from the spec: `queue_dequeue` of `queue/queue.h`, the pop of the
strict FIFO; `none` is the empty-queue error. -/
def queue_dequeue (q : List queue_el) : Option (queue_el × List queue_el) :=
  match q with
  | [] => none
  | x :: rest => some (x, rest)

/-- Modelled from the spec: `queue_enqueue` of `queue/queue.h`, taken unbounded. -/
def queue_enqueue (q : List queue_el) (x : queue_el) : List queue_el := q ++ [x]

/-- The C function copies `strlen(name)` bytes, without the terminating NUL,
and the handlers later read the copy as a C string; the queue element stands
for the name the parser passed in. -/
def enqueue_var (s : mp_state_s) (name : String) : mp_state_s :=
  { s with vars_queue := queue_enqueue s.vars_queue (.var_name name) }

/-- Modelled from the spec: the hash table of `hashmap/uthash.h` as the mapping
of the spec's variable table: `bind` (the macro `HASH_ADD_KEYPTR`) puts the
record in front, `lookup` (the macro `HASH_FIND_STR`) returns the first record
with the name. -/
def add_mp_var (s : mp_state_s) (var : mp_var) : mp_state_s :=
  { s with vars := var :: s.vars }

/-- Modelled from the spec: `lookup` of the variable table, see `add_mp_var`. -/
def find_mp_var (s : mp_state_s) (name : String) : Option mp_var :=
  s.vars.find? (fun v => v.name == name)

def add_mp_var_key (s : mp_state_s) (name : String) (key : var_value) : mp_state_s :=
  add_mp_var s
    { name := name, value := key, mptcp_subtype := MP_CAPABLE_SUBTYPE,
      script_defined := false }

/-- The first `length` bytes of `value` are copied into a buffer of the table. -/
def add_mp_var_script_defined (s : mp_state_s) (name : String) (value : Nat)
    (length : Nat) : mp_state_s :=
  add_mp_var s
    { name := name, value := .owned (value % 2 ^ (8 * length)),
      mptcp_subtype := MP_CAPABLE_SUBTYPE, script_defined := true }

/-- The C expression `*(u64*)var->value`. -/
def deref (s : mp_state_s) (v : var_value) : Nat :=
  match v with
  | .owned x => x % 2 ^ 64
  | .packetdrill_key_ref => s.packetdrill_key
  | .kernel_key_ref => s.kernel_key

/-- The bytes of a queued `struct mp_join_info` read through a `char *`: the
members `address_id_script_defined`, `address_id`, `is_script_defined` and
`is_var` take one byte each, `var` follows without padding and holds a C
string, so the string read ends at the first zero among the four bytes, or
else at the end of `var`. -/
def join_info_as_name (info : mp_join_info) : String :=
  let bytes : List Nat :=
    [info.address_id_script_defined.toNat, info.address_id % 256,
     info.is_script_defined.toNat, info.is_var.toNat]
  let head := bytes.takeWhile (fun b => b != 0)
  String.mk (head.map Char.ofNat ++ (if head.length = 4 then info.var.data else []))

/-- The queued pointer read as a `char *`, which is what `find_next_key`,
`mptcp_gen_key` and `extract_and_set_kernel_key` do with an element of the
FIFO whatever the parser enqueued. -/
def read_as_name (el : queue_el) : String :=
  match el with
  | .var_name name => name
  | .join_info info => join_info_as_name info

/-- Returns the value `*key` behind the returned pointer; `none` is the NULL
result.  The unchecked `var->value` faults when the name is not in the table. -/
def find_next_key (s : mp_state_s) : Outcome (Option Nat × mp_state_s) :=
  match queue_dequeue s.vars_queue with
  | none => .ret (none, s)
  | some (el, rest) =>
    let var_name := read_as_name el
    let s1 := { s with vars_queue := rest }
    match find_mp_var s1 var_name with
    | none => .fault
    | some var => .ret (some (deref s1 var.value), s1)

/-! ## Subflow registry -/

def ip_from_ipv4 (a : Nat) : ip_address := { family := 4, addr := a }

def ip_from_ipv6 (a : Nat) : ip_address := { family := 6, addr := a }

/-- Modelled from the spec: `get_tcp_option` of `tcp_options.h` yields the
first option of the packet with the given kind, or NULL. -/
def get_tcp_option (p : packet) (kind : Nat) : Option tcp_option :=
  p.options.find? (fun o => o.kind == kind)

/-- The block `malloc` hands out: its contents are indeterminate. -/
def malloc_subflow (E : Env) (s : mp_state_s) : mp_subflow × mp_state_s :=
  (E.malloc_subflow s.heap, { s with heap := s.heap + 1 })

/-- Returns the position of the new subflow in `subflows` (it is the head of
the list), or `none` for the NULL result. -/
def new_subflow_inbound (E : Env) (s : mp_state_s) (inbound_packet : packet) :
    Option Nat × mp_state_s :=
  let (subflow, s) := malloc_subflow E s
  let ips : Option (ip_address × ip_address) :=
    match inbound_packet.ipv4, inbound_packet.ipv6 with
    | some h, _ => some (ip_from_ipv4 h.src_ip, ip_from_ipv4 h.dst_ip)
    | none, some h => some (ip_from_ipv6 h.src_ip, ip_from_ipv6 h.dst_ip)
    | none, none => none
  match ips with
  | none => (none, s)
  | some (src_ip, dst_ip) =>
    let (r, s) := generate_32 E s
    let subflow : mp_subflow :=
      { subflow with
        src_ip := src_ip
        dst_ip := dst_ip
        src_port := ntohs inbound_packet.tcp.src_port
        dst_port := ntohs inbound_packet.tcp.dst_port
        packetdrill_rand_nbr := r
        packetdrill_addr_id := s.last_packetdrill_addr_id % 2 ^ 8
        ssn := 0 }
    (some 0,
      { s with
        last_packetdrill_addr_id := (s.last_packetdrill_addr_id + 1) % 2 ^ 32
        subflows := subflow :: s.subflows })

def new_subflow_outbound (E : Env) (s : mp_state_s) (outbound_packet : packet) :
    Option Nat × mp_state_s :=
  let (subflow, s) := malloc_subflow E s
  match get_tcp_option outbound_packet TCPOPT_MPTCP with
  | none => (none, s)
  | some mp_join_syn =>
    let ips : Option (ip_address × ip_address) :=
      match outbound_packet.ipv4, outbound_packet.ipv6 with
      | some h, _ => some (ip_from_ipv4 h.dst_ip, ip_from_ipv4 h.src_ip)
      | none, some h => some (ip_from_ipv6 h.dst_ip, ip_from_ipv6 h.src_ip)
      | none, none => none
    match ips with
    | none => (none, s)
    | some (src_ip, dst_ip) =>
      let subflow : mp_subflow :=
        { subflow with
          src_ip := src_ip
          dst_ip := dst_ip
          src_port := ntohs outbound_packet.tcp.dst_port
          dst_port := ntohs outbound_packet.tcp.src_port
          kernel_rand_nbr := mp_join_syn.mp_join_syn_no_ack_sender_random_number
          kernel_addr_id := mp_join_syn.mp_join_syn_address_id
          ssn := 0 }
      (some 0, { s with subflows := subflow :: s.subflows })

/-- Position of the first subflow accepted by `does_match`, the pointer the C
function returns; `none` is NULL. -/
def find_matching_subflow (s : mp_state_s) (p : packet)
    (does_match : mp_subflow → packet → Bool) : Option Nat :=
  let i := s.subflows.findIdx (fun subflow => does_match subflow p)
  if i < s.subflows.length then some i else none

def does_subflow_match_outbound_packet (subflow : mp_subflow)
    (outbound_packet : packet) : Bool :=
  subflow.dst_port == ntohs outbound_packet.tcp.src_port &&
    subflow.src_port == ntohs outbound_packet.tcp.dst_port

def find_subflow_matching_outbound_packet (s : mp_state_s)
    (outbound_packet : packet) : Option Nat :=
  find_matching_subflow s outbound_packet does_subflow_match_outbound_packet

def does_subflow_match_inbound_packet (subflow : mp_subflow)
    (inbound_packet : packet) : Bool :=
  subflow.dst_port == ntohs inbound_packet.tcp.dst_port &&
    subflow.src_port == ntohs inbound_packet.tcp.src_port

def find_subflow_matching_inbound_packet (s : mp_state_s)
    (inbound_packet : packet) : Option Nat :=
  find_matching_subflow s inbound_packet does_subflow_match_inbound_packet

/-- Store through a subflow pointer: the record at position `i` is replaced. -/
def store_subflow (s : mp_state_s) (i : Nat) (subflow : mp_subflow) : mp_state_s :=
  { s with subflows := s.subflows.set i subflow }

/-! ## MP_CAPABLE -/

def mptcp_gen_key (E : Env) (s : mp_state_s) : Outcome (Int × mp_state_s) :=
  match queue_front s.vars_queue with
  | none => .ret (STATUS_ERR, s)
  | some el =>
    let snd_var_name := read_as_name el
    let s1 :=
      match find_mp_var s snd_var_name with
      | some snd_var =>
        if snd_var.mptcp_subtype = MP_CAPABLE_SUBTYPE ∧ snd_var.script_defined = true then
          set_packetdrill_key s (deref s snd_var.value)
        else s
      | none => s
    let s2 :=
      if s1.packetdrill_key_set = false then
        let (key, s1) := rand_64 E (seed_generator E s1)
        add_mp_var_key (set_packetdrill_key s1 key) snd_var_name .packetdrill_key_ref
      else s1
    .ret (STATUS_OK, s2)

def mptcp_set_mp_cap_syn_key (s : mp_state_s) (tcp_opt : tcp_option) :
    Outcome (Int × mp_state_s × tcp_option) :=
  match find_next_key s with
  | .fault => .fault
  | .ret (none, s) => .ret (STATUS_ERR, s, tcp_opt)
  | .ret (some key, s) => .ret (STATUS_OK, s, { tcp_opt with mp_capable_syn_key := key })

def mptcp_set_mp_cap_keys (s : mp_state_s) (tcp_opt : tcp_option) :
    Outcome (Int × mp_state_s × tcp_option) :=
  match find_next_key s with
  | .fault => .fault
  | .ret (none, s) => .ret (STATUS_ERR, s, tcp_opt)
  | .ret (some key, s) =>
    let tcp_opt := { tcp_opt with mp_capable_no_syn_sender_key := key }
    match find_next_key s with
    | .fault => .fault
    | .ret (none, s) => .ret (STATUS_ERR, s, tcp_opt)
    | .ret (some key, s) =>
      .ret (STATUS_OK, s, { tcp_opt with mp_capable_no_syn_receiver_key := key })

def extract_and_set_kernel_key (s : mp_state_s) (live_packet : packet) :
    Outcome (Int × mp_state_s) :=
  match get_tcp_option live_packet TCPOPT_MPTCP with
  | none => .ret (STATUS_ERR, s)
  | some mpcap_opt =>
    let s1 :=
      match queue_front s.vars_queue with
      | some el =>
        match find_mp_var s (read_as_name el) with
        | some var =>
          if var.mptcp_subtype = MP_CAPABLE_SUBTYPE ∧ var.script_defined = true then
            set_kernel_key s (deref s var.value)
          else s
        | none => s
      | none => s
    if s1.kernel_key_set = false then
      let s2 := set_kernel_key s1 mpcap_opt.mp_capable_syn_key
      match queue_front s2.vars_queue with
      | none => .ret (STATUS_ERR, s2)
      | some el => .ret (STATUS_OK, add_mp_var_key s2 (read_as_name el) .kernel_key_ref)
    else .ret (STATUS_OK, s1)

def mptcp_subtype_mp_capable (E : Env) (s : mp_state_s)
    (packet_to_modify live_packet : packet) (tcp_opt_to_modify : tcp_option)
    (direction : Nat) : Outcome (Int × mp_state_s × tcp_option) :=
  if tcp_opt_to_modify.length = TCPOLEN_MP_CAPABLE_SYN ∧
      direction = DIRECTION_INBOUND ∧ packet_to_modify.tcp.ack = false then
    match mptcp_gen_key E s with
    | .fault => .fault
    | .ret (error, s) =>
      match mptcp_set_mp_cap_syn_key s tcp_opt_to_modify with
      | .fault => .fault
      | .ret (error2, s, opt) => .ret (c_or error2 error, s, opt)
  else if tcp_opt_to_modify.length = TCPOLEN_MP_CAPABLE_SYN ∧
      direction = DIRECTION_OUTBOUND then
    match extract_and_set_kernel_key s live_packet with
    | .fault => .fault
    | .ret (_, s) =>
      match mptcp_set_mp_cap_syn_key s tcp_opt_to_modify with
      | .fault => .fault
      | .ret (error, s, opt) =>
        .ret (error, { s with remote_ssn := (s.remote_ssn + 1) % 2 ^ E.remote_ssn_bits }, opt)
  else if tcp_opt_to_modify.length = TCPOLEN_MP_CAPABLE then
    match mptcp_set_mp_cap_keys s tcp_opt_to_modify with
    | .fault => .fault
    | .ret (error, s, opt) =>
      let s := { s with idsn := sha1_least_64bits E s.packetdrill_key }
      let s := { s with remote_idsn := sha1_least_64bits E s.kernel_key }
      let s := { s with last_dsn_rcvd := (s.remote_idsn + s.remote_ssn) % 2 ^ DSN_BITS }
      if direction = DIRECTION_INBOUND then
        .ret (error, (new_subflow_inbound E s packet_to_modify).2, opt)
      else if direction = DIRECTION_OUTBOUND then
        .ret (error, (new_subflow_outbound E s packet_to_modify).2, opt)
      else .ret (STATUS_ERR, s, opt)
  else if tcp_opt_to_modify.length = TCPOLEN_MP_CAPABLE_SYN ∧
      direction = DIRECTION_INBOUND ∧ packet_to_modify.tcp.ack = true then
    match mptcp_gen_key E s with
    | .fault => .fault
    | .ret (error, s) =>
      match mptcp_set_mp_cap_syn_key s tcp_opt_to_modify with
      | .fault => .fault
      | .ret (error2, s, opt) => .ret (c_or error2 error, s, opt)
  else .ret (STATUS_ERR, s, tcp_opt_to_modify)

/-! ## MP_JOIN -/

def mp_join_syn_rcv_token (E : Env) (s : mp_state_s) (tcp_opt_to_modify : tcp_option)
    (mp_join_script_info : mp_join_info) (direction : Nat) : Outcome tcp_option :=
  if mp_join_script_info.is_script_defined = true then
    if mp_join_script_info.is_var = true then
      match find_mp_var s mp_join_script_info.var with
      | none => .fault
      | some var =>
        .ret { tcp_opt_to_modify with
          mp_join_syn_no_ack_receiver_token :=
            htonl (sha1_least_32bits E (deref s var.value)) }
    else
      .ret { tcp_opt_to_modify with
        mp_join_syn_no_ack_receiver_token := htonl mp_join_script_info.hash }
  else if direction = DIRECTION_INBOUND then
    .ret { tcp_opt_to_modify with
      mp_join_syn_no_ack_receiver_token := htonl (sha1_least_32bits E s.kernel_key) }
  else if direction = DIRECTION_OUTBOUND then
    .ret { tcp_opt_to_modify with
      mp_join_syn_no_ack_receiver_token := htonl (sha1_least_32bits E s.packetdrill_key) }
  else .ret tcp_opt_to_modify

def mp_join_syn_address_id (tcp_opt_to_modify : tcp_option)
    (mp_join_script_info : mp_join_info) (subflow : mp_subflow) (direction : Nat) :
    mp_subflow × tcp_option :=
  let subflow :=
    if mp_join_script_info.address_id_script_defined = true then
      if direction = DIRECTION_INBOUND then
        { subflow with packetdrill_addr_id := mp_join_script_info.address_id }
      else { subflow with kernel_addr_id := mp_join_script_info.address_id }
    else subflow
  if direction = DIRECTION_INBOUND then
    (subflow, { tcp_opt_to_modify with
      mp_join_syn_address_id := subflow.packetdrill_addr_id })
  else if direction = DIRECTION_OUTBOUND then
    (subflow, { tcp_opt_to_modify with mp_join_syn_address_id := subflow.kernel_addr_id })
  else (subflow, tcp_opt_to_modify)

def mp_join_syn_rand (tcp_opt_to_modify : tcp_option)
    (mp_join_script_info : mp_join_info) (subflow : mp_subflow) (direction : Nat) :
    mp_subflow × tcp_option :=
  let subflow :=
    if mp_join_script_info.rand_script_defined = true then
      if direction = DIRECTION_INBOUND then
        { subflow with packetdrill_rand_nbr := mp_join_script_info.rand }
      else { subflow with kernel_rand_nbr := mp_join_script_info.rand }
    else subflow
  if direction = DIRECTION_INBOUND then
    (subflow, { tcp_opt_to_modify with
      mp_join_syn_no_ack_sender_random_number := subflow.packetdrill_rand_nbr })
  else if direction = DIRECTION_OUTBOUND then
    (subflow, { tcp_opt_to_modify with
      mp_join_syn_no_ack_sender_random_number := htonl subflow.kernel_rand_nbr })
  else (subflow, tcp_opt_to_modify)

/-- The hint `el` is the dequeued pointer; it is read as a `struct mp_join_info`
once the subflow exists.  The writes through `subflow` are stored back at the
end.  Both callers pass one of the two direction constants; with any other
value the C code reads an uninitialised pointer. -/
def mp_join_syn (E : Env) (s : mp_state_s) (packet_to_modify live_packet : packet)
    (tcp_opt_to_modify : tcp_option) (el : queue_el) (direction : Nat) :
    Outcome (Int × mp_state_s × tcp_option) :=
  if direction ≠ DIRECTION_INBOUND ∧ direction ≠ DIRECTION_OUTBOUND then .fault
  else
    let (created, s) :=
      if direction = DIRECTION_INBOUND then new_subflow_inbound E s packet_to_modify
      else new_subflow_outbound E s live_packet
    match created with
    | none => .ret (STATUS_ERR, s, tcp_opt_to_modify)
    | some i =>
      match el, s.subflows[i]? with
      | .join_info mp_join_script_info, some subflow =>
        match mp_join_syn_rcv_token E s tcp_opt_to_modify mp_join_script_info direction with
        | .fault => .fault
        | .ret opt =>
          let (subflow, opt) := mp_join_syn_rand opt mp_join_script_info subflow direction
          let (subflow, opt) := mp_join_syn_address_id opt mp_join_script_info subflow direction
          .ret (STATUS_OK, store_subflow s i subflow, opt)
      | _, _ => .fault

def mp_join_syn_ack_sender_hmac (E : Env) (tcp_opt_to_modify : tcp_option)
    (key1 key2 msg1 msg2 : Nat) : tcp_option :=
  let hmac_key := le_bytes 8 key1 ++ le_bytes 8 key2
  let msg := le_bytes 4 msg1 ++ le_bytes 4 msg2
  { tcp_opt_to_modify with
    mp_join_syn_ack_sender_hmac := htobe64 (hmac_sha1_truncat_64 E hmac_key msg) }

def mp_join_syn_ack (E : Env) (s : mp_state_s) (packet_to_modify live_packet : packet)
    (tcp_opt_to_modify : tcp_option) (el : queue_el) (direction : Nat) :
    Outcome (Int × mp_state_s × tcp_option) :=
  if direction = DIRECTION_INBOUND then
    match find_subflow_matching_inbound_packet s packet_to_modify with
    | none => .ret (STATUS_ERR, s, tcp_opt_to_modify)
    | some i =>
      match el, s.subflows[i]? with
      | .join_info mp_join_script_info, some subflow =>
        let (r, s) := generate_32 E s
        let subflow := { subflow with packetdrill_rand_nbr := r }
        let (subflow, opt) :=
          mp_join_syn_address_id tcp_opt_to_modify mp_join_script_info subflow direction
        let s := { s with
          last_packetdrill_addr_id := (s.last_packetdrill_addr_id + 1) % 2 ^ 32 }
        let subflow :=
          if mp_join_script_info.rand_script_defined = true then
            { subflow with packetdrill_rand_nbr := mp_join_script_info.rand }
          else subflow
        let opt := { opt with
          mp_join_syn_ack_sender_random_number := htonl subflow.packetdrill_rand_nbr }
        let s := store_subflow s i subflow
        if mp_join_script_info.is_script_defined = true then
          if mp_join_script_info.is_var = true then
            match find_mp_var s mp_join_script_info.var,
                find_mp_var s mp_join_script_info.var2 with
            | some var, some var2 =>
              .ret (STATUS_OK, s,
                mp_join_syn_ack_sender_hmac E opt (deref s var.value) (deref s var2.value)
                  subflow.packetdrill_rand_nbr subflow.kernel_rand_nbr)
            | _, _ => .fault
          else .ret (STATUS_OK, s, opt)
        else
          .ret (STATUS_OK, s,
            mp_join_syn_ack_sender_hmac E opt s.packetdrill_key s.kernel_key
              subflow.packetdrill_rand_nbr subflow.kernel_rand_nbr)
      | _, _ => .fault
  else if direction = DIRECTION_OUTBOUND then
    match find_subflow_matching_outbound_packet s live_packet,
        get_tcp_option live_packet TCPOPT_MPTCP with
    | some i, some live_mp_join =>
      match s.subflows[i]? with
      | none => .fault
      | some subflow =>
        let subflow := { subflow with
          kernel_addr_id := live_mp_join.mp_join_syn_address_id
          kernel_rand_nbr := live_mp_join.mp_join_syn_ack_sender_random_number }
        let hmac_key := le_bytes 8 s.kernel_key ++ le_bytes 8 s.packetdrill_key
        let msg := le_bytes 4 subflow.kernel_rand_nbr ++ le_bytes 4 subflow.packetdrill_rand_nbr
        .ret (STATUS_OK, store_subflow s i subflow,
          { tcp_opt_to_modify with
            mp_join_syn_address_id := live_mp_join.mp_join_syn_address_id
            mp_join_syn_ack_sender_random_number :=
              live_mp_join.mp_join_syn_ack_sender_random_number
            mp_join_syn_ack_sender_hmac := hmac_sha1_truncat_64 E hmac_key msg })
    | _, _ => .ret (STATUS_ERR, s, tcp_opt_to_modify)
  else .ret (STATUS_OK, s, tcp_opt_to_modify)

def mptcp_subtype_mp_join (E : Env) (s : mp_state_s)
    (packet_to_modify live_packet : packet) (tcp_opt_to_modify : tcp_option)
    (direction : Nat) : Outcome (Int × mp_state_s × tcp_option) :=
  match queue_dequeue s.vars_queue with
  | none => .ret (STATUS_ERR, s, tcp_opt_to_modify)
  | some (mp_join_script_info, rest) =>
    let s := { s with vars_queue := rest }
    if direction = DIRECTION_INBOUND ∧ packet_to_modify.tcp.ack = false ∧
        packet_to_modify.tcp.syn = true ∧
        tcp_opt_to_modify.length = TCPOLEN_MP_JOIN_SYN then
      match mp_join_syn E s packet_to_modify live_packet tcp_opt_to_modify
          mp_join_script_info DIRECTION_INBOUND with
      | .fault => .fault
      | .ret (_, s, opt) => .ret (STATUS_OK, s, opt)
    else if direction = DIRECTION_OUTBOUND ∧ packet_to_modify.tcp.ack = true ∧
        packet_to_modify.tcp.syn = true ∧
        tcp_opt_to_modify.length = TCPOLEN_MP_JOIN_SYN_ACK then
      match find_subflow_matching_outbound_packet s live_packet,
          get_tcp_option live_packet TCPOPT_MPTCP with
      | some i, some live_mp_join =>
        match s.subflows[i]? with
        | none => .fault
        | some subflow =>
          let subflow := { subflow with
            kernel_addr_id := live_mp_join.mp_join_syn_address_id
            kernel_rand_nbr := live_mp_join.mp_join_syn_ack_sender_random_number }
          let hmac_key := le_bytes 8 s.kernel_key ++ le_bytes 8 s.packetdrill_key
          let msg :=
            le_bytes 4 subflow.kernel_rand_nbr ++ le_bytes 4 subflow.packetdrill_rand_nbr
          .ret (STATUS_OK, store_subflow s i subflow,
            { tcp_opt_to_modify with
              mp_join_syn_address_id := live_mp_join.mp_join_syn_address_id
              mp_join_syn_ack_sender_random_number :=
                live_mp_join.mp_join_syn_ack_sender_random_number
              mp_join_syn_ack_sender_hmac := hmac_sha1_truncat_64 E hmac_key msg })
      | _, _ => .ret (STATUS_ERR, s, tcp_opt_to_modify)
    else if direction = DIRECTION_INBOUND ∧ packet_to_modify.tcp.ack = true ∧
        packet_to_modify.tcp.syn = false ∧
        tcp_opt_to_modify.length = TCPOLEN_MP_JOIN_ACK then
      match find_subflow_matching_inbound_packet s packet_to_modify with
      | none => .ret (STATUS_ERR, s, tcp_opt_to_modify)
      | some i =>
        match s.subflows[i]? with
        | none => .fault
        | some subflow =>
          let hmac_key := le_bytes 8 s.packetdrill_key ++ le_bytes 8 s.kernel_key
          let msg :=
            le_bytes 4 subflow.packetdrill_rand_nbr ++ le_bytes 4 subflow.kernel_rand_nbr
          .ret (STATUS_OK, s,
            { tcp_opt_to_modify with mp_join_no_syn_sender_hmac := hmac_sha1 E hmac_key msg })
    else if direction = DIRECTION_OUTBOUND ∧ packet_to_modify.tcp.ack = false ∧
        packet_to_modify.tcp.syn = true ∧
        tcp_opt_to_modify.length = TCPOLEN_MP_JOIN_SYN then
      match mp_join_syn E s packet_to_modify live_packet tcp_opt_to_modify
          mp_join_script_info DIRECTION_OUTBOUND with
      | .fault => .fault
      | .ret (_, s, opt) => .ret (STATUS_OK, s, opt)
    else if direction = DIRECTION_INBOUND ∧ packet_to_modify.tcp.ack = true ∧
        packet_to_modify.tcp.syn = true ∧
        tcp_opt_to_modify.length = TCPOLEN_MP_JOIN_SYN_ACK then
      match mp_join_syn_ack E s packet_to_modify live_packet tcp_opt_to_modify
          mp_join_script_info DIRECTION_INBOUND with
      | .fault => .fault
      | .ret (_, s, opt) => .ret (STATUS_OK, s, opt)
    else if direction = DIRECTION_OUTBOUND ∧ packet_to_modify.tcp.ack = true ∧
        packet_to_modify.tcp.syn = false ∧
        tcp_opt_to_modify.length = TCPOLEN_MP_JOIN_ACK then
      match find_subflow_matching_outbound_packet s packet_to_modify with
      | none => .ret (STATUS_ERR, s, tcp_opt_to_modify)
      | some i =>
        match s.subflows[i]? with
        | none => .fault
        | some subflow =>
          let hmac_key := le_bytes 8 s.kernel_key ++ le_bytes 8 s.packetdrill_key
          let msg :=
            le_bytes 4 subflow.kernel_rand_nbr ++ le_bytes 4 subflow.packetdrill_rand_nbr
          .ret (STATUS_OK, s,
            { tcp_opt_to_modify with mp_join_no_syn_sender_hmac := hmac_sha1 E hmac_key msg })
    else .ret (STATUS_ERR, s, tcp_opt_to_modify)

/-! ## DSS -/

/-- The C function `dss_inbound_parser`.  Only the DACK-only branch with a 4-byte
DACK is live code; the branches for a present DSN contain nothing but `printf`. -/
def dss_inbound_parser_fn (E : Env) (s : mp_state_s) (_tcp_payload_length : Nat)
    (tcp_opt_to_modify : tcp_option) : Outcome (Int × mp_state_s × tcp_option) :=
  if tcp_opt_to_modify.dss_flag_M = true then .ret (0, s, tcp_opt_to_modify)
  else if tcp_opt_to_modify.dss_flag_A = true then
    if tcp_opt_to_modify.dss_flag_a = false then
      if tcp_opt_to_modify.dss_dack_dack4 = to_unsigned 32 E.UNDEFINED then
        .ret (0, s, { tcp_opt_to_modify with dss_dack_dack4 := htonl s.last_dsn_rcvd })
      else if tcp_opt_to_modify.dss_dack_dack4 = SCRIPT_DEFINED then
        match find_next_key s with
        | .fault => .fault
        | .ret (none, s) => .ret (STATUS_ERR, s, tcp_opt_to_modify)
        | .ret (some key, s) =>
          let s := { s with remote_idsn := sha1_least_32bits E key }
          .ret (0, s, { tcp_opt_to_modify with
            dss_dack_dack4 := htobe32 (sha1_least_32bits E key + s.remote_ssn) })
      else .ret (0, s, tcp_opt_to_modify)
    else .ret (0, s, tcp_opt_to_modify)
  else .ret (0, s, tcp_opt_to_modify)

/-- The C function `dss_outbound_parser`; its body is commented out. -/
def dss_outbound_parser_fn (s : mp_state_s) (_tcp_payload_length : Nat)
    (tcp_opt_to_modify : tcp_option) : Outcome (Int × mp_state_s × tcp_option) :=
  .ret (0, s, tcp_opt_to_modify)

/-- The 16-bit payload length the C function computes before it dispatches. -/
def dss_tcp_payload_length (packet_to_modify : packet) (h : ipv4_hdr) : Nat :=
  let packet_total_length : Int := (packet_to_modify.ip_bytes % 2 ^ 16 : Nat)
  let tcp_header_length : Int := (packet_to_modify.tcp.doff * 4 % 2 ^ 16 : Nat)
  let ip_header_length : Int := (h.ihl * 8 % 2 ^ 16 : Nat)
  let tcp_header_wo_options : Int := 20
  to_unsigned 16
    (packet_total_length - ip_header_length - (tcp_header_length - tcp_header_wo_options))

/-- The unchecked `packet_to_modify->ipv4->ihl` faults on a packet without an
IPv4 header.  The status of the two parsers is dropped. -/
def mptcp_subtype_dss (E : Env) (s : mp_state_s) (packet_to_modify _live_packet : packet)
    (tcp_opt_to_modify : tcp_option) (direction : Nat) :
    Outcome (Int × mp_state_s × tcp_option) :=
  match packet_to_modify.ipv4 with
  | none => .fault
  | some h =>
    let tcp_payload_length := dss_tcp_payload_length packet_to_modify h
    if direction = DIRECTION_INBOUND then
      match dss_inbound_parser_fn E s tcp_payload_length tcp_opt_to_modify with
      | .fault => .fault
      | .ret (_, s, opt) => .ret (STATUS_OK, s, opt)
    else if direction = DIRECTION_OUTBOUND then
      match dss_outbound_parser_fn s tcp_payload_length tcp_opt_to_modify with
      | .fault => .fault
      | .ret (_, s, opt) => .ret (STATUS_OK, s, opt)
    else .ret (STATUS_ERR, s, tcp_opt_to_modify)

/-! ## Dispatcher -/

/-- The `switch` on the subtype of one MPTCP option. -/
def dispatch_option (E : Env) (s : mp_state_s) (packet_to_modify live_packet : packet)
    (tcp_opt_to_modify : tcp_option) (direction : Nat) :
    Outcome (Int × mp_state_s × tcp_option) :=
  if tcp_opt_to_modify.subtype = MP_CAPABLE_SUBTYPE then
    mptcp_subtype_mp_capable E s packet_to_modify live_packet tcp_opt_to_modify direction
  else if tcp_opt_to_modify.subtype = MP_JOIN_SUBTYPE then
    mptcp_subtype_mp_join E s packet_to_modify live_packet tcp_opt_to_modify direction
  else if tcp_opt_to_modify.subtype = DSS_SUBTYPE then
    mptcp_subtype_dss E s packet_to_modify live_packet tcp_opt_to_modify direction
  else .ret (STATUS_ERR, s, tcp_opt_to_modify)

/-- The `while` loop over the options of `packet_to_modify`: `done` are the
options already visited (rewritten in place), `todo` the ones still ahead. -/
def options_loop (E : Env) (live_packet : packet) (direction : Nat) (p : packet) :
    List tcp_option → List tcp_option → mp_state_s → Outcome (Int × mp_state_s × packet)
  | done, [], s => .ret (STATUS_OK, s, { p with options := done })
  | done, tcp_opt_to_modify :: todo, s =>
    if tcp_opt_to_modify.kind = TCPOPT_MPTCP then
      match dispatch_option E s { p with options := done ++ tcp_opt_to_modify :: todo }
          live_packet tcp_opt_to_modify direction with
      | .fault => .fault
      | .ret (error, s, opt) =>
        if error ≠ 0 then .ret (STATUS_ERR, s, { p with options := done ++ opt :: todo })
        else options_loop E live_packet direction p (done ++ [opt]) todo s
    else options_loop E live_packet direction p (done ++ [tcp_opt_to_modify]) todo s

def mptcp_insert_and_extract_opt_fields (E : Env) (s : mp_state_s)
    (packet_to_modify live_packet : packet) (direction : Nat) :
    Outcome (Int × mp_state_s × packet) :=
  options_loop E live_packet direction packet_to_modify [] packet_to_modify.options s

/-! ## Predicates used in the statements -/

/-- The buffer behind `v` is owned by the table and holds the 64-bit value `k`. -/
def holds_key (v : var_value) (k : Nat) : Bool :=
  match v with
  | .owned x => x % 2 ^ 64 == k
  | _ => false

/-- Every script-defined key variable of the table holds the value `k`. -/
def script_keys_agree (s : mp_state_s) (k : Nat) : Bool :=
  s.vars.all fun v =>
    !(v.script_defined && v.mptcp_subtype == MP_CAPABLE_SUBTYPE) || holds_key v.value k

/-- The two keys, their bound flags and the variable table are the same in `s`
and `s'`. -/
def keys_frame (s s' : mp_state_s) : Prop :=
  s'.packetdrill_key = s.packetdrill_key ∧ s'.kernel_key = s.kernel_key ∧
  s'.packetdrill_key_set = s.packetdrill_key_set ∧
  s'.kernel_key_set = s.kernel_key_set ∧ s'.vars = s.vars



/-- The packetdrill key is bound, its value satisfies `A`, and every
script-defined variable of the table is one of `vars0`. -/
def packetdrill_key_within (A : Nat → Prop) (vars0 : List mp_var) (s : mp_state_s) : Prop :=
  s.packetdrill_key_set = true ∧ A s.packetdrill_key ∧
    ∀ v ∈ s.vars, v.script_defined = true → v ∈ vars0

/-- The kernel key is bound, its value satisfies `A`, and every script-defined
variable of the table is one of `vars0`. -/
def kernel_key_within (A : Nat → Prop) (vars0 : List mp_var) (s : mp_state_s) : Prop :=
  s.kernel_key_set = true ∧ A s.kernel_key ∧
    ∀ v ∈ s.vars, v.script_defined = true → v ∈ vars0

/-- Whatever is read through a script-defined key variable of `vars0`
satisfies `A`. -/
def admits_script_keys (A : Nat → Prop) (vars0 : List mp_var) : Prop :=
  ∀ v ∈ vars0, v.script_defined = true → v.mptcp_subtype = MP_CAPABLE_SUBTYPE →
    ∀ t, A (deref t v.value)

/-! ## Reading a result -/

/-- Status of a call that returned. -/
def ret_status {α β : Type} : Outcome (Int × α × β) → Option Int
  | .ret (st, _, _) => some st
  | .fault => none

/-- State after a call that returned (`d` after a fault). -/
def ret_state {α β : Type} (d : α) : Outcome (Int × α × β) → α
  | .ret (_, s, _) => s
  | .fault => d

/-- Option or packet after a call that returned (`d` after a fault). -/
def ret_value {α β : Type} (d : β) : Outcome (Int × α × β) → β
  | .ret (_, _, o) => o
  | .fault => d

/-! ## Concrete inputs -/

/-- Stand-ins for the external functions, simple enough to evaluate. -/
def demo_env : Env :=
  { sha1_64 := fun k => 3 * k + 7
    sha1_32 := fun k => 5 * k + 11
    hmac_64 := fun k m => k.sum * 1000 + m.sum
    hmac_160 := fun k m => k ++ m
    seed := fun g => g + 1
    rand64 := fun g => (1000 + g, g + 1)
    rand32 := fun g => (2000 + g, g + 1)
    malloc_subflow := fun _ => ⟨⟨0, 0⟩, ⟨0, 0⟩, 0, 0, 0, 0, 0, 0, 0⟩
    UNDEFINED := -1
    remote_ssn_bits := 32 }

/-- An MPTCP option of the given length and subtype, all fields zero. -/
def demo_opt (length subtype : Nat) : tcp_option :=
  { kind := TCPOPT_MPTCP, length := length, subtype := subtype,
    mp_capable_syn_key := 0, mp_capable_no_syn_sender_key := 0,
    mp_capable_no_syn_receiver_key := 0, mp_join_syn_address_id := 0,
    mp_join_syn_no_ack_receiver_token := 0, mp_join_syn_no_ack_sender_random_number := 0,
    mp_join_syn_ack_sender_hmac := 0, mp_join_syn_ack_sender_random_number := 0,
    mp_join_no_syn_sender_hmac := [], dss_flag_M := false, dss_flag_m := false,
    dss_flag_A := false, dss_flag_a := false, dss_dack_dack4 := 0 }

/-- An IPv4 packet from port 1000 to port 2000 (as the harness sends it). -/
def demo_inbound (syn ack : Bool) (options : List tcp_option) : packet :=
  { ipv4 := some { ihl := 5, src_ip := 1, dst_ip := 2 }, ipv6 := none,
    tcp := { src_port := htons 1000, dst_port := htons 2000, syn := syn, ack := ack,
             doff := 8 },
    ip_bytes := 52, options := options }

/-- An IPv4 packet from port 2000 to port 1000 (as the kernel sends it). -/
def demo_outbound (syn ack : Bool) (options : List tcp_option) : packet :=
  { ipv4 := some { ihl := 5, src_ip := 2, dst_ip := 1 }, ipv6 := none,
    tcp := { src_port := htons 2000, dst_port := htons 1000, syn := syn, ack := ack,
             doff := 8 },
    ip_bytes := 52, options := options }

/-- Session start with the four key hints of one MP_CAPABLE handshake. -/
def demo_s0 : mp_state_s :=
  enqueue_var (enqueue_var (enqueue_var (enqueue_var
    (init_mp_state demo_env (mp_state_zero 7)) "a") "b") "a") "b"

/-- After the inbound MP_CAPABLE SYN. -/
def demo_s1 : mp_state_s :=
  ret_state demo_s0 (mptcp_subtype_mp_capable demo_env demo_s0
    (demo_inbound true false [demo_opt 12 0]) (demo_inbound true false [demo_opt 12 0])
    (demo_opt 12 0) DIRECTION_INBOUND)

/-- The live SYN/ACK of the kernel, carrying the key 43981. -/
def demo_live_synack : packet :=
  demo_outbound true true [{ demo_opt 12 0 with mp_capable_syn_key := 43981 }]

/-- After the outbound MP_CAPABLE SYN/ACK. -/
def demo_s2 : mp_state_s :=
  ret_state demo_s1 (mptcp_subtype_mp_capable demo_env demo_s1
    (demo_outbound true true [demo_opt 12 0]) demo_live_synack (demo_opt 12 0)
    DIRECTION_OUTBOUND)

/-- After the inbound third step of the MP_CAPABLE handshake. -/
def demo_s3 : mp_state_s :=
  ret_state demo_s2 (mptcp_subtype_mp_capable demo_env demo_s2
    (demo_inbound false true [demo_opt 20 0]) (demo_inbound false true [demo_opt 20 0])
    (demo_opt 20 0) DIRECTION_INBOUND)

/-- The third-step option as the handler leaves it. -/
def demo_o3 : tcp_option :=
  ret_value (demo_opt 20 0) (mptcp_subtype_mp_capable demo_env demo_s2
    (demo_inbound false true [demo_opt 20 0]) (demo_inbound false true [demo_opt 20 0])
    (demo_opt 20 0) DIRECTION_INBOUND)

/-- A hint that leaves every MP_JOIN field to the engine. -/
def demo_auto : mp_join_info :=
  { address_id_script_defined := false, address_id := 0, is_script_defined := false,
    is_var := false, var := "", var2 := "", hash := 0, rand_script_defined := false,
    rand := 0 }

/-- The session after the MP_CAPABLE handshake, with the three hints the parser
emits for the three MP_JOIN options of a new subflow. -/
def demo_j0 : mp_state_s :=
  { demo_s3 with
    vars_queue := [.join_info demo_auto, .join_info demo_auto, .join_info demo_auto] }

/-- A packet of the joining subflow, port 1001 to port 2000. -/
def demo_join_inbound (syn ack : Bool) (options : List tcp_option) : packet :=
  { demo_inbound syn ack options with
    tcp := { src_port := htons 1001, dst_port := htons 2000, syn := syn, ack := ack,
             doff := 8 } }

/-- The kernel's packet of the joining subflow, port 2000 to port 1001. -/
def demo_join_outbound (syn ack : Bool) (options : List tcp_option) : packet :=
  { demo_outbound syn ack options with
    tcp := { src_port := htons 2000, dst_port := htons 1001, syn := syn, ack := ack,
             doff := 8 } }

/-- After the inbound MP_JOIN SYN. -/
def demo_j1 : mp_state_s :=
  ret_state demo_j0 (mptcp_subtype_mp_join demo_env demo_j0
    (demo_join_inbound true false [demo_opt 12 1])
    (demo_join_inbound true false [demo_opt 12 1]) (demo_opt 12 1) DIRECTION_INBOUND)

/-- The live MP_JOIN SYN/ACK of the kernel. -/
def demo_live_join_synack : packet :=
  demo_join_outbound true true
    [{ demo_opt 16 1 with mp_join_syn_address_id := 9,
                          mp_join_syn_ack_sender_random_number := 77 }]

/-- After the outbound MP_JOIN SYN/ACK. -/
def demo_j2 : mp_state_s :=
  ret_state demo_j1 (mptcp_subtype_mp_join demo_env demo_j1
    (demo_join_outbound true true [demo_opt 16 1]) demo_live_join_synack (demo_opt 16 1)
    DIRECTION_OUTBOUND)

/-- After the inbound MP_JOIN ACK. -/
def demo_j3 : mp_state_s :=
  ret_state demo_j2 (mptcp_subtype_mp_join demo_env demo_j2
    (demo_join_inbound false true [demo_opt 24 1])
    (demo_join_inbound false true [demo_opt 24 1]) (demo_opt 24 1) DIRECTION_INBOUND)

/-- The three MP_JOIN options as the handler leaves them. -/
def demo_jo1 : tcp_option :=
  ret_value (demo_opt 12 1) (mptcp_subtype_mp_join demo_env demo_j0
    (demo_join_inbound true false [demo_opt 12 1])
    (demo_join_inbound true false [demo_opt 12 1]) (demo_opt 12 1) DIRECTION_INBOUND)

def demo_jo2 : tcp_option :=
  ret_value (demo_opt 16 1) (mptcp_subtype_mp_join demo_env demo_j1
    (demo_join_outbound true true [demo_opt 16 1]) demo_live_join_synack (demo_opt 16 1)
    DIRECTION_OUTBOUND)

def demo_jo3 : tcp_option :=
  ret_value (demo_opt 24 1) (mptcp_subtype_mp_join demo_env demo_j2
    (demo_join_inbound false true [demo_opt 24 1])
    (demo_join_inbound false true [demo_opt 24 1]) (demo_opt 24 1) DIRECTION_INBOUND)

/-- A script that defines both key variables, `a = 1` and `b = 2`, and names
them in this order. -/
def demo_k0 : mp_state_s :=
  enqueue_var (enqueue_var
    (add_mp_var_script_defined
      (add_mp_var_script_defined (init_mp_state demo_env (mp_state_zero 7)) "a" 1 8)
      "b" 2 8) "a") "b"

/-- The state `demo_k0` after an inbound MP_CAPABLE SYN went through
`mptcp_insert_and_extract_opt_fields`: `packetdrill_key` is bound to 1. -/
def demo_k1 : mp_state_s :=
  ret_state demo_k0 (mptcp_insert_and_extract_opt_fields demo_env demo_k0
    (demo_inbound true false [demo_opt 12 0]) (demo_inbound true false [demo_opt 12 0])
    DIRECTION_INBOUND)

/-- The state `demo_k0` after an outbound MP_CAPABLE SYN went through
`mptcp_insert_and_extract_opt_fields`: `kernel_key` is bound to 1. -/
def demo_kk1 : mp_state_s :=
  ret_state demo_k0 (mptcp_insert_and_extract_opt_fields demo_env demo_k0
    (demo_outbound true false [demo_opt 12 0]) demo_live_synack DIRECTION_OUTBOUND)



/-- The state `demo_k1` after a second inbound MP_CAPABLE SYN. -/
def demo_k2 : mp_state_s :=
  ret_state demo_k1 (mptcp_insert_and_extract_opt_fields demo_env demo_k1
    (demo_inbound true false [demo_opt 12 0]) (demo_inbound true false [demo_opt 12 0])
    DIRECTION_INBOUND)

/-- The packet of that second call as the engine leaves it. -/
def demo_kp2 : packet :=
  ret_value (demo_inbound true false [demo_opt 12 0])
    (mptcp_insert_and_extract_opt_fields demo_env demo_k1
      (demo_inbound true false [demo_opt 12 0]) (demo_inbound true false [demo_opt 12 0])
      DIRECTION_INBOUND)

/-- The first call of the handshake `demo_s0` through the dispatcher. -/
def demo_d1 : mp_state_s :=
  ret_state demo_s0 (mptcp_insert_and_extract_opt_fields demo_env demo_s0
    (demo_inbound true false [demo_opt 12 0]) (demo_inbound true false [demo_opt 12 0])
    DIRECTION_INBOUND)

/-- The outbound MP_CAPABLE SYN/ACK of the handshake `demo_s0`, on `demo_d1`, through
the dispatcher. -/
def demo_d2 : mp_state_s :=
  ret_state demo_d1 (mptcp_insert_and_extract_opt_fields demo_env demo_d1
    (demo_outbound true true [demo_opt 12 0]) demo_live_synack DIRECTION_OUTBOUND)

def demo_dp2 : packet :=
  ret_value (demo_outbound true true [demo_opt 12 0])
    (mptcp_insert_and_extract_opt_fields demo_env demo_d1
      (demo_outbound true true [demo_opt 12 0]) demo_live_synack DIRECTION_OUTBOUND)

/-- The MP_JOIN option of the kernel's live SYN/ACK: address id 9, random
number 77. -/
def demo_live_join_opt : tcp_option :=
  { demo_opt 16 1 with mp_join_syn_address_id := 9,
                       mp_join_syn_ack_sender_random_number := 77 }

/-- The kernel's live MP_JOIN SYN on the ports 2000 and 1001: address id 9, random
number 77 (the four bytes 77, 0, 0, 0 in the packet). -/
def demo_live_join_syn : packet :=
  demo_join_outbound true false
    [{ demo_opt 12 1 with mp_join_syn_address_id := 9,
                          mp_join_syn_no_ack_sender_random_number := 77 }]

/-- State and scripted option after the outbound MP_JOIN SYN on `demo_j0` with the
live packet `demo_live_join_syn`. -/
def demo_js1 : mp_state_s :=
  ret_state demo_j0 (mptcp_subtype_mp_join demo_env demo_j0
    (demo_join_outbound true false [demo_opt 12 1]) demo_live_join_syn (demo_opt 12 1)
    DIRECTION_OUTBOUND)

def demo_jso1 : tcp_option :=
  ret_value (demo_opt 12 1) (mptcp_subtype_mp_join demo_env demo_j0
    (demo_join_outbound true false [demo_opt 12 1]) demo_live_join_syn (demo_opt 12 1)
    DIRECTION_OUTBOUND)

/-- Side A of the SYN/ACK round trip: state and option after an inbound MP_JOIN
SYN/ACK on the joined subflow of `demo_j2`. -/
def demo_a1 : mp_state_s :=
  ret_state demo_j2 (mptcp_subtype_mp_join demo_env demo_j2
    (demo_join_inbound true true [demo_opt 16 1])
    (demo_join_inbound true true [demo_opt 16 1]) (demo_opt 16 1) DIRECTION_INBOUND)

def demo_ao1 : tcp_option :=
  ret_value (demo_opt 16 1) (mptcp_subtype_mp_join demo_env demo_j2
    (demo_join_inbound true true [demo_opt 16 1])
    (demo_join_inbound true true [demo_opt 16 1]) (demo_opt 16 1) DIRECTION_INBOUND)

/-- The packet side A sends: its SYN/ACK with the option as A filled it. -/
def demo_a_wire : packet := demo_join_inbound true true [demo_ao1]

/-- Side B of the round trip, the mirror of `demo_j2`: the two keys exchanged, one
subflow on which A's packets are outbound, whose `packetdrill_rand_nbr` is A's
`kernel_rand_nbr` (77). -/
def demo_b0 : mp_state_s :=
  { demo_j2 with
    packetdrill_key := demo_j2.kernel_key
    kernel_key := demo_j2.packetdrill_key
    subflows :=
      [{ src_ip := ip_from_ipv4 2, dst_ip := ip_from_ipv4 1, src_port := 2000,
         dst_port := 1001, packetdrill_addr_id := 0, kernel_addr_id := 0,
         kernel_rand_nbr := 0, packetdrill_rand_nbr := 77, ssn := 0 }] }

/-- Side B after it handled A's packet as an outbound MP_JOIN SYN/ACK. -/
def demo_b1 : mp_state_s :=
  ret_state demo_b0 (mptcp_subtype_mp_join demo_env demo_b0
    (demo_join_inbound true true [demo_opt 16 1]) demo_a_wire (demo_opt 16 1)
    DIRECTION_OUTBOUND)

def demo_bo1 : tcp_option :=
  ret_value (demo_opt 16 1) (mptcp_subtype_mp_join demo_env demo_b0
    (demo_join_inbound true true [demo_opt 16 1]) demo_a_wire (demo_opt 16 1)
    DIRECTION_OUTBOUND)

/-- The packet `p` without an IP header: both header pointers are NULL. -/
def demo_no_ip (p : packet) : packet := { p with ipv4 := none, ipv6 := none }

/-- A run of the loop of `mptcp_insert_and_extract_opt_fields` in which every handler
called returned 0: from the loop position `done`, `todo`, `s` (options already
visited, options ahead, session state) the loop arrives at the position `done'`,
`todo'`, `s'`.  An option of another kind is passed over as it is; an MPTCP option
goes through `dispatch_option` and is replaced by what the handler made of it. -/
inductive options_handled (E : Env) (live_packet : packet) (direction : Nat) (p : packet) :
    List tcp_option → List tcp_option → mp_state_s →
    List tcp_option → List tcp_option → mp_state_s → Prop
  | stop (done todo : List tcp_option) (s : mp_state_s) :
      options_handled E live_packet direction p done todo s done todo s
  | skip (done : List tcp_option) (o : tcp_option) (todo : List tcp_option)
      (s : mp_state_s) (done' todo' : List tcp_option) (s' : mp_state_s) :
      o.kind ≠ TCPOPT_MPTCP →
      options_handled E live_packet direction p (done ++ [o]) todo s done' todo' s' →
      options_handled E live_packet direction p done (o :: todo) s done' todo' s'
  | run (done : List tcp_option) (o : tcp_option) (todo : List tcp_option)
      (s s1 : mp_state_s) (o1 : tcp_option) (done' todo' : List tcp_option)
      (s' : mp_state_s) :
      o.kind = TCPOPT_MPTCP →
      dispatch_option E s { p with options := done ++ o :: todo } live_packet o direction
        = .ret (0, s1, o1) →
      options_handled E live_packet direction p (done ++ [o1]) todo s1 done' todo' s' →
      options_handled E live_packet direction p done (o :: todo) s done' todo' s'

/-- The packet has an IPv4 or an IPv6 header. -/
def has_ip_header (p : packet) : Bool := p.ipv4.isSome || p.ipv6.isSome

/-- What a handler that calls `new_subflow_inbound` on `p` makes of the registry and of
`last_packetdrill_addr_id`: with an IP header one subflow is put in front and the
counter is incremented, without one both stay. -/
def inbound_subflow_effect (p : packet) (s s' : mp_state_s) : Prop :=
  (has_ip_header p = true ∧ (∃ sf, s'.subflows = sf :: s.subflows) ∧
      s'.last_packetdrill_addr_id = (s.last_packetdrill_addr_id + 1) % 2 ^ 32) ∨
    (has_ip_header p = false ∧ s'.subflows = s.subflows ∧
      s'.last_packetdrill_addr_id = s.last_packetdrill_addr_id)

/-- What a handler that calls `new_subflow_outbound` on `q` makes of the registry and of
`last_packetdrill_addr_id`: the counter stays, and one subflow is put in front when
`q` has an MPTCP option and an IP header. -/
def outbound_subflow_effect (q : packet) (s s' : mp_state_s) : Prop :=
  s'.last_packetdrill_addr_id = s.last_packetdrill_addr_id ∧
    (((get_tcp_option q TCPOPT_MPTCP).isSome = true ∧ has_ip_header q = true ∧
        ∃ sf, s'.subflows = sf :: s.subflows) ∨
      (((get_tcp_option q TCPOPT_MPTCP).isSome = false ∨ has_ip_header q = false) ∧
        s'.subflows = s.subflows))

/-- The two counters and the registry are the same in `s` and `s'`. -/
def counters_frame (s s' : mp_state_s) : Prop :=
  s'.remote_ssn = s.remote_ssn ∧
    s'.last_packetdrill_addr_id = s.last_packetdrill_addr_id ∧ s'.subflows = s.subflows

/-- Number of MPTCP options among `opts`: an upper bound of the handler calls of one
pass of the dispatcher. -/
def mptcp_option_count (opts : List tcp_option) : Nat :=
  opts.countP (fun o => o.kind == TCPOPT_MPTCP)

/-- The options on which a handler calls a subflow constructor: an MP_CAPABLE option of
length 20, and an MP_JOIN option of length 12 on a SYN without ACK. -/
def creates_subflow (p : packet) (o : tcp_option) : Prop :=
  (o.subtype = MP_CAPABLE_SUBTYPE ∧ o.length = TCPOLEN_MP_CAPABLE) ∨
    (o.subtype = MP_JOIN_SUBTYPE ∧ p.tcp.syn = true ∧ p.tcp.ack = false ∧
      o.length = TCPOLEN_MP_JOIN_SYN)

instance (p : packet) (o : tcp_option) : Decidable (creates_subflow p o) := by
  unfold creates_subflow
  infer_instance

/-- Session states reachable from `init_mp_state` on the zeroed global: the parser
queues hints and registers script-defined variables, and the harness calls
`mptcp_insert_and_extract_opt_fields`.  The index counts the MPTCP options of the
calls that were not inbound.  An inbound call is a step only while
`last_packetdrill_addr_id` cannot wrap around during it. -/
inductive reachable (E : Env) : Nat → mp_state_s → Prop
  | init (g : Nat) : reachable E 0 (init_mp_state E (mp_state_zero g))
  | hint (k : Nat) (s : mp_state_s) (el : queue_el) :
      reachable E k s →
      reachable E k { s with vars_queue := queue_enqueue s.vars_queue el }
  | script_var (k : Nat) (s : mp_state_s) (name : String) (value length : Nat) :
      reachable E k s → reachable E k (add_mp_var_script_defined s name value length)
  | inbound (k : Nat) (s s' : mp_state_s) (p live p' : packet) (st : Int) :
      reachable E k s →
      s.last_packetdrill_addr_id + mptcp_option_count p.options < 2 ^ 32 →
      mptcp_insert_and_extract_opt_fields E s p live DIRECTION_INBOUND = .ret (st, s', p') →
      reachable E k s'
  | other (k : Nat) (s s' : mp_state_s) (p live p' : packet) (st : Int) (direction : Nat) :
      reachable E k s → direction ≠ DIRECTION_INBOUND →
      mptcp_insert_and_extract_opt_fields E s p live direction = .ret (st, s', p') →
      reachable E (k + mptcp_option_count p.options) s'

/-- A DSS option that carries a 4-byte DACK and no DSN. -/
def demo_dss_ack (dack4 : Nat) : tcp_option :=
  { demo_opt 8 2 with dss_flag_A := true, dss_dack_dack4 := dack4 }

/-- A DSS option that carries a DSN and a 4-byte DACK whose value is `UNDEFINED`. -/
def demo_dss_dsn_ack : tcp_option :=
  { demo_opt 20 2 with dss_flag_M := true, dss_flag_A := true,
                       dss_dack_dack4 := 4294967295 }

/-- A TCP option that is not an MPTCP option (kind 1, no-operation). -/
def demo_nop : tcp_option := { demo_opt 1 0 with kind := 1 }

/-- An MPTCP option whose subtype (7) has no handler. -/
def demo_unknown : tcp_option := demo_opt 4 7

/-- An inbound SYN of the joining subflow with four options: an MP_JOIN SYN, a
no-operation, an MPTCP option of unknown subtype and a second MP_JOIN SYN. -/
def demo_mixed : packet :=
  demo_join_inbound true false [demo_opt 12 1, demo_nop, demo_unknown, demo_opt 12 1]

/-- State and packet after `mptcp_insert_and_extract_opt_fields` on `demo_mixed`. -/
def demo_m1 : mp_state_s :=
  ret_state demo_j0 (mptcp_insert_and_extract_opt_fields demo_env demo_j0 demo_mixed
    demo_mixed DIRECTION_INBOUND)

def demo_mp1 : packet :=
  ret_value demo_mixed (mptcp_insert_and_extract_opt_fields demo_env demo_j0 demo_mixed
    demo_mixed DIRECTION_INBOUND)

/-- The script of `demo_k0` with `remote_ssn` two steps below the 32-bit maximum. -/
def demo_w0 : mp_state_s := { demo_k0 with remote_ssn := 4294967294 }

/-- An outbound SYN with two MP_CAPABLE options of length 12. -/
def demo_two_capable : packet :=
  demo_outbound true false [demo_opt 12 0, demo_opt 12 0]

def demo_w1 : mp_state_s :=
  ret_state demo_w0 (mptcp_insert_and_extract_opt_fields demo_env demo_w0 demo_two_capable
    demo_live_synack DIRECTION_OUTBOUND)

/-- The session `demo_j0` with `last_packetdrill_addr_id` two steps below the maximum
of an `unsigned`. -/
def demo_v0 : mp_state_s := { demo_j0 with last_packetdrill_addr_id := 4294967294 }

/-- An inbound SYN with two MP_JOIN options of length 12. -/
def demo_two_join : packet := demo_join_inbound true false [demo_opt 12 1, demo_opt 12 1]

def demo_v1 : mp_state_s :=
  ret_state demo_v0 (mptcp_insert_and_extract_opt_fields demo_env demo_v0 demo_two_join
    demo_two_join DIRECTION_INBOUND)

/-- A handshake the kernel opens, on the hints of `demo_s0`: the state after the
outbound MP_CAPABLE SYN, after the inbound SYN/ACK, and after the outbound third
step. -/
def demo_c1 : mp_state_s :=
  ret_state demo_s0 (mptcp_insert_and_extract_opt_fields demo_env demo_s0
    (demo_outbound true false [demo_opt 12 0])
    (demo_outbound true false [{ demo_opt 12 0 with mp_capable_syn_key := 43981 }])
    DIRECTION_OUTBOUND)

def demo_c2 : mp_state_s :=
  ret_state demo_c1 (mptcp_insert_and_extract_opt_fields demo_env demo_c1
    (demo_inbound true true [demo_opt 12 0]) (demo_inbound true true [demo_opt 12 0])
    DIRECTION_INBOUND)

def demo_c3 : mp_state_s :=
  ret_state demo_c2 (mptcp_insert_and_extract_opt_fields demo_env demo_c2
    (demo_outbound false true [demo_opt 20 0]) (demo_outbound false true [demo_opt 20 0])
    DIRECTION_OUTBOUND)

/-- The session right after `init_mp_state`, no hint queued. -/
def demo_i0 : mp_state_s := init_mp_state demo_env (mp_state_zero 7)

/-- The state `demo_i0` after an inbound MP_CAPABLE option of length 20. -/
def demo_i1 : mp_state_s :=
  ret_state demo_i0 (mptcp_subtype_mp_capable demo_env demo_i0
    (demo_inbound false true [demo_opt 20 0]) (demo_inbound false true [demo_opt 20 0])
    (demo_opt 20 0) DIRECTION_INBOUND)

/-- The third step of the handshake `demo_s0` through the dispatcher. -/
def demo_d3 : mp_state_s :=
  ret_state demo_d2 (mptcp_insert_and_extract_opt_fields demo_env demo_d2
    (demo_inbound false true [demo_opt 20 0]) (demo_inbound false true [demo_opt 20 0])
    DIRECTION_INBOUND)

/-- An IPv6 packet from port 1000 to port 2000. -/
def demo_inbound6 (syn ack : Bool) (options : List tcp_option) : packet :=
  { demo_inbound syn ack options with
    ipv4 := none, ipv6 := some { src_ip := 1, dst_ip := 2 } }

/-- The options on which a handler assigns `idsn` and `remote_idsn`: an MP_CAPABLE
option of length 20. -/
def derives_idsn (o : tcp_option) : Prop :=
  o.subtype = MP_CAPABLE_SUBTYPE ∧ o.length = TCPOLEN_MP_CAPABLE

instance (o : tcp_option) : Decidable (derives_idsn o) := by
  unfold derives_idsn
  infer_instance

/-- The options on which `dss_inbound_parser` assigns `remote_idsn`: an inbound DSS
option without DSN, with a 4-byte DACK whose value is `SCRIPT_DEFINED`. -/
def rebinds_remote_idsn (direction : Nat) (o : tcp_option) : Prop :=
  o.subtype = DSS_SUBTYPE ∧ direction = DIRECTION_INBOUND ∧ o.dss_flag_M = false ∧
    o.dss_flag_A = true ∧ o.dss_flag_a = false ∧ o.dss_dack_dack4 = SCRIPT_DEFINED

instance (direction : Nat) (o : tcp_option) : Decidable (rebinds_remote_idsn direction o) := by
  unfold rebinds_remote_idsn
  infer_instance

/-- The subflow record behind the pointer a lookup returns; `none` for NULL. -/
def subflow_at (s : mp_state_s) (ptr : Option Nat) : Option mp_subflow :=
  match ptr with
  | none => none
  | some i => s.subflows[i]?

/-- The session `demo_s3` after the parser queued the hint `b` for a DSS option whose
acknowledgement names the kernel's key variable. -/
def demo_e0 : mp_state_s := enqueue_var demo_s3 "b"

/-- The state `demo_e0` after an inbound DSS option with a script-defined 4-byte
DACK. -/
def demo_e1 : mp_state_s :=
  ret_state demo_e0 (mptcp_insert_and_extract_opt_fields demo_env demo_e0
    (demo_inbound false true [demo_dss_ack 1]) (demo_inbound false true [demo_dss_ack 1])
    DIRECTION_INBOUND)

/-- The script of `demo_k0` (`a = 1`, `b = 2`) with the hints of a handshake, `a`, `b`,
`a`, `b`, followed by the hints `b`, `b`, `a` of a second inbound SYN and third
step. -/
def demo_q0 : mp_state_s :=
  enqueue_var (enqueue_var (enqueue_var (enqueue_var (enqueue_var demo_k0 "a") "b") "b") "b")
    "a"

/-- The states along `demo_q0`: after the inbound SYN, the outbound SYN/ACK, the
inbound third step, the second inbound SYN and the second inbound third step. -/
def demo_q1 : mp_state_s :=
  ret_state demo_q0 (mptcp_insert_and_extract_opt_fields demo_env demo_q0
    (demo_inbound true false [demo_opt 12 0]) (demo_inbound true false [demo_opt 12 0])
    DIRECTION_INBOUND)

def demo_q2 : mp_state_s :=
  ret_state demo_q1 (mptcp_insert_and_extract_opt_fields demo_env demo_q1
    (demo_outbound true true [demo_opt 12 0]) demo_live_synack DIRECTION_OUTBOUND)

def demo_q3 : mp_state_s :=
  ret_state demo_q2 (mptcp_insert_and_extract_opt_fields demo_env demo_q2
    (demo_inbound false true [demo_opt 20 0]) (demo_inbound false true [demo_opt 20 0])
    DIRECTION_INBOUND)

def demo_q4 : mp_state_s :=
  ret_state demo_q3 (mptcp_insert_and_extract_opt_fields demo_env demo_q3
    (demo_inbound true false [demo_opt 12 0]) (demo_inbound true false [demo_opt 12 0])
    DIRECTION_INBOUND)

def demo_q5 : mp_state_s :=
  ret_state demo_q4 (mptcp_insert_and_extract_opt_fields demo_env demo_q4
    (demo_inbound false true [demo_opt 20 0]) (demo_inbound false true [demo_opt 20 0])
    DIRECTION_INBOUND)

/-- An outbound IPv4 packet of 152 bytes that carries a DSS option with a DSN: its
TCP payload length, as `mptcp_subtype_dss` computes it, is 100. -/
def demo_data_out : packet :=
  { demo_outbound false true [demo_dss_dsn_ack] with ip_bytes := 152 }

/-- Two subflows with the ports 1001 and 2000 that differ in their address id and
random number. -/
def demo_sf_a : mp_subflow :=
  { src_ip := ip_from_ipv4 1, dst_ip := ip_from_ipv4 2, src_port := 1001, dst_port := 2000,
    packetdrill_addr_id := 1, kernel_addr_id := 0, kernel_rand_nbr := 0,
    packetdrill_rand_nbr := 2010, ssn := 0 }

def demo_sf_b : mp_subflow :=
  { demo_sf_a with packetdrill_addr_id := 2, packetdrill_rand_nbr := 2011 }

/-- Two registries with the same two subflows in the two orders. -/
def demo_r1 : mp_state_s := { demo_j0 with subflows := [demo_sf_a, demo_sf_b] }

def demo_r2 : mp_state_s := { demo_j0 with subflows := [demo_sf_b, demo_sf_a] }

/-- The session `demo_j1` with its registry in reverse order. -/
def demo_r3 : mp_state_s := { demo_j1 with subflows := demo_j1.subflows.reverse }

/-- An MP_JOIN hint with a script-defined address id 65 and a variable `k`. -/
def demo_named : mp_join_info :=
  { demo_auto with
    address_id_script_defined := true, address_id := 65, is_script_defined := true,
    is_var := true, var := "k" }

/-- The bytes of `demo_named` up to the first zero: 1, 65, 1, 1 and `k`. -/
def demo_named_bytes : String :=
  String.mk [Char.ofNat 1, Char.ofNat 65, Char.ofNat 1, Char.ofNat 1, Char.ofNat 107]

/-- A fresh session whose FIFO holds the MP_JOIN hint `demo_named`, then a name. -/
def demo_n0 : mp_state_s :=
  { demo_i0 with vars_queue := [.join_info demo_named, .var_name "a"] }

/-- After `mptcp_gen_key` on `demo_n0`. -/
def demo_n1 : mp_state_s :=
  match mptcp_gen_key demo_env demo_n0 with
  | .ret (_, s) => s
  | .fault => demo_n0

/-- After `extract_and_set_kernel_key` on `demo_n0`. -/
def demo_n2 : mp_state_s :=
  match extract_and_set_kernel_key demo_n0 demo_live_synack with
  | .ret (_, s) => s
  | .fault => demo_n0

/-- The session after the MP_CAPABLE handshake with a single MP_JOIN hint. -/
def demo_h0 : mp_state_s := { demo_s3 with vars_queue := [.join_info demo_auto] }

/-- After the inbound MP_JOIN SYN on `demo_h0`: the subflow is registered and
the FIFO is empty. -/
def demo_h1 : mp_state_s :=
  ret_state demo_h0 (mptcp_subtype_mp_join demo_env demo_h0
    (demo_join_inbound true false [demo_opt 12 1])
    (demo_join_inbound true false [demo_opt 12 1]) (demo_opt 12 1) DIRECTION_INBOUND)

/-- The session after the MP_CAPABLE handshake with two MP_JOIN hints. -/
def demo_g0 : mp_state_s :=
  { demo_s3 with vars_queue := [.join_info demo_auto, .join_info demo_auto] }

/-- After the inbound MP_JOIN SYN on `demo_g0`. -/
def demo_g1 : mp_state_s :=
  ret_state demo_g0 (mptcp_subtype_mp_join demo_env demo_g0
    (demo_join_inbound true false [demo_opt 12 1])
    (demo_join_inbound true false [demo_opt 12 1]) (demo_opt 12 1) DIRECTION_INBOUND)

/-- After the outbound MP_JOIN SYN/ACK on `demo_g1`: the subflow holds the
kernel's address id and random number and the FIFO is empty. -/
def demo_g2 : mp_state_s :=
  ret_state demo_g1 (mptcp_subtype_mp_join demo_env demo_g1
    (demo_join_outbound true true [demo_opt 16 1]) demo_live_join_synack (demo_opt 16 1)
    DIRECTION_OUTBOUND)

/-! ## Frame lemmas and the handshake claims -/

@[simp]
theorem read_as_name_var_name (n : String) : read_as_name (.var_name n) = n := rfl

theorem find_next_key_frame {s s1 : mp_state_s} {k : Option Nat}
    (h : find_next_key s = .ret (k, s1)) :
    s1 = { s with vars_queue := s1.vars_queue } := by
  unfold find_next_key queue_dequeue at h
  split at h
  · simp at h; obtain ⟨-, rfl⟩ := h; rfl
  · simp only at h
    split at h
    · simp at h
    · simp at h; obtain ⟨-, rfl⟩ := h; rfl

theorem mptcp_set_mp_cap_keys_frame {s s1 : mp_state_s} {o o1 : tcp_option} {e : Int}
    (h : mptcp_set_mp_cap_keys s o = .ret (e, s1, o1)) :
    s1 = { s with vars_queue := s1.vars_queue } := by
  unfold mptcp_set_mp_cap_keys at h
  split at h
  · simp at h
  · rename_i sa h1
    simp at h; obtain ⟨-, rfl, -⟩ := h
    exact find_next_key_frame h1
  · rename_i key sa h1
    have f1 := find_next_key_frame h1
    simp only at h
    split at h
    · simp at h
    · rename_i sb h2
      simp at h; obtain ⟨-, rfl, -⟩ := h
      have f2 := find_next_key_frame h2
      rw [f2, f1]
    · rename_i key2 sb h2
      simp at h; obtain ⟨-, rfl, -⟩ := h
      have f2 := find_next_key_frame h2
      rw [f2, f1]

theorem new_subflow_inbound_frame (E : Env) (s : mp_state_s) (p : packet) :
    (new_subflow_inbound E s p).2 =
      { s with
        subflows := (new_subflow_inbound E s p).2.subflows
        last_packetdrill_addr_id := (new_subflow_inbound E s p).2.last_packetdrill_addr_id
        prng := (new_subflow_inbound E s p).2.prng
        heap := (new_subflow_inbound E s p).2.heap } := by
  unfold new_subflow_inbound malloc_subflow generate_32
  rcases p.ipv4 with _ | h4 <;> rcases p.ipv6 with _ | h6 <;> simp

theorem new_subflow_outbound_frame (E : Env) (s : mp_state_s) (p : packet) :
    (new_subflow_outbound E s p).2 =
      { s with
        subflows := (new_subflow_outbound E s p).2.subflows
        heap := (new_subflow_outbound E s p).2.heap } := by
  unfold new_subflow_outbound malloc_subflow
  rcases get_tcp_option p TCPOPT_MPTCP with _ | o <;>
    rcases p.ipv4 with _ | h4 <;> rcases p.ipv6 with _ | h6 <;> simp

/-- C1: after `mptcp_subtype_mp_capable` has handled an option of length 20 in
either direction, `idsn` is `sha1_least_64bits` of the packetdrill key,
`remote_idsn` is `sha1_least_64bits` of the kernel key and `last_dsn_rcvd` is
their sum with `remote_ssn` modulo `2 ^ 64`; the keys and `remote_ssn` are the
ones of the state before the call. -/
theorem mp_capable_third_step_derives_idsn (E : Env) (s s' : mp_state_s)
    (p live : packet) (o o' : tcp_option) (direction : Nat) (status : Int)
    (hlen : o.length = TCPOLEN_MP_CAPABLE)
    (hdir : direction = DIRECTION_INBOUND ∨ direction = DIRECTION_OUTBOUND)
    (hret : mptcp_subtype_mp_capable E s p live o direction = .ret (status, s', o')) :
    s'.idsn = sha1_least_64bits E s'.packetdrill_key ∧
    s'.remote_idsn = sha1_least_64bits E s'.kernel_key ∧
    s'.last_dsn_rcvd = (s'.remote_idsn + s'.remote_ssn) % 2 ^ 64 ∧
    s'.packetdrill_key = s.packetdrill_key ∧ s'.kernel_key = s.kernel_key ∧
    s'.remote_ssn = s.remote_ssn := by
  unfold mptcp_subtype_mp_capable at hret
  simp only [hlen] at hret
  simp at hret
  split at hret
  · simp at hret
  · rename_i e s1 o1 hk
    have f := mptcp_set_mp_cap_keys_frame hk
    rcases hdir with rfl | rfl
    · simp at hret
      obtain ⟨-, rfl, -⟩ := hret
      rw [new_subflow_inbound_frame]
      simp
      rw [f]; simp [DSN_BITS]
    · simp at hret
      obtain ⟨-, rfl, -⟩ := hret
      rw [new_subflow_outbound_frame]
      simp
      rw [f]; simp [DSN_BITS]

theorem mptcp_gen_key_script_defined (E : Env) (s : mp_state_s) (n : String)
    (rest : List queue_el) (v : mp_var)
    (hq : s.vars_queue = .var_name n :: rest) (hf : find_mp_var s n = some v)
    (hm : v.mptcp_subtype = MP_CAPABLE_SUBTYPE) (hd : v.script_defined = true) :
    mptcp_gen_key E s = .ret (STATUS_OK, set_packetdrill_key s (deref s v.value)) := by
  unfold mptcp_gen_key queue_front
  simp [hq, hf, hm, hd, set_packetdrill_key]

theorem extract_kernel_key_script_defined (s : mp_state_s) (live : packet) (lo : tcp_option)
    (n : String) (rest : List queue_el) (v : mp_var)
    (hl : get_tcp_option live TCPOPT_MPTCP = some lo)
    (hq : s.vars_queue = .var_name n :: rest) (hf : find_mp_var s n = some v)
    (hm : v.mptcp_subtype = MP_CAPABLE_SUBTYPE) (hd : v.script_defined = true) :
    extract_and_set_kernel_key s live =
      .ret (STATUS_OK, set_kernel_key s (deref s v.value)) := by
  unfold extract_and_set_kernel_key queue_front
  simp [hl, hq, hf, hm, hd, set_kernel_key]

/-- C6: when the front hint names a script-defined key variable (a record as
`add_mp_var_script_defined` makes it) whose value is `v`, `mptcp_gen_key` binds
`packetdrill_key` to `v`, leaves the random generator and the variable table
untouched, and `extract_and_set_kernel_key` binds `kernel_key` to `v` whatever
key the live option carries. -/
theorem script_defined_key_takes_precedence (E : Env) (s : mp_state_s) (live : packet)
    (lo : tcp_option) (n : String) (rest : List queue_el) (var : mp_var) (v : Nat)
    (hq : s.vars_queue = .var_name n :: rest) (hf : find_mp_var s n = some var)
    (hm : var.mptcp_subtype = MP_CAPABLE_SUBTYPE) (hd : var.script_defined = true)
    (hv : deref s var.value = v)
    (hl : get_tcp_option live TCPOPT_MPTCP = some lo) :
    (∃ s', mptcp_gen_key E s = .ret (STATUS_OK, s') ∧ s'.packetdrill_key = v ∧
      s'.packetdrill_key_set = true ∧ s'.prng = s.prng ∧ s'.vars = s.vars) ∧
    (∃ s', extract_and_set_kernel_key s live = .ret (STATUS_OK, s') ∧
      s'.kernel_key = v ∧ s'.kernel_key_set = true ∧ s'.vars = s.vars) := by
  constructor
  · exact ⟨_, mptcp_gen_key_script_defined E s n rest var hq hf hm hd,
      by simp [set_packetdrill_key, hv]⟩
  · exact ⟨_, extract_kernel_key_script_defined s live lo n rest var hl hq hf hm hd,
      by simp [set_kernel_key, hv]⟩

/-- C3 (amended): with `packetdrill_key` already bound to `k` and the front hint
naming a script-defined key variable of a different value `k'`,
`mptcp_gen_key` returns `STATUS_OK` and rebinds `packetdrill_key` to `k'`;
likewise `extract_and_set_kernel_key`, on a live packet with an MPTCP option,
returns `STATUS_OK` and rebinds `kernel_key` to `k'`. -/
theorem key_rebind_is_accepted (E : Env) (s : mp_state_s) (live : packet)
    (lo : tcp_option) (n : String) (rest : List queue_el) (var : mp_var) (k' : Nat)
    (hq : s.vars_queue = .var_name n :: rest) (hf : find_mp_var s n = some var)
    (hm : var.mptcp_subtype = MP_CAPABLE_SUBTYPE) (hd : var.script_defined = true)
    (hv : deref s var.value = k')
    (hl : get_tcp_option live TCPOPT_MPTCP = some lo) :
    (s.packetdrill_key_set = true → s.packetdrill_key ≠ k' →
      ∃ s', mptcp_gen_key E s = .ret (STATUS_OK, s') ∧ s'.packetdrill_key = k' ∧
        s'.packetdrill_key ≠ s.packetdrill_key) ∧
    (s.kernel_key_set = true → s.kernel_key ≠ k' →
      ∃ s', extract_and_set_kernel_key s live = .ret (STATUS_OK, s') ∧
        s'.kernel_key = k' ∧ s'.kernel_key ≠ s.kernel_key) := by
  constructor
  · intro _ hne
    exact ⟨_, mptcp_gen_key_script_defined E s n rest var hq hf hm hd,
      by simp [set_packetdrill_key, hv], by simpa [set_packetdrill_key, hv] using Ne.symm hne⟩
  · intro _ hne
    exact ⟨_, extract_kernel_key_script_defined s live lo n rest var hl hq hf hm hd,
      by simp [set_kernel_key, hv], by simpa [set_kernel_key, hv] using Ne.symm hne⟩

theorem find_mp_var_add_self (s : mp_state_s) (n : String) (val : var_value) :
    find_mp_var (add_mp_var_key s n val) n =
      some { name := n, value := val, mptcp_subtype := MP_CAPABLE_SUBTYPE,
             script_defined := false } := by
  simp [find_mp_var, add_mp_var_key, add_mp_var]

theorem find_next_key_found (s : mp_state_s) (n : String) (rest : List queue_el) (v : mp_var)
    (hq : s.vars_queue = .var_name n :: rest) (hf : find_mp_var s n = some v) :
    find_next_key s = .ret (some (deref s v.value), { s with vars_queue := rest }) := by
  have hf' : find_mp_var { s with vars_queue := rest } n = some v := hf
  unfold find_next_key queue_dequeue
  simp only [hq, read_as_name_var_name, hf']
  cases v.value <;> rfl

theorem mptcp_set_mp_cap_syn_key_found (s : mp_state_s) (o : tcp_option) (n : String)
    (rest : List queue_el) (v : mp_var)
    (hq : s.vars_queue = .var_name n :: rest) (hf : find_mp_var s n = some v) :
    mptcp_set_mp_cap_syn_key s o =
      .ret (STATUS_OK, { s with vars_queue := rest },
        { o with mp_capable_syn_key := deref s v.value }) := by
  unfold mptcp_set_mp_cap_syn_key
  rw [find_next_key_found s n rest v hq hf]

/-- C4: an inbound MP_CAPABLE option of length 12 (SYN or SYN/ACK), with
`packetdrill_key` unbound and a front key hint whose name is not in the variable
table, makes `mptcp_subtype_mp_capable` return `STATUS_OK`; `packetdrill_key` is
the 64-bit value drawn from the seeded generator and is marked bound, the hinted
name maps to an engine-generated record whose value is `packetdrill_key`, the
option's key field is `packetdrill_key`, and the hint is consumed. -/
theorem mp_capable_syn_inbound_generates_key (E : Env) (s : mp_state_s)
    (p live : packet) (o : tcp_option) (n : String) (rest : List queue_el)
    (hlen : o.length = TCPOLEN_MP_CAPABLE_SYN)
    (hset : s.packetdrill_key_set = false)
    (hq : s.vars_queue = .var_name n :: rest)
    (hf : find_mp_var s n = none) :
    ∃ s' o' var,
      mptcp_subtype_mp_capable E s p live o DIRECTION_INBOUND = .ret (STATUS_OK, s', o') ∧
      s'.packetdrill_key = (E.rand64 (E.seed s.prng)).1 % 2 ^ 64 ∧
      s'.packetdrill_key_set = true ∧
      find_mp_var s' n = some var ∧ var.script_defined = false ∧
      var.mptcp_subtype = MP_CAPABLE_SUBTYPE ∧
      deref s' var.value = s'.packetdrill_key ∧
      o'.mp_capable_syn_key = s'.packetdrill_key ∧
      s'.vars_queue = rest := by
  obtain ⟨g, hgdef⟩ : ∃ g, g = add_mp_var_key (set_packetdrill_key
      (rand_64 E (seed_generator E s)).2 (rand_64 E (seed_generator E s)).1) n
      .packetdrill_key_ref := ⟨_, rfl⟩
  have hg : mptcp_gen_key E s = .ret (STATUS_OK, g) := by
    unfold mptcp_gen_key queue_front
    simp [hq, hf, hset, hgdef]
  have hgq : g.vars_queue = .var_name n :: rest := by
    simp [hgdef, add_mp_var_key, add_mp_var, set_packetdrill_key, rand_64, seed_generator, hq]
  have hgf : find_mp_var g n = some ⟨n, .packetdrill_key_ref, MP_CAPABLE_SUBTYPE, false⟩ := by
    rw [hgdef]; exact find_mp_var_add_self _ _ _
  have hgk : g.packetdrill_key = (E.rand64 (E.seed s.prng)).1 % 2 ^ 64 := by
    simp [hgdef, add_mp_var_key, add_mp_var, set_packetdrill_key, rand_64, seed_generator]
  have hgs : g.packetdrill_key_set = true := by
    simp [hgdef, add_mp_var_key, add_mp_var, set_packetdrill_key]
  have hk := mptcp_set_mp_cap_syn_key_found g o n rest _ hgq hgf
  refine ⟨{ g with vars_queue := rest },
    { o with mp_capable_syn_key := g.packetdrill_key },
    ⟨n, .packetdrill_key_ref, MP_CAPABLE_SUBTYPE, false⟩, ?_, hgk, hgs, hgf, rfl, rfl, rfl,
    rfl, rfl⟩
  unfold mptcp_subtype_mp_capable
  rcases hack : p.tcp.ack with _ | _
  · simp only [hlen, hack, hg, hk, and_self, if_true]
    rfl
  · simp only [hlen, hack, hg, hk]
    simp [c_or, deref]

theorem find_next_key_some {s s1 : mp_state_s} {k : Nat}
    (h : find_next_key s = .ret (some k, s1)) :
    ∃ el v, s.vars_queue = el :: s1.vars_queue ∧ find_mp_var s (read_as_name el) = some v ∧
      k = deref s v.value := by
  unfold find_next_key queue_dequeue at h
  split at h
  · simp at h
  · rename_i el rest heq
    simp only at h
    split at h
    · simp at h
    · rename_i var hv
      simp at h
      obtain ⟨rfl, rfl⟩ := h
      split at heq
      · simp at heq
      · rename_i x rest' hq
        simp at heq
        obtain ⟨rfl, rfl⟩ := heq
        refine ⟨x, var, hq, hv, ?_⟩
        cases var.value <;> rfl

theorem find_next_key_none {s s1 : mp_state_s}
    (h : find_next_key s = .ret (none, s1)) : s.vars_queue = [] ∧ s1 = s := by
  unfold find_next_key queue_dequeue at h
  split at h
  · rename_i heq
    simp at h
    split at heq
    · rename_i hq; exact ⟨hq, h.symm⟩
    · simp at heq
  · simp only at h
    split at h <;> simp at h

theorem extract_kernel_key_fresh (s : mp_state_s) (live : packet) (lo : tcp_option)
    (n : String) (rest : List queue_el)
    (hl : get_tcp_option live TCPOPT_MPTCP = some lo)
    (hset : s.kernel_key_set = false)
    (hq : s.vars_queue = .var_name n :: rest)
    (hns : ∀ v, find_mp_var s n = some v →
      ¬ (v.mptcp_subtype = MP_CAPABLE_SUBTYPE ∧ v.script_defined = true)) :
    extract_and_set_kernel_key s live =
      .ret (STATUS_OK,
        add_mp_var_key (set_kernel_key s lo.mp_capable_syn_key) n .kernel_key_ref) := by
  unfold extract_and_set_kernel_key queue_front
  simp only [hl, hq, List.head?_cons, read_as_name_var_name]
  rcases hf : find_mp_var s n with _ | v
  · simp [hset, set_kernel_key, hq]
  · have := hns v hf
    simp only [this, if_false]
    simp [hset, set_kernel_key, hq]

/-- C5: an outbound MP_CAPABLE option of length 12, with `kernel_key` unbound, a
live packet whose MPTCP option carries the key `K` and a front key hint whose
name is not a script-defined variable, makes `mptcp_subtype_mp_capable` return
`STATUS_OK`; `kernel_key` is `K` and is marked bound, the hinted name maps to an
engine-generated record whose value is `kernel_key`, the scripted option's key
field is `K`, and `remote_ssn` is incremented once (in its own bit width, so by
exactly one below the maximum). -/
theorem mp_capable_syn_outbound_extracts_key (E : Env) (s : mp_state_s)
    (p live : packet) (o lo : tcp_option) (n : String) (rest : List queue_el) (K : Nat)
    (hlen : o.length = TCPOLEN_MP_CAPABLE_SYN)
    (hset : s.kernel_key_set = false)
    (hl : get_tcp_option live TCPOPT_MPTCP = some lo)
    (hK : lo.mp_capable_syn_key = K)
    (hq : s.vars_queue = .var_name n :: rest)
    (hns : ∀ v, find_mp_var s n = some v →
      ¬ (v.mptcp_subtype = MP_CAPABLE_SUBTYPE ∧ v.script_defined = true)) :
    ∃ s' o' var,
      mptcp_subtype_mp_capable E s p live o DIRECTION_OUTBOUND = .ret (STATUS_OK, s', o') ∧
      s'.kernel_key = K ∧ s'.kernel_key_set = true ∧
      find_mp_var s' n = some var ∧ var.script_defined = false ∧
      var.mptcp_subtype = MP_CAPABLE_SUBTYPE ∧
      deref s' var.value = s'.kernel_key ∧
      o'.mp_capable_syn_key = K ∧
      s'.remote_ssn = (s.remote_ssn + 1) % 2 ^ E.remote_ssn_bits ∧
      (s.remote_ssn + 1 < 2 ^ E.remote_ssn_bits → s'.remote_ssn = s.remote_ssn + 1) ∧
      s'.vars_queue = rest := by
  obtain ⟨g, hgdef⟩ : ∃ g, g =
      add_mp_var_key (set_kernel_key s lo.mp_capable_syn_key) n .kernel_key_ref := ⟨_, rfl⟩
  have hg : extract_and_set_kernel_key s live = .ret (STATUS_OK, g) := by
    rw [hgdef]; exact extract_kernel_key_fresh s live lo n rest hl hset hq hns
  have hgq : g.vars_queue = .var_name n :: rest := by
    simp [hgdef, add_mp_var_key, add_mp_var, set_kernel_key, hq]
  have hgf : find_mp_var g n = some ⟨n, .kernel_key_ref, MP_CAPABLE_SUBTYPE, false⟩ := by
    rw [hgdef]; exact find_mp_var_add_self _ _ _
  have hgk : g.kernel_key = K := by
    simp [hgdef, add_mp_var_key, add_mp_var, set_kernel_key, hK]
  have hgs : g.kernel_key_set = true := by
    simp [hgdef, add_mp_var_key, add_mp_var, set_kernel_key]
  have hgr : g.remote_ssn = s.remote_ssn := by
    simp [hgdef, add_mp_var_key, add_mp_var, set_kernel_key]
  have hk := mptcp_set_mp_cap_syn_key_found g o n rest _ hgq hgf
  refine ⟨{ g with vars_queue := rest,
                   remote_ssn := (g.remote_ssn + 1) % 2 ^ E.remote_ssn_bits },
    { o with mp_capable_syn_key := g.kernel_key },
    ⟨n, .kernel_key_ref, MP_CAPABLE_SUBTYPE, false⟩, ?_, hgk, hgs, hgf, rfl, rfl, rfl,
    hgk, by simp [hgr], ?_, rfl⟩
  · unfold mptcp_subtype_mp_capable
    simp only [hlen, hg, hk]
    simp [deref]
  · intro hlt
    simp [hgr, Nat.mod_eq_of_lt hlt]

theorem mptcp_gen_key_frame {E : Env} {s s' : mp_state_s} {st : Int}
    (h : mptcp_gen_key E s = .ret (st, s')) :
    s' = { s with
      packetdrill_key := s'.packetdrill_key
      packetdrill_key_set := s'.packetdrill_key_set
      prng := s'.prng
      vars := s'.vars } := by
  unfold mptcp_gen_key at h
  rcases hq : queue_front s.vars_queue with _ | el
  · simp [hq] at h; obtain ⟨-, rfl⟩ := h; rfl
  · simp only [hq] at h
    generalize read_as_name el = n at h
    rcases hf : find_mp_var s n with _ | v
    · by_cases hs : s.packetdrill_key_set = false <;>
        simp [hf, hs, rand_64, seed_generator, add_mp_var_key, add_mp_var,
          set_packetdrill_key] at h <;> (obtain ⟨-, rfl⟩ := h; rfl)
    · by_cases hc : v.mptcp_subtype = MP_CAPABLE_SUBTYPE ∧ v.script_defined = true
      · simp [hf, hc, set_packetdrill_key] at h; obtain ⟨-, rfl⟩ := h; rfl
      · simp only [hf, hc, if_false] at h
        by_cases hs : s.packetdrill_key_set = false <;>
          simp [hs, rand_64, seed_generator, add_mp_var_key, add_mp_var,
            set_packetdrill_key] at h <;> (obtain ⟨-, rfl⟩ := h; rfl)

theorem extract_and_set_kernel_key_frame {s s' : mp_state_s} {live : packet} {st : Int}
    (h : extract_and_set_kernel_key s live = .ret (st, s')) :
    s' = { s with
      kernel_key := s'.kernel_key
      kernel_key_set := s'.kernel_key_set
      vars := s'.vars } := by
  unfold extract_and_set_kernel_key at h
  rcases hl : get_tcp_option live TCPOPT_MPTCP with _ | lo
  · simp [hl] at h; obtain ⟨-, rfl⟩ := h; rfl
  · simp only [hl] at h
    rcases hq : queue_front s.vars_queue with _ | el
    · by_cases hs : s.kernel_key_set = false <;>
        simp [hq, hs, set_kernel_key] at h <;> (obtain ⟨-, rfl⟩ := h; rfl)
    · simp only [hq] at h
      rcases hf : find_mp_var s (read_as_name el) with _ | v
      · by_cases hs : s.kernel_key_set = false <;>
          simp [hf, hs, add_mp_var_key, add_mp_var, set_kernel_key, hq] at h <;>
          (obtain ⟨-, rfl⟩ := h; rfl)
      · by_cases hc : v.mptcp_subtype = MP_CAPABLE_SUBTYPE ∧ v.script_defined = true
        · simp [hf, hc, set_kernel_key] at h; obtain ⟨-, rfl⟩ := h; rfl
        · simp only [hf, hc, if_false] at h
          by_cases hs : s.kernel_key_set = false <;>
            simp [hs, add_mp_var_key, add_mp_var, set_kernel_key, hq] at h <;>
            (obtain ⟨-, rfl⟩ := h; rfl)

theorem mptcp_gen_key_returns (E : Env) (s : mp_state_s) :
    ∃ st s', mptcp_gen_key E s = .ret (st, s') ∧ (st = STATUS_OK ∨ st = STATUS_ERR) := by
  unfold mptcp_gen_key
  rcases queue_front s.vars_queue with _ | el
  · exact ⟨_, _, rfl, Or.inr rfl⟩
  · exact ⟨_, _, rfl, Or.inl rfl⟩

theorem extract_and_set_kernel_key_returns (s : mp_state_s) (live : packet) :
    ∃ st s', extract_and_set_kernel_key s live = .ret (st, s') ∧
      (st = STATUS_OK ∨ st = STATUS_ERR) := by
  unfold extract_and_set_kernel_key
  rcases get_tcp_option live TCPOPT_MPTCP with _ | lo
  · exact ⟨_, _, rfl, Or.inr rfl⟩
  · simp only
    split_ifs
    · split
      · exact ⟨_, _, rfl, Or.inr rfl⟩
      · exact ⟨_, _, rfl, Or.inl rfl⟩
    · exact ⟨_, _, rfl, Or.inl rfl⟩

/-- C7: for every session state, every environment and every live packet,
`mptcp_gen_key` and `extract_and_set_kernel_key` return, with `STATUS_OK` or
with `STATUS_ERR`, and the hint FIFO `vars_queue` of the state they return is
the one of the state they were called on: they only peek at it, whatever the
front element is. -/
theorem key_setters_only_peek (E : Env) (s : mp_state_s) (live : packet) :
    (∃ st s', mptcp_gen_key E s = .ret (st, s') ∧ (st = STATUS_OK ∨ st = STATUS_ERR) ∧
      s'.vars_queue = s.vars_queue) ∧
    (∃ st s', extract_and_set_kernel_key s live = .ret (st, s') ∧
      (st = STATUS_OK ∨ st = STATUS_ERR) ∧ s'.vars_queue = s.vars_queue) := by
  obtain ⟨st, s1, h1, hst⟩ := mptcp_gen_key_returns E s
  obtain ⟨st2, s2, h2, hst2⟩ := extract_and_set_kernel_key_returns s live
  have q1 := congrArg mp_state_s.vars_queue (mptcp_gen_key_frame h1)
  have q2 := congrArg mp_state_s.vars_queue (extract_and_set_kernel_key_frame h2)
  exact ⟨⟨st, s1, h1, hst, q1⟩, ⟨st2, s2, h2, hst2, q2⟩⟩

/-- C7 (witness): a fresh session whose FIFO holds an MP_JOIN hint with a
script-defined address id 65 and a variable name at the front, followed by a
variable name.  Both functions read the hint as the name made of the bytes 1,
65, 1, 1 and of `var`, bind a key under that name and leave the FIFO as it
was. -/
theorem key_setters_only_peek_witness :
    queue_front demo_n0.vars_queue = some (.join_info demo_named) ∧
    read_as_name (.join_info demo_named) = demo_named_bytes ∧
    mptcp_gen_key demo_env demo_n0 = .ret (STATUS_OK, demo_n1) ∧
    extract_and_set_kernel_key demo_n0 demo_live_synack = .ret (STATUS_OK, demo_n2) ∧
    demo_n1.vars_queue = demo_n0.vars_queue ∧ demo_n2.vars_queue = demo_n0.vars_queue ∧
    demo_n1.vars.map (fun v => v.name) = [demo_named_bytes] ∧
    demo_n2.vars.map (fun v => v.name) = [demo_named_bytes] ∧
    ((∃ st s', mptcp_gen_key demo_env demo_n0 = .ret (st, s') ∧
        (st = STATUS_OK ∨ st = STATUS_ERR) ∧ s'.vars_queue = demo_n0.vars_queue) ∧
     (∃ st s', extract_and_set_kernel_key demo_n0 demo_live_synack = .ret (st, s') ∧
        (st = STATUS_OK ∨ st = STATUS_ERR) ∧ s'.vars_queue = demo_n0.vars_queue)) :=
  ⟨by decide, by decide, by decide, by decide, by decide, by decide, by decide, by decide,
    key_setters_only_peek demo_env demo_n0 demo_live_synack⟩

theorem mptcp_set_mp_cap_syn_key_ok {s s1 : mp_state_s} {o o1 : tcp_option}
    (h : mptcp_set_mp_cap_syn_key s o = .ret (0, s1, o1)) :
    ∃ el v, s.vars_queue = el :: s1.vars_queue ∧ find_mp_var s (read_as_name el) = some v ∧
      o1 = { o with mp_capable_syn_key := deref s v.value } := by
  unfold mptcp_set_mp_cap_syn_key at h
  split at h
  · simp at h
  · simp at h
  · rename_i key sa hk
    simp at h
    obtain ⟨rfl, rfl⟩ := h
    obtain ⟨n, v, hq, hf, rfl⟩ := find_next_key_some hk
    exact ⟨n, v, hq, hf, rfl⟩

theorem c_or_eq_zero {a b : Int} (h : c_or a b = 0) : a = 0 ∧ b = 0 := by
  unfold c_or at h
  by_cases hc : a ≠ 0 ∨ b ≠ 0
  · simp [hc] at h
  · push_neg at hc; exact hc

/-- C8: a call of `mptcp_subtype_mp_capable` that returns `STATUS_OK` on an
option of length 12 has removed exactly the front hint, and one that returns
`STATUS_OK` on an option of length 20 has removed exactly the two front hints
`h1`, `h2`, in that order, and has written the value bound to `h1` (to the name
`find_next_key` reads from it) into `sender_key` and the value bound to `h2`
into `receiver_key`; the hints behind them stay in the FIFO in their order. -/
theorem mp_capable_hint_consumption (E : Env) (s s' : mp_state_s) (p live : packet)
    (o o' : tcp_option) (direction : Nat)
    (hret : mptcp_subtype_mp_capable E s p live o direction = .ret (STATUS_OK, s', o')) :
    (o.length = TCPOLEN_MP_CAPABLE_SYN → ∃ h, s.vars_queue = h :: s'.vars_queue) ∧
    (o.length = TCPOLEN_MP_CAPABLE →
      ∃ h1 h2 v1 v2, s.vars_queue = h1 :: h2 :: s'.vars_queue ∧
        find_mp_var s (read_as_name h1) = some v1 ∧
        find_mp_var s (read_as_name h2) = some v2 ∧
        o'.mp_capable_no_syn_sender_key = deref s v1.value ∧
        o'.mp_capable_no_syn_receiver_key = deref s v2.value) := by
  constructor
  · intro hlen
    unfold mptcp_subtype_mp_capable at hret
    by_cases hin : direction = DIRECTION_INBOUND
    · have key : ∀ r, (match mptcp_gen_key E s with
          | .fault => Outcome.fault
          | .ret (error, s) =>
            match mptcp_set_mp_cap_syn_key s o with
            | .fault => .fault
            | .ret (error2, s, opt) => .ret (c_or error2 error, s, opt)) = r →
          r = .ret (STATUS_OK, s', o') → ∃ h, s.vars_queue = h :: s'.vars_queue := by
        intro r hr hr'
        rw [hr'] at hr
        split at hr
        · simp at hr
        · rename_i e1 s1 hg
          have fq := congrArg mp_state_s.vars_queue (mptcp_gen_key_frame hg)
          simp only at fq
          split at hr
          · simp at hr
          · rename_i e2 s2 o2 hk
            simp at hr
            obtain ⟨hc, rfl, rfl⟩ := hr
            obtain ⟨rfl, -⟩ := c_or_eq_zero hc
            obtain ⟨n, v, hq, -, -⟩ := mptcp_set_mp_cap_syn_key_ok hk
            exact ⟨_, by rw [← fq, hq]⟩
      rcases hack : p.tcp.ack with _ | _
      · simp only [hlen, hin, hack, and_self, if_true] at hret
        exact key _ hret rfl
      · simp only [hlen, hin, hack] at hret
        simp only [show ¬ (true = false) by decide, and_false, if_false,
          show ¬ (DIRECTION_INBOUND = DIRECTION_OUTBOUND) by decide,
          show ¬ (TCPOLEN_MP_CAPABLE_SYN = TCPOLEN_MP_CAPABLE) by decide, and_self,
          if_true] at hret
        exact key _ hret rfl
    · by_cases hout : direction = DIRECTION_OUTBOUND
      · simp only [hlen, hout, show ¬ (DIRECTION_OUTBOUND = DIRECTION_INBOUND) by decide,
          false_and, and_false, if_false, and_self, if_true] at hret
        split at hret
        · simp at hret
        · rename_i e1 s1 hg
          have fq := congrArg mp_state_s.vars_queue (extract_and_set_kernel_key_frame hg)
          simp only at fq
          split at hret
          · simp at hret
          · rename_i e2 s2 o2 hk
            simp at hret
            obtain ⟨rfl, rfl, rfl⟩ := hret
            obtain ⟨n, v, hq, -, -⟩ := mptcp_set_mp_cap_syn_key_ok hk
            exact ⟨_, by simp only; rw [← fq, hq]⟩
      · simp [hlen, hin, hout] at hret
  · intro hlen
    unfold mptcp_subtype_mp_capable at hret
    simp only [hlen, show ¬ (TCPOLEN_MP_CAPABLE = TCPOLEN_MP_CAPABLE_SYN) by decide,
      false_and, if_false, if_true] at hret
    split at hret
    · simp at hret
    · rename_i e s1 o1 hk
      have hs1q : s'.vars_queue = s1.vars_queue ∧ e = 0 ∧ o' = o1 := by
        by_cases hin : direction = DIRECTION_INBOUND
        · simp only [hin, if_true] at hret
          simp at hret
          obtain ⟨rfl, rfl, rfl⟩ := hret
          rw [new_subflow_inbound_frame]
          exact ⟨rfl, rfl, rfl⟩
        · by_cases hout : direction = DIRECTION_OUTBOUND
          · simp only [hin, hout, if_false, if_true] at hret
            simp at hret
            obtain ⟨rfl, rfl, rfl⟩ := hret
            rw [new_subflow_outbound_frame]
            exact ⟨rfl, rfl, rfl⟩
          · simp [hin, hout] at hret
      obtain ⟨hq', rfl, rfl⟩ := hs1q
      unfold mptcp_set_mp_cap_keys at hk
      split at hk
      · simp at hk
      · simp at hk
      · rename_i k1 sa h1
        simp only at hk
        split at hk
        · simp at hk
        · simp at hk
        · rename_i k2 sb h2
          simp at hk
          obtain ⟨rfl, rfl⟩ := hk
          obtain ⟨n1, v1, hq1, hf1, rfl⟩ := find_next_key_some h1
          obtain ⟨n2, v2, hq2, hf2, rfl⟩ := find_next_key_some h2
          have fa := find_next_key_frame h1
          have hf2' : find_mp_var s (read_as_name n2) = some v2 := by
            rw [fa] at hf2; exact hf2
          have hd : deref sa v2.value = deref s v2.value := by
            rw [fa]; cases v2.value <;> rfl
          exact ⟨n1, n2, v1, v2, by rw [hq1, hq2, hq'], hf1, hf2', rfl, by simp [hd]⟩

theorem new_subflow_inbound_created (E : Env) (s : mp_state_s) (p : packet)
    (hip : p.ipv4 ≠ none ∨ p.ipv6 ≠ none) :
    ∃ sf : mp_subflow,
      new_subflow_inbound E s p =
        (some 0, { s with
          heap := s.heap + 1
          prng := (E.rand32 s.prng).2
          last_packetdrill_addr_id := (s.last_packetdrill_addr_id + 1) % 2 ^ 32
          subflows := sf :: s.subflows }) ∧
      sf.src_port = ntohs p.tcp.src_port ∧ sf.dst_port = ntohs p.tcp.dst_port ∧
      sf.packetdrill_addr_id = s.last_packetdrill_addr_id % 2 ^ 8 ∧
      sf.packetdrill_rand_nbr = (E.rand32 s.prng).1 % 2 ^ 32 ∧ sf.ssn = 0 := by
  unfold new_subflow_inbound malloc_subflow generate_32
  rcases h4 : p.ipv4 with _ | a
  · rcases h6 : p.ipv6 with _ | b
    · simp [h4, h6] at hip
    · exact ⟨_, rfl, rfl, rfl, rfl, rfl, rfl⟩
  · exact ⟨_, rfl, rfl, rfl, rfl, rfl, rfl⟩

/-- C10: an inbound MP_JOIN SYN (SYN set, ACK clear, length 12) whose hint leaves
every field to the engine, on a packet with an IPv4 or an IPv6 header, makes
`mptcp_subtype_mp_join` return `STATUS_OK`; a new subflow is put in front of the
registry with the packet's source and destination ports, the option carries
`receiver_token = htonl (sha1_least_32bits kernel_key)` and, as `address_id`,
the low 8 bits of `last_packetdrill_addr_id` before the call, and
`last_packetdrill_addr_id` is incremented once (as an `unsigned`, so by exactly
one below the maximum). -/
theorem mp_join_syn_inbound_auto (E : Env) (s : mp_state_s) (p live : packet)
    (o : tcp_option) (info : mp_join_info) (rest : List queue_el)
    (hsyn : p.tcp.syn = true) (hack : p.tcp.ack = false)
    (hlen : o.length = TCPOLEN_MP_JOIN_SYN)
    (hq : s.vars_queue = .join_info info :: rest)
    (hauto : info.is_script_defined = false ∧ info.address_id_script_defined = false ∧
      info.rand_script_defined = false)
    (hip : p.ipv4 ≠ none ∨ p.ipv6 ≠ none) :
    ∃ s' o' sf,
      mptcp_subtype_mp_join E s p live o DIRECTION_INBOUND = .ret (STATUS_OK, s', o') ∧
      s'.subflows = sf :: s.subflows ∧
      sf.src_port = ntohs p.tcp.src_port ∧ sf.dst_port = ntohs p.tcp.dst_port ∧
      o'.mp_join_syn_no_ack_receiver_token = htonl (sha1_least_32bits E s.kernel_key) ∧
      o'.mp_join_syn_address_id = s.last_packetdrill_addr_id % 2 ^ 8 ∧
      s'.last_packetdrill_addr_id = (s.last_packetdrill_addr_id + 1) % 2 ^ 32 ∧
      (s.last_packetdrill_addr_id + 1 < 2 ^ 32 →
        s'.last_packetdrill_addr_id = s.last_packetdrill_addr_id + 1) := by
  obtain ⟨h1, h2, h3⟩ := hauto
  obtain ⟨sf, hnew, hsp, hdp, haid, -, -⟩ :=
    new_subflow_inbound_created E { s with vars_queue := rest } p hip
  refine ⟨{ s with
      vars_queue := rest
      heap := s.heap + 1
      prng := (E.rand32 s.prng).2
      last_packetdrill_addr_id := (s.last_packetdrill_addr_id + 1) % 2 ^ 32
      subflows := sf :: s.subflows },
    { o with
      mp_join_syn_no_ack_receiver_token := htonl (sha1_least_32bits E s.kernel_key)
      mp_join_syn_no_ack_sender_random_number := sf.packetdrill_rand_nbr
      mp_join_syn_address_id := sf.packetdrill_addr_id }, sf, ?_, ?_⟩
  · unfold mptcp_subtype_mp_join queue_dequeue
    simp only [hq, hsyn, hack, hlen, and_self, if_true]
    unfold mp_join_syn
    simp only [hnew]
    simp [mp_join_syn_rcv_token, mp_join_syn_rand, mp_join_syn_address_id, h1, h2, h3,
      store_subflow, hlen]
  · exact ⟨rfl, hsp, hdp, rfl, haid, rfl, fun hlt => Nat.mod_eq_of_lt hlt⟩

theorem new_subflow_outbound_frame4 (E : Env) (s : mp_state_s) (p : packet) :
    (new_subflow_outbound E s p).2 =
      { s with
        subflows := (new_subflow_outbound E s p).2.subflows
        last_packetdrill_addr_id := (new_subflow_outbound E s p).2.last_packetdrill_addr_id
        prng := (new_subflow_outbound E s p).2.prng
        heap := (new_subflow_outbound E s p).2.heap } := by
  unfold new_subflow_outbound malloc_subflow
  rcases get_tcp_option p TCPOPT_MPTCP with _ | o <;>
    rcases p.ipv4 with _ | h4 <;> rcases p.ipv6 with _ | h6 <;> simp

theorem mp_join_syn_body_frame (E : Env) (s s' s1 : mp_state_s) (o o' : tcp_option)
    (el : queue_el) (direction : Nat) (st : Int) (c : Option Nat)
    (hs1 : s1 = { s with
        subflows := s1.subflows
        last_packetdrill_addr_id := s1.last_packetdrill_addr_id
        prng := s1.prng
        heap := s1.heap })
    (hm : (match c with
        | none => Outcome.ret (STATUS_ERR, s1, o)
        | some i =>
          match el, s1.subflows[i]? with
          | .join_info mp_join_script_info, some subflow =>
            match mp_join_syn_rcv_token E s1 o mp_join_script_info direction with
            | .fault => .fault
            | .ret opt =>
              .ret (STATUS_OK, store_subflow s1 i
                (mp_join_syn_address_id
                  (mp_join_syn_rand opt mp_join_script_info subflow direction).2
                  mp_join_script_info
                  (mp_join_syn_rand opt mp_join_script_info subflow direction).1
                  direction).1,
                (mp_join_syn_address_id
                  (mp_join_syn_rand opt mp_join_script_info subflow direction).2
                  mp_join_script_info
                  (mp_join_syn_rand opt mp_join_script_info subflow direction).1
                  direction).2)
          | _, _ => .fault) = .ret (st, s', o')) :
    s' = { s with
      subflows := s'.subflows
      last_packetdrill_addr_id := s'.last_packetdrill_addr_id
      prng := s'.prng
      heap := s'.heap } := by
  split at hm
  · simp at hm; obtain ⟨-, rfl, -⟩ := hm; exact hs1
  · split at hm
    · split at hm
      · simp at hm
      · simp at hm
        obtain ⟨-, rfl, -⟩ := hm
        rw [hs1]; rfl
    · simp at hm

theorem mp_join_syn_frame {E : Env} {s s' : mp_state_s} {p live : packet}
    {o o' : tcp_option} {el : queue_el} {direction : Nat} {st : Int}
    (h : mp_join_syn E s p live o el direction = .ret (st, s', o')) :
    s' = { s with
      subflows := s'.subflows
      last_packetdrill_addr_id := s'.last_packetdrill_addr_id
      prng := s'.prng
      heap := s'.heap } := by
  unfold mp_join_syn at h
  split at h
  · simp at h
  · by_cases hin : direction = DIRECTION_INBOUND
    · simp only [hin, if_true] at h
      exact mp_join_syn_body_frame E s s' _ o o' el _ st _ (new_subflow_inbound_frame E s p) h
    · simp only [hin, if_false] at h
      exact mp_join_syn_body_frame E s s' _ o o' el _ st _
        (new_subflow_outbound_frame4 E s live) h

theorem mp_join_syn_ack_frame {E : Env} {s s' : mp_state_s} {p live : packet}
    {o o' : tcp_option} {el : queue_el} {direction : Nat} {st : Int}
    (h : mp_join_syn_ack E s p live o el direction = .ret (st, s', o')) :
    s' = { s with
      subflows := s'.subflows
      last_packetdrill_addr_id := s'.last_packetdrill_addr_id
      prng := s'.prng
      heap := s'.heap } := by
  unfold mp_join_syn_ack at h
  by_cases hin : direction = DIRECTION_INBOUND
  · simp only [hin, if_true] at h
    rcases hfind : find_subflow_matching_inbound_packet s p with _ | i
    · simp [hfind] at h; obtain ⟨-, rfl, -⟩ := h; rfl
    · simp only [hfind] at h
      rcases el with n | info
      · simp at h
      · rcases hsub : s.subflows[i]? with _ | subflow
        · simp [hsub] at h
        · simp only [hsub] at h
          by_cases h1 : info.is_script_defined = true
          · by_cases h2 : info.is_var = true
            · simp only [h1, h2, if_true] at h
              split at h
              · simp [generate_32, store_subflow] at h; obtain ⟨-, rfl, -⟩ := h; rfl
              · simp at h
            · simp only [h1, h2, if_true, if_false] at h
              simp [generate_32, store_subflow] at h; obtain ⟨-, rfl, -⟩ := h; rfl
          · simp only [h1, if_false] at h
            simp [generate_32, store_subflow] at h; obtain ⟨-, rfl, -⟩ := h; rfl
  · simp only [hin, if_false] at h
    by_cases hout : direction = DIRECTION_OUTBOUND
    · simp only [hout, if_true] at h
      split at h
      · split at h
        · simp at h
        · simp [store_subflow] at h; obtain ⟨-, rfl, -⟩ := h; rfl
      · simp at h; obtain ⟨-, rfl, -⟩ := h; rfl
    · simp [hout] at h; obtain ⟨-, rfl, -⟩ := h; rfl

theorem mptcp_subtype_mp_join_frame {E : Env} {s s' : mp_state_s} {p live : packet}
    {o o' : tcp_option} {direction : Nat} {st : Int}
    (h : mptcp_subtype_mp_join E s p live o direction = .ret (st, s', o')) :
    s' = { s with
      vars_queue := s.vars_queue.tail
      subflows := s'.subflows
      last_packetdrill_addr_id := s'.last_packetdrill_addr_id
      prng := s'.prng
      heap := s'.heap } := by
  unfold mptcp_subtype_mp_join queue_dequeue at h
  rcases hq : s.vars_queue with _ | ⟨el, rest⟩
  · simp [hq] at h; obtain ⟨-, rfl, -⟩ := h
    cases s; simp_all
  · simp only [hq] at h
    split at h
    · split at h
      · simp at h
      · rename_i hj
        simp at h; obtain ⟨-, rfl, -⟩ := h
        rw [mp_join_syn_frame hj]; rfl
    · split at h
      · split at h
        · split at h
          · simp at h
          · simp [store_subflow] at h; obtain ⟨-, rfl, -⟩ := h; rfl
        · simp at h; obtain ⟨-, rfl, -⟩ := h; rfl
      · split at h
        · split at h
          · simp at h; obtain ⟨-, rfl, -⟩ := h; rfl
          · split at h
            · simp at h
            · simp at h; obtain ⟨-, rfl, -⟩ := h; rfl
        · split at h
          · split at h
            · simp at h
            · rename_i hj
              simp at h; obtain ⟨-, rfl, -⟩ := h
              rw [mp_join_syn_frame hj]; rfl
          · split at h
            · split at h
              · simp at h
              · rename_i hj
                simp at h; obtain ⟨-, rfl, -⟩ := h
                rw [mp_join_syn_ack_frame hj]; rfl
            · split at h
              · split at h
                · simp at h; obtain ⟨-, rfl, -⟩ := h; rfl
                · split at h
                  · simp at h
                  · simp at h; obtain ⟨-, rfl, -⟩ := h; rfl
              · simp at h; obtain ⟨-, rfl, -⟩ := h; rfl

theorem keys_frame_refl (s : mp_state_s) : keys_frame s s := ⟨rfl, rfl, rfl, rfl, rfl⟩

theorem keys_frame_trans {a b c : mp_state_s} (h1 : keys_frame a b) (h2 : keys_frame b c) :
    keys_frame a c := by
  obtain ⟨x1, x2, x3, x4, x5⟩ := h1
  obtain ⟨y1, y2, y3, y4, y5⟩ := h2
  exact ⟨y1.trans x1, y2.trans x2, y3.trans x3, y4.trans x4, y5.trans x5⟩

theorem script_keys_agree_admits (s : mp_state_s) (k : Nat)
    (ha : script_keys_agree s k = true) : admits_script_keys (fun x => x = k) s.vars := by
  intro v hmem hd hm t
  unfold script_keys_agree at ha
  rw [List.all_eq_true] at ha
  have := ha v hmem
  simp [hm, hd, holds_key] at this
  rcases hv : v.value with x | _ | _
  · simp [hv] at this; simp [deref, this]
  · simp [hv] at this
  · simp [hv] at this

theorem packetdrill_key_within_of_frame {A : Nat → Prop} {vars0 : List mp_var}
    {s s' : mp_state_s} (f : keys_frame s s') (h : packetdrill_key_within A vars0 s) :
    packetdrill_key_within A vars0 s' := by
  obtain ⟨f1, -, f3, -, f5⟩ := f
  obtain ⟨h1, h2, h3⟩ := h
  exact ⟨by rw [f3, h1], by rw [f1]; exact h2, by rw [f5]; exact h3⟩

theorem kernel_key_within_of_frame {A : Nat → Prop} {vars0 : List mp_var}
    {s s' : mp_state_s} (f : keys_frame s s') (h : kernel_key_within A vars0 s) :
    kernel_key_within A vars0 s' := by
  obtain ⟨-, f2, -, f4, f5⟩ := f
  obtain ⟨h1, h2, h3⟩ := h
  exact ⟨by rw [f4, h1], by rw [f2]; exact h2, by rw [f5]; exact h3⟩

/-- The function `mptcp_gen_key` on a bound packetdrill key: the key stays, or it becomes the
value of the script-defined variable the front hint names. -/
theorem mptcp_gen_key_packetdrill_key_within {E : Env} {s s' : mp_state_s} {st : Int}
    {A : Nat → Prop} {vars0 : List mp_var} (hA : admits_script_keys A vars0)
    (h : mptcp_gen_key E s = .ret (st, s'))
    (hw : packetdrill_key_within A vars0 s) : packetdrill_key_within A vars0 s' := by
  obtain ⟨hset, hk, hv⟩ := hw
  unfold mptcp_gen_key at h
  rcases hq : queue_front s.vars_queue with _ | el
  · simp [hq] at h; obtain ⟨-, rfl⟩ := h; exact ⟨hset, hk, hv⟩
  · simp only [hq] at h
    generalize read_as_name el = n at h
    rcases hf : find_mp_var s n with _ | v
    · simp [hf, hset] at h; obtain ⟨-, rfl⟩ := h; exact ⟨hset, hk, hv⟩
    · by_cases hc : v.mptcp_subtype = MP_CAPABLE_SUBTYPE ∧ v.script_defined = true
      · have hmem : v ∈ s.vars := List.mem_of_find?_eq_some hf
        have hd := hA v (hv v hmem hc.2) hc.2 hc.1 s
        simp [hf, hc, set_packetdrill_key] at h
        obtain ⟨-, rfl⟩ := h; exact ⟨rfl, hd, hv⟩
      · simp only [hf, hc, if_false] at h
        simp [hset] at h; obtain ⟨-, rfl⟩ := h; exact ⟨hset, hk, hv⟩

/-- The function `mptcp_gen_key` leaves the kernel key alone and adds at most an
engine-generated variable. -/
theorem mptcp_gen_key_kernel_key_within {E : Env} {s s' : mp_state_s} {st : Int}
    {A : Nat → Prop} {vars0 : List mp_var}
    (h : mptcp_gen_key E s = .ret (st, s'))
    (hw : kernel_key_within A vars0 s) : kernel_key_within A vars0 s' := by
  obtain ⟨hset, hk, hv⟩ := hw
  have f := mptcp_gen_key_frame h
  refine ⟨by rw [f]; exact hset, by rw [f]; exact hk, ?_⟩
  unfold mptcp_gen_key at h
  rcases hq : queue_front s.vars_queue with _ | el
  · simp [hq] at h; obtain ⟨-, rfl⟩ := h; exact hv
  · simp only [hq] at h
    generalize read_as_name el = n at h
    have hadd : ∀ t : mp_state_s, t.vars = s.vars →
        ∀ v ∈ (add_mp_var_key t n .packetdrill_key_ref).vars,
          v.script_defined = true → v ∈ vars0 := by
      intro t ht v hmem hd
      simp [add_mp_var_key, add_mp_var, ht] at hmem
      rcases hmem with rfl | hmem
      · simp at hd
      · exact hv v hmem hd
    rcases hf : find_mp_var s n with _ | v
    · by_cases hs : s.packetdrill_key_set = false
      · simp only [hf, hs, if_true] at h
        simp at h; obtain ⟨-, rfl⟩ := h
        exact hadd _ rfl
      · simp [hf, hs] at h; obtain ⟨-, rfl⟩ := h; exact hv
    · by_cases hc : v.mptcp_subtype = MP_CAPABLE_SUBTYPE ∧ v.script_defined = true
      · simp [hf, hc, set_packetdrill_key] at h
        obtain ⟨-, rfl⟩ := h; exact hv
      · simp only [hf, hc, if_false] at h
        by_cases hs : s.packetdrill_key_set = false
        · simp only [hs, if_true] at h
          simp at h; obtain ⟨-, rfl⟩ := h
          exact hadd _ rfl
        · simp [hs] at h; obtain ⟨-, rfl⟩ := h; exact hv

theorem extract_kernel_key_within {s s' : mp_state_s} {live : packet} {st : Int}
    {A : Nat → Prop} {vars0 : List mp_var} (hA : admits_script_keys A vars0)
    (h : extract_and_set_kernel_key s live = .ret (st, s'))
    (hw : kernel_key_within A vars0 s) : kernel_key_within A vars0 s' := by
  obtain ⟨hset, hk, hv⟩ := hw
  unfold extract_and_set_kernel_key at h
  rcases hl : get_tcp_option live TCPOPT_MPTCP with _ | lo
  · simp [hl] at h; obtain ⟨-, rfl⟩ := h; exact ⟨hset, hk, hv⟩
  · simp only [hl] at h
    rcases hq : queue_front s.vars_queue with _ | el
    · simp [hq, hset] at h; obtain ⟨-, rfl⟩ := h; exact ⟨hset, hk, hv⟩
    · simp only [hq] at h
      generalize read_as_name el = n at h
      rcases hf : find_mp_var s n with _ | v
      · simp [hf, hset] at h; obtain ⟨-, rfl⟩ := h; exact ⟨hset, hk, hv⟩
      · by_cases hc : v.mptcp_subtype = MP_CAPABLE_SUBTYPE ∧ v.script_defined = true
        · have hmem : v ∈ s.vars := List.mem_of_find?_eq_some hf
          have hd := hA v (hv v hmem hc.2) hc.2 hc.1 s
          simp [hf, hc, set_kernel_key] at h
          obtain ⟨-, rfl⟩ := h; exact ⟨rfl, hd, hv⟩
        · simp only [hf, hc, if_false] at h
          simp [hset] at h; obtain ⟨-, rfl⟩ := h; exact ⟨hset, hk, hv⟩

theorem extract_packetdrill_key_within {s s' : mp_state_s} {live : packet} {st : Int}
    {A : Nat → Prop} {vars0 : List mp_var}
    (h : extract_and_set_kernel_key s live = .ret (st, s'))
    (hw : packetdrill_key_within A vars0 s) : packetdrill_key_within A vars0 s' := by
  obtain ⟨hset, hk, hv⟩ := hw
  have f := extract_and_set_kernel_key_frame h
  refine ⟨by rw [f]; exact hset, by rw [f]; exact hk, ?_⟩
  unfold extract_and_set_kernel_key at h
  rcases hl : get_tcp_option live TCPOPT_MPTCP with _ | lo
  · simp [hl] at h; obtain ⟨-, rfl⟩ := h; exact hv
  · simp only [hl] at h
    rcases hq : queue_front s.vars_queue with _ | el
    · by_cases hs : s.kernel_key_set = false <;>
        simp [hq, hs, set_kernel_key] at h <;> (obtain ⟨-, rfl⟩ := h; exact hv)
    · simp only [hq] at h
      have hadd : ∀ t : mp_state_s, t.vars = s.vars →
          ∀ v ∈ (add_mp_var_key t (read_as_name el) .kernel_key_ref).vars,
            v.script_defined = true → v ∈ vars0 := by
        intro t ht v hmem hd
        simp [add_mp_var_key, add_mp_var, ht] at hmem
        rcases hmem with rfl | hmem
        · simp at hd
        · exact hv v hmem hd
      have hq2 : ∀ k, queue_front (set_kernel_key s k).vars_queue
          = some el := fun _ => hq
      rcases hf : find_mp_var s (read_as_name el) with _ | v
      · by_cases hs : s.kernel_key_set = false
        · simp [hf, hs, hq2] at h
          obtain ⟨-, rfl⟩ := h
          exact hadd _ rfl
        · simp [hf, hs] at h; obtain ⟨-, rfl⟩ := h; exact hv
      · by_cases hc : v.mptcp_subtype = MP_CAPABLE_SUBTYPE ∧ v.script_defined = true
        · simp [hf, hc, set_kernel_key] at h
          obtain ⟨-, rfl⟩ := h; exact hv
        · simp only [hf, hc, if_false] at h
          by_cases hs : s.kernel_key_set = false
          · simp [hs, hq2] at h
            obtain ⟨-, rfl⟩ := h
            exact hadd _ rfl
          · simp [hs] at h; obtain ⟨-, rfl⟩ := h; exact hv

theorem find_next_key_keys_frame {s s1 : mp_state_s} {k : Option Nat}
    (h : find_next_key s = .ret (k, s1)) : keys_frame s s1 := by
  have f := find_next_key_frame h
  rw [f]; exact ⟨rfl, rfl, rfl, rfl, rfl⟩

theorem mptcp_set_mp_cap_syn_key_keys_frame {s s1 : mp_state_s} {o o1 : tcp_option}
    {e : Int} (h : mptcp_set_mp_cap_syn_key s o = .ret (e, s1, o1)) : keys_frame s s1 := by
  unfold mptcp_set_mp_cap_syn_key at h
  split at h
  · simp at h
  · rename_i sa hk
    simp at h; obtain ⟨-, rfl, -⟩ := h
    exact find_next_key_keys_frame hk
  · rename_i key sa hk
    simp at h; obtain ⟨-, rfl, -⟩ := h
    exact find_next_key_keys_frame hk

theorem mptcp_set_mp_cap_keys_keys_frame {s s1 : mp_state_s} {o o1 : tcp_option}
    {e : Int} (h : mptcp_set_mp_cap_keys s o = .ret (e, s1, o1)) : keys_frame s s1 := by
  have f := mptcp_set_mp_cap_keys_frame h
  rw [f]; exact ⟨rfl, rfl, rfl, rfl, rfl⟩

theorem new_subflow_inbound_keys_frame (E : Env) (s : mp_state_s) (p : packet) :
    keys_frame s (new_subflow_inbound E s p).2 := by
  rw [new_subflow_inbound_frame]; exact ⟨rfl, rfl, rfl, rfl, rfl⟩

theorem new_subflow_outbound_keys_frame (E : Env) (s : mp_state_s) (p : packet) :
    keys_frame s (new_subflow_outbound E s p).2 := by
  rw [new_subflow_outbound_frame]; exact ⟨rfl, rfl, rfl, rfl, rfl⟩

theorem mptcp_subtype_mp_join_keys_frame {E : Env} {s s' : mp_state_s} {p live : packet}
    {o o' : tcp_option} {direction : Nat} {st : Int}
    (h : mptcp_subtype_mp_join E s p live o direction = .ret (st, s', o')) :
    keys_frame s s' := by
  rw [mptcp_subtype_mp_join_frame h]; exact ⟨rfl, rfl, rfl, rfl, rfl⟩

theorem dss_inbound_frame {E : Env} {s s' : mp_state_s} {n : Nat}
    {o o' : tcp_option} {st : Int}
    (h : dss_inbound_parser_fn E s n o = .ret (st, s', o')) :
    s' = { s with vars_queue := s'.vars_queue, remote_idsn := s'.remote_idsn } := by
  unfold dss_inbound_parser_fn at h
  split at h
  · simp at h; obtain ⟨-, rfl, -⟩ := h; rfl
  · split at h
    · split at h
      · split at h
        · simp at h; obtain ⟨-, rfl, -⟩ := h; rfl
        · split at h
          · split at h
            · simp at h
            · rename_i hk
              simp at h; obtain ⟨-, rfl, -⟩ := h
              have f := find_next_key_frame hk
              rw [f]
            · rename_i hk
              simp at h; obtain ⟨-, rfl, -⟩ := h
              have f := find_next_key_frame hk
              simp only
              rw [f]
          · simp at h; obtain ⟨-, rfl, -⟩ := h; rfl
      · simp at h; obtain ⟨-, rfl, -⟩ := h; rfl
    · simp at h; obtain ⟨-, rfl, -⟩ := h; rfl

theorem mptcp_subtype_dss_frame {E : Env} {s s' : mp_state_s} {p live : packet}
    {o o' : tcp_option} {direction : Nat} {st : Int}
    (h : mptcp_subtype_dss E s p live o direction = .ret (st, s', o')) :
    s' = { s with vars_queue := s'.vars_queue, remote_idsn := s'.remote_idsn } := by
  unfold mptcp_subtype_dss at h
  split at h
  · simp at h
  · simp only at h
    split at h
    · split at h
      · simp at h
      · rename_i hk
        simp at h; obtain ⟨-, rfl, -⟩ := h
        exact dss_inbound_frame hk
    · split at h
      · simp [dss_outbound_parser_fn] at h; obtain ⟨-, rfl, -⟩ := h; rfl
      · simp at h; obtain ⟨-, rfl, -⟩ := h; rfl

theorem mptcp_subtype_dss_keys_frame {E : Env} {s s' : mp_state_s} {p live : packet}
    {o o' : tcp_option} {direction : Nat} {st : Int}
    (h : mptcp_subtype_dss E s p live o direction = .ret (st, s', o')) :
    keys_frame s s' := by
  rw [mptcp_subtype_dss_frame h]; exact ⟨rfl, rfl, rfl, rfl, rfl⟩

theorem mptcp_subtype_mp_capable_within {E : Env} {s s' : mp_state_s} {p live : packet}
    {o o' : tcp_option} {direction : Nat} {st : Int} {A : Nat → Prop}
    {vars0 : List mp_var} (hA : admits_script_keys A vars0)
    (h : mptcp_subtype_mp_capable E s p live o direction = .ret (st, s', o')) :
    (packetdrill_key_within A vars0 s → packetdrill_key_within A vars0 s') ∧
    (kernel_key_within A vars0 s → kernel_key_within A vars0 s') := by
  have inbound : ∀ r, (match mptcp_gen_key E s with
        | .fault => Outcome.fault
        | .ret (error, s) =>
          match mptcp_set_mp_cap_syn_key s o with
          | .fault => .fault
          | .ret (error2, s, opt) => .ret (c_or error2 error, s, opt)) = r →
      r = .ret (st, s', o') →
      (packetdrill_key_within A vars0 s → packetdrill_key_within A vars0 s') ∧
      (kernel_key_within A vars0 s → kernel_key_within A vars0 s') := by
    intro r hr hr'
    rw [hr'] at hr
    split at hr
    · simp at hr
    · rename_i e1 s1 hg
      split at hr
      · simp at hr
      · rename_i e2 s2 o2 hk
        simp at hr
        obtain ⟨-, rfl, -⟩ := hr
        have f2 := mptcp_set_mp_cap_syn_key_keys_frame hk
        exact ⟨fun hw => packetdrill_key_within_of_frame f2
            (mptcp_gen_key_packetdrill_key_within hA hg hw),
          fun hw => kernel_key_within_of_frame f2 (mptcp_gen_key_kernel_key_within hg hw)⟩
  unfold mptcp_subtype_mp_capable at h
  split at h
  · exact inbound _ h rfl
  · split at h
    · split at h
      · simp at h
      · rename_i e1 s1 hg
        split at h
        · simp at h
        · rename_i e2 s2 o2 hk
          simp at h
          obtain ⟨-, rfl, -⟩ := h
          have f2 := mptcp_set_mp_cap_syn_key_keys_frame hk
          have f3 : keys_frame s2
              { s2 with remote_ssn := (s2.remote_ssn + 1) % 2 ^ E.remote_ssn_bits } :=
            ⟨rfl, rfl, rfl, rfl, rfl⟩
          exact ⟨fun hw => packetdrill_key_within_of_frame (keys_frame_trans f2 f3)
              (extract_packetdrill_key_within hg hw),
            fun hw => kernel_key_within_of_frame (keys_frame_trans f2 f3)
              (extract_kernel_key_within hA hg hw)⟩
    · split at h
      · split at h
        · simp at h
        · rename_i e s1 o1 hk
          have f1 := mptcp_set_mp_cap_keys_keys_frame hk
          have f : keys_frame s s' := by
            simp only at h
            split at h
            · simp at h; obtain ⟨-, rfl, -⟩ := h
              exact keys_frame_trans (keys_frame_trans f1 ⟨rfl, rfl, rfl, rfl, rfl⟩)
                (new_subflow_inbound_keys_frame E _ p)
            · split at h
              · simp at h; obtain ⟨-, rfl, -⟩ := h
                exact keys_frame_trans (keys_frame_trans f1 ⟨rfl, rfl, rfl, rfl, rfl⟩)
                  (new_subflow_outbound_keys_frame E _ p)
              · simp at h; obtain ⟨-, rfl, -⟩ := h
                exact keys_frame_trans f1 ⟨rfl, rfl, rfl, rfl, rfl⟩
          exact ⟨fun hw => packetdrill_key_within_of_frame f hw,
            fun hw => kernel_key_within_of_frame f hw⟩
      · split at h
        · exact inbound _ h rfl
        · simp at h; obtain ⟨-, rfl, -⟩ := h
          exact ⟨fun hw => hw, fun hw => hw⟩

theorem dispatch_option_within {E : Env} {s s' : mp_state_s} {p live : packet}
    {o o' : tcp_option} {direction : Nat} {st : Int} {A : Nat → Prop}
    {vars0 : List mp_var} (hA : admits_script_keys A vars0)
    (h : dispatch_option E s p live o direction = .ret (st, s', o')) :
    (packetdrill_key_within A vars0 s → packetdrill_key_within A vars0 s') ∧
    (kernel_key_within A vars0 s → kernel_key_within A vars0 s') := by
  unfold dispatch_option at h
  split at h
  · exact mptcp_subtype_mp_capable_within hA h
  · split at h
    · have f := mptcp_subtype_mp_join_keys_frame h
      exact ⟨fun hw => packetdrill_key_within_of_frame f hw,
        fun hw => kernel_key_within_of_frame f hw⟩
    · split at h
      · have f := mptcp_subtype_dss_keys_frame h
        exact ⟨fun hw => packetdrill_key_within_of_frame f hw,
          fun hw => kernel_key_within_of_frame f hw⟩
      · simp at h; obtain ⟨-, rfl, -⟩ := h
        exact ⟨fun hw => hw, fun hw => hw⟩

theorem options_loop_within (E : Env) (live : packet) (direction : Nat) (p : packet)
    (A : Nat → Prop) (vars0 : List mp_var) (hA : admits_script_keys A vars0)
    (todo : List tcp_option) :
    ∀ (done : List tcp_option) (s s' : mp_state_s) (st : Int) (p' : packet),
      options_loop E live direction p done todo s = .ret (st, s', p') →
      (packetdrill_key_within A vars0 s → packetdrill_key_within A vars0 s') ∧
      (kernel_key_within A vars0 s → kernel_key_within A vars0 s') := by
  induction todo with
  | nil =>
    intro done s s' st p' h
    simp [options_loop] at h
    obtain ⟨-, rfl, -⟩ := h
    exact ⟨fun hw => hw, fun hw => hw⟩
  | cons opt todo ih =>
    intro done s s' st p' h
    rw [options_loop] at h
    split at h
    · split at h
      · simp at h
      · rename_i e s1 o1 hd
        have hs := dispatch_option_within hA hd
        split at h
        · simp at h; obtain ⟨-, rfl, -⟩ := h; exact hs
        · have := ih _ _ _ _ _ h
          exact ⟨fun hw => this.1 (hs.1 hw), fun hw => this.2 (hs.2 hw)⟩
    · exact ih _ _ _ _ _ h

/-- C2 (amended): once bound, a key is rebound only to the value of a
script-defined key variable.  In a state where `packetdrill_key` is bound, after
a call of `mptcp_insert_and_extract_opt_fields` on any packet the key is still
bound and either has the value it had or the value read through a script-defined
key variable of the table; it has the value it had when every script-defined key
variable holds that value.  Likewise for `kernel_key`. -/
theorem bound_key_rebound_only_by_script_variable (E : Env) (s s' : mp_state_s)
    (packet_to_modify live_packet p' : packet) (direction : Nat) (st : Int)
    (hret : mptcp_insert_and_extract_opt_fields E s packet_to_modify live_packet direction
      = .ret (st, s', p')) :
    (s.packetdrill_key_set = true →
      s'.packetdrill_key_set = true ∧
      (s'.packetdrill_key = s.packetdrill_key ∨
        ∃ v t, v ∈ s.vars ∧ v.script_defined = true ∧
          v.mptcp_subtype = MP_CAPABLE_SUBTYPE ∧ s'.packetdrill_key = deref t v.value) ∧
      (script_keys_agree s s.packetdrill_key = true →
        s'.packetdrill_key = s.packetdrill_key)) ∧
    (s.kernel_key_set = true →
      s'.kernel_key_set = true ∧
      (s'.kernel_key = s.kernel_key ∨
        ∃ v t, v ∈ s.vars ∧ v.script_defined = true ∧
          v.mptcp_subtype = MP_CAPABLE_SUBTYPE ∧ s'.kernel_key = deref t v.value) ∧
      (script_keys_agree s s.kernel_key = true → s'.kernel_key = s.kernel_key)) := by
  unfold mptcp_insert_and_extract_opt_fields at hret
  have loop := fun A hA =>
    options_loop_within E live_packet direction packet_to_modify A s.vars hA _ _ _ _ _ _ hret
  have hsub : ∀ v ∈ s.vars, v.script_defined = true → v ∈ s.vars := fun v hv _ => hv
  constructor
  · intro h1
    have hA : admits_script_keys (fun k => k = s.packetdrill_key ∨
        ∃ v t, v ∈ s.vars ∧ v.script_defined = true ∧
          v.mptcp_subtype = MP_CAPABLE_SUBTYPE ∧ k = deref t v.value) s.vars :=
      fun v hv hd hm t => Or.inr ⟨v, t, hv, hd, hm, rfl⟩
    obtain ⟨g1, g2, -⟩ := (loop _ hA).1 ⟨h1, Or.inl rfl, hsub⟩
    refine ⟨g1, g2, fun hag => ?_⟩
    obtain ⟨-, g3, -⟩ :=
      (loop _ (script_keys_agree_admits s _ hag)).1 ⟨h1, rfl, hsub⟩
    exact g3
  · intro h1
    have hA : admits_script_keys (fun k => k = s.kernel_key ∨
        ∃ v t, v ∈ s.vars ∧ v.script_defined = true ∧
          v.mptcp_subtype = MP_CAPABLE_SUBTYPE ∧ k = deref t v.value) s.vars :=
      fun v hv hd hm t => Or.inr ⟨v, t, hv, hd, hm, rfl⟩
    obtain ⟨g1, g2, -⟩ := (loop _ hA).2 ⟨h1, Or.inl rfl, hsub⟩
    refine ⟨g1, g2, fun hag => ?_⟩
    obtain ⟨-, g3, -⟩ :=
      (loop _ (script_keys_agree_admits s _ hag)).2 ⟨h1, rfl, hsub⟩
    exact g3

theorem mptcp_subtype_mp_join_ok_queue {E : Env} {s s' : mp_state_s} {p live : packet}
    {o o' : tcp_option} {direction : Nat}
    (h : mptcp_subtype_mp_join E s p live o direction = .ret (STATUS_OK, s', o')) :
    ∃ a, s.vars_queue = a :: s'.vars_queue := by
  have f := mptcp_subtype_mp_join_frame h
  rcases hq : s.vars_queue with _ | ⟨a, rest⟩
  · unfold mptcp_subtype_mp_join queue_dequeue at h
    simp [hq] at h
  · refine ⟨a, ?_⟩
    rw [f]; simp [hq]

/-- C9 (amended): every call of `mptcp_subtype_mp_join` that returns `STATUS_OK`
removes exactly the front hint, whatever the flags of the packet; the three
MP_JOIN options of one subflow handshake (SYN, SYN/ACK, ACK) therefore remove
three hints in total, one per call. -/
theorem mp_join_consumes_one_hint_per_option (E : Env) (s s1 s2 s3 : mp_state_s)
    (p1 p2 p3 l1 l2 l3 : packet) (o1 o2 o3 o1' o2' o3' : tcp_option) (d1 d2 d3 : Nat)
    (h1 : mptcp_subtype_mp_join E s p1 l1 o1 d1 = .ret (STATUS_OK, s1, o1'))
    (h2 : mptcp_subtype_mp_join E s1 p2 l2 o2 d2 = .ret (STATUS_OK, s2, o2'))
    (h3 : mptcp_subtype_mp_join E s2 p3 l3 o3 d3 = .ret (STATUS_OK, s3, o3')) :
    ∃ a b c, s.vars_queue = a :: b :: c :: s3.vars_queue ∧
      s1.vars_queue = b :: c :: s3.vars_queue ∧ s2.vars_queue = c :: s3.vars_queue := by
  obtain ⟨a, ha⟩ := mptcp_subtype_mp_join_ok_queue h1
  obtain ⟨b, hb⟩ := mptcp_subtype_mp_join_ok_queue h2
  obtain ⟨c, hc⟩ := mptcp_subtype_mp_join_ok_queue h3
  exact ⟨a, b, c, by rw [ha, hb, hc], by rw [hb, hc], hc⟩

/-! ## Concrete runs -/

/-- C1 (witness): the inbound third step of the handshake `demo_s0`. -/
theorem mp_capable_third_step_derives_idsn_witness :
    (demo_opt 20 0).length = TCPOLEN_MP_CAPABLE ∧
    mptcp_subtype_mp_capable demo_env demo_s2 (demo_inbound false true [demo_opt 20 0])
      (demo_inbound false true [demo_opt 20 0]) (demo_opt 20 0) DIRECTION_INBOUND
      = .ret (STATUS_OK, demo_s3, demo_o3) ∧
    (demo_s3.idsn = sha1_least_64bits demo_env demo_s3.packetdrill_key ∧
     demo_s3.remote_idsn = sha1_least_64bits demo_env demo_s3.kernel_key ∧
     demo_s3.last_dsn_rcvd = (demo_s3.remote_idsn + demo_s3.remote_ssn) % 2 ^ 64 ∧
     demo_s3.packetdrill_key = demo_s2.packetdrill_key ∧
     demo_s3.kernel_key = demo_s2.kernel_key ∧
     demo_s3.remote_ssn = demo_s2.remote_ssn) :=
  ⟨rfl, by decide,
    mp_capable_third_step_derives_idsn demo_env demo_s2 demo_s3
      (demo_inbound false true [demo_opt 20 0]) (demo_inbound false true [demo_opt 20 0])
      (demo_opt 20 0) demo_o3 DIRECTION_INBOUND STATUS_OK rfl (Or.inl rfl) (by decide)⟩

/-- C2 (counterexample): the script binds `a = 1` and `b = 2`; the first inbound
MP_CAPABLE SYN binds `packetdrill_key` to 1, and a second call of
`mptcp_insert_and_extract_opt_fields`, whose front hint is `b`, returns
`STATUS_OK` with `packetdrill_key = 2`. -/
theorem key_immutability_counterexample :
    ret_status (mptcp_insert_and_extract_opt_fields demo_env demo_k0
      (demo_inbound true false [demo_opt 12 0]) (demo_inbound true false [demo_opt 12 0])
      DIRECTION_INBOUND) = some STATUS_OK ∧
    demo_k1.packetdrill_key_set = true ∧ demo_k1.packetdrill_key = 1 ∧
    mptcp_insert_and_extract_opt_fields demo_env demo_k1
      (demo_inbound true false [demo_opt 12 0]) (demo_inbound true false [demo_opt 12 0])
      DIRECTION_INBOUND = .ret (STATUS_OK, demo_k2, demo_kp2) ∧
    demo_k2.packetdrill_key = 2 ∧ demo_k2.packetdrill_key ≠ demo_k1.packetdrill_key := by
  decide

/-- C2 (witness): an outbound MP_CAPABLE SYN/ACK on a session whose packetdrill key
is bound and whose table holds no script-defined variable. -/
theorem bound_key_rebound_only_by_script_variable_witness :
    mptcp_insert_and_extract_opt_fields demo_env demo_d1
      (demo_outbound true true [demo_opt 12 0]) demo_live_synack DIRECTION_OUTBOUND
      = .ret (STATUS_OK, demo_d2, demo_dp2) ∧
    demo_d1.packetdrill_key_set = true ∧
    script_keys_agree demo_d1 demo_d1.packetdrill_key = true ∧
    demo_d2.packetdrill_key_set = true ∧
    demo_d2.packetdrill_key = demo_d1.packetdrill_key :=
  have h := (bound_key_rebound_only_by_script_variable demo_env demo_d1 demo_d2
      (demo_outbound true true [demo_opt 12 0]) demo_live_synack demo_dp2
      DIRECTION_OUTBOUND STATUS_OK (by decide)).1 (by decide)
  ⟨by decide, by decide, by decide, h.1, h.2.2 (by decide)⟩

/-- C3 (counterexample): with `packetdrill_key` bound to 1 and the front hint
naming the script-defined variable `b = 2`, `mptcp_gen_key` returns `STATUS_OK`
and the key becomes 2; with `kernel_key` bound to 1 and the same front hint,
`extract_and_set_kernel_key` returns `STATUS_OK` and the key becomes 2. -/
theorem key_conflict_counterexample :
    (demo_k1.packetdrill_key_set = true ∧ demo_k1.packetdrill_key = 1 ∧
      queue_front demo_k1.vars_queue = some (.var_name "b") ∧
      find_mp_var demo_k1 "b" = some ⟨"b", .owned 2, MP_CAPABLE_SUBTYPE, true⟩ ∧
      mptcp_gen_key demo_env demo_k1 = .ret (STATUS_OK, set_packetdrill_key demo_k1 2)) ∧
    (demo_kk1.kernel_key_set = true ∧ demo_kk1.kernel_key = 1 ∧
      queue_front demo_kk1.vars_queue = some (.var_name "b") ∧
      find_mp_var demo_kk1 "b" = some ⟨"b", .owned 2, MP_CAPABLE_SUBTYPE, true⟩ ∧
      extract_and_set_kernel_key demo_kk1 demo_live_synack
        = .ret (STATUS_OK, set_kernel_key demo_kk1 2)) := by
  decide

/-- C3 (witness): both keys bound to 1, front hint `b = 2`. -/
theorem key_rebind_is_accepted_witness :
    (set_kernel_key demo_k1 1).vars_queue = [.var_name "b"] ∧
    find_mp_var (set_kernel_key demo_k1 1) "b"
      = some ⟨"b", .owned 2, MP_CAPABLE_SUBTYPE, true⟩ ∧
    get_tcp_option demo_live_synack TCPOPT_MPTCP
      = some { demo_opt 12 0 with mp_capable_syn_key := 43981 } ∧
    (∃ s', mptcp_gen_key demo_env (set_kernel_key demo_k1 1) = .ret (STATUS_OK, s') ∧
      s'.packetdrill_key = 2 ∧
      s'.packetdrill_key ≠ (set_kernel_key demo_k1 1).packetdrill_key) ∧
    (∃ s', extract_and_set_kernel_key (set_kernel_key demo_k1 1) demo_live_synack
        = .ret (STATUS_OK, s') ∧
      s'.kernel_key = 2 ∧ s'.kernel_key ≠ (set_kernel_key demo_k1 1).kernel_key) :=
  have h := key_rebind_is_accepted demo_env (set_kernel_key demo_k1 1) demo_live_synack
    { demo_opt 12 0 with mp_capable_syn_key := 43981 } "b" []
    ⟨"b", .owned 2, MP_CAPABLE_SUBTYPE, true⟩ 2 (by decide) (by decide) rfl rfl (by decide)
    (by decide)
  ⟨by decide, by decide, by decide, h.1 (by decide) (by decide),
    h.2 (by decide) (by decide)⟩

/-- C4 (witness): the inbound MP_CAPABLE SYN that opens the handshake `demo_s0`. -/
theorem mp_capable_syn_inbound_generates_key_witness :
    (demo_opt 12 0).length = TCPOLEN_MP_CAPABLE_SYN ∧
    demo_s0.packetdrill_key_set = false ∧
    demo_s0.vars_queue = .var_name "a" :: [.var_name "b", .var_name "a", .var_name "b"] ∧
    find_mp_var demo_s0 "a" = none ∧
    ∃ s' o' var,
      mptcp_subtype_mp_capable demo_env demo_s0 (demo_inbound true false [demo_opt 12 0])
        (demo_inbound true false [demo_opt 12 0]) (demo_opt 12 0) DIRECTION_INBOUND
        = .ret (STATUS_OK, s', o') ∧
      s'.packetdrill_key = (demo_env.rand64 (demo_env.seed demo_s0.prng)).1 % 2 ^ 64 ∧
      s'.packetdrill_key_set = true ∧
      find_mp_var s' "a" = some var ∧ var.script_defined = false ∧
      var.mptcp_subtype = MP_CAPABLE_SUBTYPE ∧
      deref s' var.value = s'.packetdrill_key ∧
      o'.mp_capable_syn_key = s'.packetdrill_key ∧
      s'.vars_queue = [.var_name "b", .var_name "a", .var_name "b"] :=
  ⟨rfl, by decide, by decide, by decide,
    mp_capable_syn_inbound_generates_key demo_env demo_s0
      (demo_inbound true false [demo_opt 12 0]) (demo_inbound true false [demo_opt 12 0])
      (demo_opt 12 0) "a" [.var_name "b", .var_name "a", .var_name "b"] rfl (by decide)
      (by decide) (by decide)⟩

/-- C5 (witness): the outbound MP_CAPABLE SYN/ACK that answers it. -/
theorem mp_capable_syn_outbound_extracts_key_witness :
    (demo_opt 12 0).length = TCPOLEN_MP_CAPABLE_SYN ∧
    demo_s1.kernel_key_set = false ∧
    get_tcp_option demo_live_synack TCPOPT_MPTCP
      = some { demo_opt 12 0 with mp_capable_syn_key := 43981 } ∧
    demo_s1.vars_queue = .var_name "b" :: [.var_name "a", .var_name "b"] ∧
    find_mp_var demo_s1 "b" = none ∧
    ∃ s' o' var,
      mptcp_subtype_mp_capable demo_env demo_s1 (demo_outbound true true [demo_opt 12 0])
        demo_live_synack (demo_opt 12 0) DIRECTION_OUTBOUND = .ret (STATUS_OK, s', o') ∧
      s'.kernel_key = 43981 ∧ s'.kernel_key_set = true ∧
      find_mp_var s' "b" = some var ∧ var.script_defined = false ∧
      var.mptcp_subtype = MP_CAPABLE_SUBTYPE ∧
      deref s' var.value = s'.kernel_key ∧
      o'.mp_capable_syn_key = 43981 ∧
      s'.remote_ssn = (demo_s1.remote_ssn + 1) % 2 ^ demo_env.remote_ssn_bits ∧
      (demo_s1.remote_ssn + 1 < 2 ^ demo_env.remote_ssn_bits →
        s'.remote_ssn = demo_s1.remote_ssn + 1) ∧
      s'.vars_queue = [.var_name "a", .var_name "b"] :=
  have hf : find_mp_var demo_s1 "b" = none := by decide
  ⟨rfl, by decide, by decide, by decide, hf,
    mp_capable_syn_outbound_extracts_key demo_env demo_s1
      (demo_outbound true true [demo_opt 12 0]) demo_live_synack (demo_opt 12 0)
      { demo_opt 12 0 with mp_capable_syn_key := 43981 } "b"
      [.var_name "a", .var_name "b"] 43981 rfl (by decide) (by decide) rfl (by decide)
      (fun v h => by rw [hf] at h; cases h)⟩

/-- C6 (witness): the script of `demo_k0` defines `a = 1` and names `a` first. -/
theorem script_defined_key_takes_precedence_witness :
    demo_k0.vars_queue = .var_name "a" :: [.var_name "b"] ∧
    find_mp_var demo_k0 "a" = some ⟨"a", .owned 1, MP_CAPABLE_SUBTYPE, true⟩ ∧
    get_tcp_option demo_live_synack TCPOPT_MPTCP
      = some { demo_opt 12 0 with mp_capable_syn_key := 43981 } ∧
    (∃ s', mptcp_gen_key demo_env demo_k0 = .ret (STATUS_OK, s') ∧ s'.packetdrill_key = 1 ∧
      s'.packetdrill_key_set = true ∧ s'.prng = demo_k0.prng ∧ s'.vars = demo_k0.vars) ∧
    (∃ s', extract_and_set_kernel_key demo_k0 demo_live_synack = .ret (STATUS_OK, s') ∧
      s'.kernel_key = 1 ∧ s'.kernel_key_set = true ∧ s'.vars = demo_k0.vars) :=
  have h := script_defined_key_takes_precedence demo_env demo_k0 demo_live_synack
    { demo_opt 12 0 with mp_capable_syn_key := 43981 } "a" [.var_name "b"]
    ⟨"a", .owned 1, MP_CAPABLE_SUBTYPE, true⟩ 1 (by decide) (by decide) rfl rfl (by decide)
    (by decide)
  ⟨by decide, by decide, by decide, h.1, h.2⟩

/-- C8 (witness): the third step consumes the hints `a` and `b`. -/
theorem mp_capable_hint_consumption_witness :
    mptcp_subtype_mp_capable demo_env demo_s2 (demo_inbound false true [demo_opt 20 0])
      (demo_inbound false true [demo_opt 20 0]) (demo_opt 20 0) DIRECTION_INBOUND
      = .ret (STATUS_OK, demo_s3, demo_o3) ∧
    (demo_opt 20 0).length = TCPOLEN_MP_CAPABLE ∧
    ∃ h1 h2 v1 v2,
      demo_s2.vars_queue = h1 :: h2 :: demo_s3.vars_queue ∧
      find_mp_var demo_s2 (read_as_name h1) = some v1 ∧
      find_mp_var demo_s2 (read_as_name h2) = some v2 ∧
      demo_o3.mp_capable_no_syn_sender_key = deref demo_s2 v1.value ∧
      demo_o3.mp_capable_no_syn_receiver_key = deref demo_s2 v2.value :=
  ⟨by decide, rfl,
    (mp_capable_hint_consumption demo_env demo_s2 demo_s3
      (demo_inbound false true [demo_opt 20 0]) (demo_inbound false true [demo_opt 20 0])
      (demo_opt 20 0) demo_o3 DIRECTION_INBOUND (by decide)).2 rfl⟩

/-- C9 (counterexample): one subflow handshake, inbound MP_JOIN SYN, outbound
SYN/ACK, inbound ACK, on a FIFO of three hints: every call returns `STATUS_OK`,
the SYN/ACK call and the ACK call each change the FIFO, and all three hints are
gone at the end. -/
theorem mp_join_one_hint_counterexample :
    mptcp_subtype_mp_join demo_env demo_j0 (demo_join_inbound true false [demo_opt 12 1])
      (demo_join_inbound true false [demo_opt 12 1]) (demo_opt 12 1) DIRECTION_INBOUND
      = .ret (STATUS_OK, demo_j1, demo_jo1) ∧
    mptcp_subtype_mp_join demo_env demo_j1 (demo_join_outbound true true [demo_opt 16 1])
      demo_live_join_synack (demo_opt 16 1) DIRECTION_OUTBOUND
      = .ret (STATUS_OK, demo_j2, demo_jo2) ∧
    mptcp_subtype_mp_join demo_env demo_j2 (demo_join_inbound false true [demo_opt 24 1])
      (demo_join_inbound false true [demo_opt 24 1]) (demo_opt 24 1) DIRECTION_INBOUND
      = .ret (STATUS_OK, demo_j3, demo_jo3) ∧
    demo_j0.vars_queue.length = 3 ∧ demo_j1.vars_queue.length = 2 ∧
    demo_j2.vars_queue.length = 1 ∧ demo_j3.vars_queue.length = 0 ∧
    demo_j2.vars_queue ≠ demo_j1.vars_queue ∧ demo_j3.vars_queue ≠ demo_j2.vars_queue := by
  decide

/-- C9 (witness): the three MP_JOIN options of the subflow handshake `demo_j0`. -/
theorem mp_join_consumes_one_hint_per_option_witness :
    mptcp_subtype_mp_join demo_env demo_j0 (demo_join_inbound true false [demo_opt 12 1])
      (demo_join_inbound true false [demo_opt 12 1]) (demo_opt 12 1) DIRECTION_INBOUND
      = .ret (STATUS_OK, demo_j1, demo_jo1) ∧
    mptcp_subtype_mp_join demo_env demo_j1 (demo_join_outbound true true [demo_opt 16 1])
      demo_live_join_synack (demo_opt 16 1) DIRECTION_OUTBOUND
      = .ret (STATUS_OK, demo_j2, demo_jo2) ∧
    mptcp_subtype_mp_join demo_env demo_j2 (demo_join_inbound false true [demo_opt 24 1])
      (demo_join_inbound false true [demo_opt 24 1]) (demo_opt 24 1) DIRECTION_INBOUND
      = .ret (STATUS_OK, demo_j3, demo_jo3) ∧
    ∃ a b c, demo_j0.vars_queue = a :: b :: c :: demo_j3.vars_queue ∧
      demo_j1.vars_queue = b :: c :: demo_j3.vars_queue ∧
      demo_j2.vars_queue = c :: demo_j3.vars_queue :=
  ⟨by decide, by decide, by decide,
    mp_join_consumes_one_hint_per_option demo_env demo_j0 demo_j1 demo_j2 demo_j3
      (demo_join_inbound true false [demo_opt 12 1])
      (demo_join_outbound true true [demo_opt 16 1])
      (demo_join_inbound false true [demo_opt 24 1])
      (demo_join_inbound true false [demo_opt 12 1]) demo_live_join_synack
      (demo_join_inbound false true [demo_opt 24 1])
      (demo_opt 12 1) (demo_opt 16 1) (demo_opt 24 1) demo_jo1 demo_jo2 demo_jo3
      DIRECTION_INBOUND DIRECTION_OUTBOUND DIRECTION_INBOUND
      (by decide) (by decide) (by decide)⟩

/-- C10 (witness): the inbound MP_JOIN SYN of the subflow handshake `demo_j0`. -/
theorem mp_join_syn_inbound_auto_witness :
    (demo_join_inbound true false [demo_opt 12 1]).tcp.syn = true ∧
    (demo_join_inbound true false [demo_opt 12 1]).tcp.ack = false ∧
    (demo_opt 12 1).length = TCPOLEN_MP_JOIN_SYN ∧
    demo_j0.vars_queue
      = .join_info demo_auto :: [.join_info demo_auto, .join_info demo_auto] ∧
    ∃ s' o' sf,
      mptcp_subtype_mp_join demo_env demo_j0 (demo_join_inbound true false [demo_opt 12 1])
        (demo_join_inbound true false [demo_opt 12 1]) (demo_opt 12 1) DIRECTION_INBOUND
        = .ret (STATUS_OK, s', o') ∧
      s'.subflows = sf :: demo_j0.subflows ∧
      sf.src_port = ntohs (demo_join_inbound true false [demo_opt 12 1]).tcp.src_port ∧
      sf.dst_port = ntohs (demo_join_inbound true false [demo_opt 12 1]).tcp.dst_port ∧
      o'.mp_join_syn_no_ack_receiver_token
        = htonl (sha1_least_32bits demo_env demo_j0.kernel_key) ∧
      o'.mp_join_syn_address_id = demo_j0.last_packetdrill_addr_id % 2 ^ 8 ∧
      s'.last_packetdrill_addr_id = (demo_j0.last_packetdrill_addr_id + 1) % 2 ^ 32 ∧
      (demo_j0.last_packetdrill_addr_id + 1 < 2 ^ 32 →
        s'.last_packetdrill_addr_id = demo_j0.last_packetdrill_addr_id + 1) :=
  ⟨rfl, rfl, rfl, by decide,
    mp_join_syn_inbound_auto demo_env demo_j0 (demo_join_inbound true false [demo_opt 12 1])
      (demo_join_inbound true false [demo_opt 12 1]) (demo_opt 12 1) demo_auto
      [.join_info demo_auto, .join_info demo_auto] rfl rfl rfl (by decide)
      ⟨rfl, rfl, rfl⟩ (Or.inl (by decide))⟩


/-! ## MP_JOIN: byte order, lookup and the SYN/ACK and ACK steps -/

theorem le_bytes_length (n x : Nat) : (le_bytes n x).length = n := by
  induction n generalizing x with
  | zero => rfl
  | succ n ih => simp [le_bytes, ih]

theorem bswap32_bytes (a b c d : Nat) (ha : a < 256) (hb : b < 256) (hc : c < 256)
    (hd : d < 256) :
    bswap32 (a + 256 * b + 65536 * c + 16777216 * d)
      = a * 16777216 + b * 65536 + c * 256 + d := by
  unfold bswap32
  have e1 : (a + 256 * b + 65536 * c + 16777216 * d) % 256 = a := by omega
  have e2 : (a + 256 * b + 65536 * c + 16777216 * d) / 2 ^ 8 % 256 = b := by
    norm_num; omega
  have e3 : (a + 256 * b + 65536 * c + 16777216 * d) / 2 ^ 16 % 256 = c := by
    norm_num; omega
  have e4 : (a + 256 * b + 65536 * c + 16777216 * d) / 2 ^ 24 % 256 = d := by
    norm_num; omega
  rw [e1, e2, e3, e4]; norm_num

theorem bswap32_lt (x : Nat) : bswap32 x < 2 ^ 32 := by
  unfold bswap32
  norm_num
  omega

theorem bswap32_bswap32 (x : Nat) (h : x < 2 ^ 32) : bswap32 (bswap32 x) = x := by
  have hx : x = x % 256 + 256 * (x / 256 % 256) + 65536 * (x / 65536 % 256)
      + 16777216 * (x / 16777216 % 256) := by norm_num at h; omega
  have h1 : x % 256 < 256 := Nat.mod_lt _ (by norm_num)
  have h2 : x / 256 % 256 < 256 := Nat.mod_lt _ (by norm_num)
  have h3 : x / 65536 % 256 < 256 := Nat.mod_lt _ (by norm_num)
  have h4 : x / 16777216 % 256 < 256 := Nat.mod_lt _ (by norm_num)
  conv_lhs => rw [hx]
  rw [bswap32_bytes _ _ _ _ h1 h2 h3 h4]
  have hrev := bswap32_bytes (x / 16777216 % 256) (x / 65536 % 256) (x / 256 % 256)
    (x % 256) h4 h3 h2 h1
  have e : x % 256 * 16777216 + x / 256 % 256 * 65536 + x / 65536 % 256 * 256
      + x / 16777216 % 256
      = x / 16777216 % 256 + 256 * (x / 65536 % 256) + 65536 * (x / 256 % 256)
        + 16777216 * (x % 256) := by ring
  rw [e, hrev]
  omega

theorem bswap64_bswap64 (x : Nat) (h : x < 2 ^ 64) : bswap64 (bswap64 x) = x := by
  unfold bswap64
  have hlo := bswap32_lt (x % 2 ^ 32)
  have hhi := bswap32_lt (x / 2 ^ 32 % 2 ^ 32)
  have e1 : (bswap32 (x % 2 ^ 32) * 2 ^ 32 + bswap32 (x / 2 ^ 32 % 2 ^ 32)) % 2 ^ 32
      = bswap32 (x / 2 ^ 32 % 2 ^ 32) := by omega
  have e2 : (bswap32 (x % 2 ^ 32) * 2 ^ 32 + bswap32 (x / 2 ^ 32 % 2 ^ 32)) / 2 ^ 32
      % 2 ^ 32 = bswap32 (x % 2 ^ 32) := by omega
  rw [e1, e2, bswap32_bswap32 _ (Nat.mod_lt _ (by norm_num)),
    bswap32_bswap32 _ (Nat.mod_lt _ (by norm_num))]
  omega

theorem find_matching_subflow_some {s : mp_state_s} {p : packet}
    {does_match : mp_subflow → packet → Bool} {i : Nat}
    (h : find_matching_subflow s p does_match = some i) :
    ∃ sf, s.subflows[i]? = some sf ∧ does_match sf p = true := by
  unfold find_matching_subflow at h
  simp only at h
  split at h
  · rename_i hlt
    simp at h
    subst h
    refine ⟨s.subflows[List.findIdx (fun subflow => does_match subflow p) s.subflows], ?_, ?_⟩
    · exact List.getElem?_eq_getElem hlt
    · exact List.findIdx_getElem (w := hlt)
  · simp at h

theorem find_outbound_queue (s : mp_state_s) (q : List queue_el) (p : packet) :
    find_subflow_matching_outbound_packet { s with vars_queue := q } p
      = find_subflow_matching_outbound_packet s p := rfl

theorem find_inbound_queue (s : mp_state_s) (q : List queue_el) (p : packet) :
    find_subflow_matching_inbound_packet { s with vars_queue := q } p
      = find_subflow_matching_inbound_packet s p := rfl

/-- C13 (amended): an outbound MP_JOIN SYN/ACK (SYN and ACK set, length 16), handled
with a hint in the FIFO, a subflow matching the live packet and a live MPTCP option, returns
`STATUS_OK`; the matching subflow takes the live option's address id and sender random
number as `kernel_addr_id` and `kernel_rand_nbr`, the scripted option mirrors both
fields, and its `sender_hmac` is `hmac_sha1_truncat_64` over the 16-byte key
`kernel_key || packetdrill_key` and the 8-byte message
`kernel_rand_nbr || packetdrill_rand_nbr` of the updated subflow. -/
theorem mp_join_syn_ack_outbound_absorbs (E : Env) (s : mp_state_s) (p live : packet)
    (o lo : tcp_option) (el : queue_el) (rest : List queue_el) (i : Nat)
    (hq : s.vars_queue = el :: rest)
    (hsyn : p.tcp.syn = true) (hack : p.tcp.ack = true)
    (hlen : o.length = TCPOLEN_MP_JOIN_SYN_ACK)
    (hfind : find_subflow_matching_outbound_packet s live = some i)
    (hlive : get_tcp_option live TCPOPT_MPTCP = some lo) :
    ∃ sf sf' s' o',
      s.subflows[i]? = some sf ∧
      does_subflow_match_outbound_packet sf live = true ∧
      mptcp_subtype_mp_join E s p live o DIRECTION_OUTBOUND = .ret (STATUS_OK, s', o') ∧
      sf' = { sf with
        kernel_addr_id := lo.mp_join_syn_address_id
        kernel_rand_nbr := lo.mp_join_syn_ack_sender_random_number } ∧
      s'.subflows = s.subflows.set i sf' ∧
      o'.mp_join_syn_address_id = lo.mp_join_syn_address_id ∧
      o'.mp_join_syn_ack_sender_random_number = lo.mp_join_syn_ack_sender_random_number ∧
      o'.mp_join_syn_ack_sender_hmac =
        hmac_sha1_truncat_64 E (le_bytes 8 s'.kernel_key ++ le_bytes 8 s'.packetdrill_key)
          (le_bytes 4 sf'.kernel_rand_nbr ++ le_bytes 4 sf'.packetdrill_rand_nbr) ∧
      (le_bytes 8 s'.kernel_key ++ le_bytes 8 s'.packetdrill_key).length = 16 ∧
      (le_bytes 4 sf'.kernel_rand_nbr ++ le_bytes 4 sf'.packetdrill_rand_nbr).length = 8 ∧
      s'.kernel_key = s.kernel_key ∧ s'.packetdrill_key = s.packetdrill_key := by
  obtain ⟨sf, hsf, hm⟩ := find_matching_subflow_some hfind
  refine ⟨sf, _, store_subflow { s with vars_queue := rest } i _,
    { o with
      mp_join_syn_address_id := lo.mp_join_syn_address_id
      mp_join_syn_ack_sender_random_number := lo.mp_join_syn_ack_sender_random_number
      mp_join_syn_ack_sender_hmac :=
        hmac_sha1_truncat_64 E (le_bytes 8 s.kernel_key ++ le_bytes 8 s.packetdrill_key)
          (le_bytes 4 lo.mp_join_syn_ack_sender_random_number
            ++ le_bytes 4 sf.packetdrill_rand_nbr) },
    hsf, hm, ?_, rfl, rfl, ?_, ?_, ?_, ?_, ?_, rfl, rfl⟩
  · unfold mptcp_subtype_mp_join
    simp only [hq, queue_dequeue]
    have hd : ¬ (DIRECTION_OUTBOUND = DIRECTION_INBOUND) := by decide
    simp only [hd, false_and, if_false, hsyn, hack, hlen, and_self, if_true,
      find_outbound_queue, hfind, hlive, hsf]
  · rfl
  · rfl
  · rfl
  · simp [le_bytes_length]
  · simp [le_bytes_length]

/-- C13 (counterexample): the script of `demo_h0` gives one MP_JOIN hint, which the
inbound MP_JOIN SYN consumes.  On `demo_h1` the FIFO is empty, the new subflow matches
the kernel's SYN/ACK and the live packet carries an MP_JOIN option with address id 9
and random number 77: the handler returns `STATUS_ERR`, the subflow absorbs nothing
and the scripted option is returned as it was. -/
theorem mp_join_syn_ack_outbound_hint_counterexample :
    demo_h1.vars_queue = [] ∧
    find_subflow_matching_outbound_packet demo_h1 demo_live_join_synack = some 0 ∧
    get_tcp_option demo_live_join_synack TCPOPT_MPTCP = some demo_live_join_opt ∧
    mptcp_subtype_mp_join demo_env demo_h1 (demo_join_outbound true true [demo_opt 16 1])
      demo_live_join_synack (demo_opt 16 1) DIRECTION_OUTBOUND
      = .ret (STATUS_ERR, demo_h1, demo_opt 16 1) ∧
    (demo_live_join_opt.mp_join_syn_address_id,
      demo_live_join_opt.mp_join_syn_ack_sender_random_number) = (9, 77) ∧
    demo_h1.subflows.map (fun sf => (sf.kernel_addr_id, sf.kernel_rand_nbr))
      = [(0, 0), (0, 0)] ∧
    ((demo_opt 16 1).mp_join_syn_address_id,
      (demo_opt 16 1).mp_join_syn_ack_sender_random_number) = (0, 0) := by
  decide

/-- C13 (witness): the outbound MP_JOIN SYN/ACK of the subflow handshake `demo_j0`;
the live option carries address id 9 and random number 77. -/
theorem mp_join_syn_ack_outbound_absorbs_witness :
    demo_j1.vars_queue = .join_info demo_auto :: [.join_info demo_auto] ∧
    find_subflow_matching_outbound_packet demo_j1 demo_live_join_synack = some 0 ∧
    get_tcp_option demo_live_join_synack TCPOPT_MPTCP = some demo_live_join_opt ∧
    ∃ sf sf' s' o',
      demo_j1.subflows[0]? = some sf ∧
      does_subflow_match_outbound_packet sf demo_live_join_synack = true ∧
      mptcp_subtype_mp_join demo_env demo_j1 (demo_join_outbound true true [demo_opt 16 1])
        demo_live_join_synack (demo_opt 16 1) DIRECTION_OUTBOUND
        = .ret (STATUS_OK, s', o') ∧
      sf' = { sf with
        kernel_addr_id := demo_live_join_opt.mp_join_syn_address_id
        kernel_rand_nbr := demo_live_join_opt.mp_join_syn_ack_sender_random_number } ∧
      s'.subflows = demo_j1.subflows.set 0 sf' ∧
      o'.mp_join_syn_address_id = demo_live_join_opt.mp_join_syn_address_id ∧
      o'.mp_join_syn_ack_sender_random_number
        = demo_live_join_opt.mp_join_syn_ack_sender_random_number ∧
      o'.mp_join_syn_ack_sender_hmac =
        hmac_sha1_truncat_64 demo_env
          (le_bytes 8 s'.kernel_key ++ le_bytes 8 s'.packetdrill_key)
          (le_bytes 4 sf'.kernel_rand_nbr ++ le_bytes 4 sf'.packetdrill_rand_nbr) ∧
      (le_bytes 8 s'.kernel_key ++ le_bytes 8 s'.packetdrill_key).length = 16 ∧
      (le_bytes 4 sf'.kernel_rand_nbr ++ le_bytes 4 sf'.packetdrill_rand_nbr).length = 8 ∧
      s'.kernel_key = demo_j1.kernel_key ∧ s'.packetdrill_key = demo_j1.packetdrill_key :=
  ⟨by decide, by decide, by decide,
    mp_join_syn_ack_outbound_absorbs demo_env demo_j1
      (demo_join_outbound true true [demo_opt 16 1]) demo_live_join_synack (demo_opt 16 1)
      demo_live_join_opt (.join_info demo_auto) [.join_info demo_auto] 0 (by decide) rfl rfl
      rfl (by decide) (by decide)⟩

theorem mp_join_syn_address_id_rands (o : tcp_option) (info : mp_join_info)
    (sf : mp_subflow) (direction : Nat) :
    (mp_join_syn_address_id o info sf direction).1.packetdrill_rand_nbr
        = sf.packetdrill_rand_nbr ∧
      (mp_join_syn_address_id o info sf direction).1.kernel_rand_nbr = sf.kernel_rand_nbr := by
  unfold mp_join_syn_address_id
  constructor <;> (simp only; repeat' split) <;> rfl

/-- The inbound branch of `mp_join_syn_ack` on an existing subflow and a hint without a
scripted key pair, step by step. -/
theorem mp_join_syn_ack_inbound_eq (E : Env) (s : mp_state_s) (p live : packet)
    (o : tcp_option) (info : mp_join_info) (i : Nat) (sf : mp_subflow)
    (hauto : info.is_script_defined = false)
    (hfind : find_subflow_matching_inbound_packet s p = some i)
    (hsf : s.subflows[i]? = some sf) :
    mp_join_syn_ack E s p live o (.join_info info) DIRECTION_INBOUND =
      let r := (E.rand32 s.prng).1 % 2 ^ 32
      let a := mp_join_syn_address_id o info { sf with packetdrill_rand_nbr := r }
        DIRECTION_INBOUND
      let sf' : mp_subflow :=
        if info.rand_script_defined = true then
          { a.1 with packetdrill_rand_nbr := info.rand }
        else a.1
      .ret (STATUS_OK,
        store_subflow
          { s with
            prng := (E.rand32 s.prng).2
            last_packetdrill_addr_id := (s.last_packetdrill_addr_id + 1) % 2 ^ 32 } i sf',
        mp_join_syn_ack_sender_hmac E
          { a.2 with mp_join_syn_ack_sender_random_number := htonl sf'.packetdrill_rand_nbr }
          s.packetdrill_key s.kernel_key sf'.packetdrill_rand_nbr sf'.kernel_rand_nbr) := by
  unfold mp_join_syn_ack
  have hs : ({ s with prng := (E.rand32 s.prng).2 } : mp_state_s).subflows[i]? = some sf := hsf
  simp only [if_true, hfind, generate_32, hsf, hauto]
  rfl

/-- C14: an inbound MP_JOIN SYN/ACK (SYN and ACK set, length 16), handled with a
matching subflow and a hint that scripts no key pair (the all-auto hint is one),
returns `STATUS_OK`; the subflow's `packetdrill_rand_nbr` becomes the next 32-bit value
of the random generator, or the hint's `rand` when `rand_script_defined`;
`last_packetdrill_addr_id` grows by one (modulo 2^32); and `sender_hmac` holds, in
network byte order, the 64-bit truncation of the HMAC with key
`packetdrill_key || kernel_key` and message `packetdrill_rand_nbr || kernel_rand_nbr`
of the updated subflow. -/
theorem mp_join_syn_ack_inbound_auto (E : Env) (s : mp_state_s) (p live : packet)
    (o : tcp_option) (info : mp_join_info) (rest : List queue_el) (i : Nat)
    (hq : s.vars_queue = .join_info info :: rest)
    (hsyn : p.tcp.syn = true) (hack : p.tcp.ack = true)
    (hlen : o.length = TCPOLEN_MP_JOIN_SYN_ACK)
    (hauto : info.is_script_defined = false)
    (hfind : find_subflow_matching_inbound_packet s p = some i) :
    ∃ sf sf' s' o',
      s.subflows[i]? = some sf ∧
      does_subflow_match_inbound_packet sf p = true ∧
      mptcp_subtype_mp_join E s p live o DIRECTION_INBOUND = .ret (STATUS_OK, s', o') ∧
      s'.subflows = s.subflows.set i sf' ∧
      sf'.packetdrill_rand_nbr =
        (if info.rand_script_defined = true then info.rand
         else (E.rand32 s.prng).1 % 2 ^ 32) ∧
      sf'.kernel_rand_nbr = sf.kernel_rand_nbr ∧
      s'.prng = (E.rand32 s.prng).2 ∧
      s'.last_packetdrill_addr_id = (s.last_packetdrill_addr_id + 1) % 2 ^ 32 ∧
      (s.last_packetdrill_addr_id + 1 < 2 ^ 32 →
        s'.last_packetdrill_addr_id = s.last_packetdrill_addr_id + 1) ∧
      o'.mp_join_syn_ack_sender_hmac =
        htobe64 (hmac_sha1_truncat_64 E
          (le_bytes 8 s'.packetdrill_key ++ le_bytes 8 s'.kernel_key)
          (le_bytes 4 sf'.packetdrill_rand_nbr ++ le_bytes 4 sf'.kernel_rand_nbr)) ∧
      bswap64 o'.mp_join_syn_ack_sender_hmac =
        hmac_sha1_truncat_64 E
          (le_bytes 8 s'.packetdrill_key ++ le_bytes 8 s'.kernel_key)
          (le_bytes 4 sf'.packetdrill_rand_nbr ++ le_bytes 4 sf'.kernel_rand_nbr) ∧
      o'.mp_join_syn_ack_sender_random_number = htonl sf'.packetdrill_rand_nbr ∧
      s'.packetdrill_key = s.packetdrill_key ∧ s'.kernel_key = s.kernel_key := by
  obtain ⟨sf, hsf, hm⟩ := find_matching_subflow_some hfind
  have hcall := mp_join_syn_ack_inbound_eq E { s with vars_queue := rest } p live o info i sf
    hauto hfind hsf
  have hrands := mp_join_syn_address_id_rands o info
    { sf with packetdrill_rand_nbr := (E.rand32 s.prng).1 % 2 ^ 32 } DIRECTION_INBOUND
  have hmain : mptcp_subtype_mp_join E s p live o DIRECTION_INBOUND
      = match mp_join_syn_ack E { s with vars_queue := rest } p live o (.join_info info)
          DIRECTION_INBOUND with
        | .fault => .fault
        | .ret (_, s, opt) => .ret (STATUS_OK, s, opt) := by
    unfold mptcp_subtype_mp_join
    have hd : ¬ (DIRECTION_INBOUND = DIRECTION_OUTBOUND) := by decide
    simp [hq, queue_dequeue, hd, hsyn, hack, hlen]
  rw [hcall] at hmain
  refine ⟨sf, _, _, _, hsf, hm, hmain, rfl, ?_, ?_, rfl, rfl, ?_, rfl, ?_, rfl, rfl, rfl⟩
  · rcases hr : info.rand_script_defined
    · simp only [hr, Bool.false_eq_true, if_false]; exact hrands.1
    · simp only [hr, if_true]
  · rcases hr : info.rand_script_defined
    · simp only [hr, Bool.false_eq_true, if_false]; exact hrands.2
    · simp only [hr, if_true]; exact hrands.2
  · intro hlt
    exact Nat.mod_eq_of_lt hlt
  · simp only [mp_join_syn_ack_sender_hmac, htobe64]
    exact bswap64_bswap64 _ (Nat.mod_lt _ (by norm_num))

/-- C14 (witness): an inbound MP_JOIN SYN/ACK on the joined subflow of `demo_j2`
(ports 1001 and 2000, kernel random number 77) with the all-auto hint. -/
theorem mp_join_syn_ack_inbound_auto_witness :
    demo_j2.vars_queue = .join_info demo_auto :: [] ∧
    demo_auto.is_script_defined = false ∧
    find_subflow_matching_inbound_packet demo_j2 (demo_join_inbound true true [demo_opt 16 1])
      = some 0 ∧
    ∃ sf sf' s' o',
      demo_j2.subflows[0]? = some sf ∧
      does_subflow_match_inbound_packet sf (demo_join_inbound true true [demo_opt 16 1])
        = true ∧
      mptcp_subtype_mp_join demo_env demo_j2 (demo_join_inbound true true [demo_opt 16 1])
        (demo_join_inbound true true [demo_opt 16 1]) (demo_opt 16 1) DIRECTION_INBOUND
        = .ret (STATUS_OK, s', o') ∧
      s'.subflows = demo_j2.subflows.set 0 sf' ∧
      sf'.packetdrill_rand_nbr =
        (if demo_auto.rand_script_defined = true then demo_auto.rand
         else (demo_env.rand32 demo_j2.prng).1 % 2 ^ 32) ∧
      sf'.kernel_rand_nbr = sf.kernel_rand_nbr ∧
      s'.prng = (demo_env.rand32 demo_j2.prng).2 ∧
      s'.last_packetdrill_addr_id = (demo_j2.last_packetdrill_addr_id + 1) % 2 ^ 32 ∧
      (demo_j2.last_packetdrill_addr_id + 1 < 2 ^ 32 →
        s'.last_packetdrill_addr_id = demo_j2.last_packetdrill_addr_id + 1) ∧
      o'.mp_join_syn_ack_sender_hmac =
        htobe64 (hmac_sha1_truncat_64 demo_env
          (le_bytes 8 s'.packetdrill_key ++ le_bytes 8 s'.kernel_key)
          (le_bytes 4 sf'.packetdrill_rand_nbr ++ le_bytes 4 sf'.kernel_rand_nbr)) ∧
      bswap64 o'.mp_join_syn_ack_sender_hmac =
        hmac_sha1_truncat_64 demo_env
          (le_bytes 8 s'.packetdrill_key ++ le_bytes 8 s'.kernel_key)
          (le_bytes 4 sf'.packetdrill_rand_nbr ++ le_bytes 4 sf'.kernel_rand_nbr) ∧
      o'.mp_join_syn_ack_sender_random_number = htonl sf'.packetdrill_rand_nbr ∧
      s'.packetdrill_key = demo_j2.packetdrill_key ∧ s'.kernel_key = demo_j2.kernel_key :=
  ⟨by decide, rfl, by decide,
    mp_join_syn_ack_inbound_auto demo_env demo_j2 (demo_join_inbound true true [demo_opt 16 1])
      (demo_join_inbound true true [demo_opt 16 1]) (demo_opt 16 1) demo_auto [] 0
      (by decide) rfl rfl rfl rfl (by decide)⟩

/-- C15 (amended): an MP_JOIN ACK (ACK set, SYN clear, length 24), handled with a
hint in the FIFO and a subflow `sf` matching the packet, returns `STATUS_OK` and leaves in
`sender_hmac` exactly the bytes `hmac_sha1` produces, with no byte swap: inbound over
the key `packetdrill_key || kernel_key` and the message
`sf.packetdrill_rand_nbr || sf.kernel_rand_nbr`, outbound over
`kernel_key || packetdrill_key` and `sf.kernel_rand_nbr || sf.packetdrill_rand_nbr`.
The keys and the subflow are the same after the call, so the tag is reproduced from
the state the call leaves. -/
theorem mp_join_ack_writes_hmac (E : Env) (s : mp_state_s) (p live : packet)
    (o : tcp_option) (el : queue_el) (rest : List queue_el) (direction i : Nat)
    (hq : s.vars_queue = el :: rest)
    (hsyn : p.tcp.syn = false) (hack : p.tcp.ack = true)
    (hlen : o.length = TCPOLEN_MP_JOIN_ACK)
    (hfind : (direction = DIRECTION_INBOUND ∧
        find_subflow_matching_inbound_packet s p = some i) ∨
      (direction = DIRECTION_OUTBOUND ∧
        find_subflow_matching_outbound_packet s p = some i)) :
    ∃ sf s' o',
      mptcp_subtype_mp_join E s p live o direction = .ret (STATUS_OK, s', o') ∧
      s.subflows[i]? = some sf ∧ s'.subflows[i]? = some sf ∧
      s'.subflows = s.subflows ∧
      s'.packetdrill_key = s.packetdrill_key ∧ s'.kernel_key = s.kernel_key ∧
      (direction = DIRECTION_INBOUND →
        does_subflow_match_inbound_packet sf p = true ∧
        o'.mp_join_no_syn_sender_hmac =
          hmac_sha1 E (le_bytes 8 s'.packetdrill_key ++ le_bytes 8 s'.kernel_key)
            (le_bytes 4 sf.packetdrill_rand_nbr ++ le_bytes 4 sf.kernel_rand_nbr)) ∧
      (direction = DIRECTION_OUTBOUND →
        does_subflow_match_outbound_packet sf p = true ∧
        o'.mp_join_no_syn_sender_hmac =
          hmac_sha1 E (le_bytes 8 s'.kernel_key ++ le_bytes 8 s'.packetdrill_key)
            (le_bytes 4 sf.kernel_rand_nbr ++ le_bytes 4 sf.packetdrill_rand_nbr)) ∧
      o' = { o with mp_join_no_syn_sender_hmac := o'.mp_join_no_syn_sender_hmac } := by
  rcases hfind with ⟨rfl, hfind⟩ | ⟨rfl, hfind⟩
  · obtain ⟨sf, hsf, hm⟩ := find_matching_subflow_some hfind
    have hd : ¬ (DIRECTION_INBOUND = DIRECTION_OUTBOUND) := by decide
    refine ⟨sf, { s with vars_queue := rest },
      { o with
        mp_join_no_syn_sender_hmac :=
          hmac_sha1 E (le_bytes 8 s.packetdrill_key ++ le_bytes 8 s.kernel_key)
            (le_bytes 4 sf.packetdrill_rand_nbr ++ le_bytes 4 sf.kernel_rand_nbr) },
      ?_, hsf, hsf, rfl, rfl, rfl, fun _ => ⟨hm, rfl⟩, fun h => absurd h hd, rfl⟩
    unfold mptcp_subtype_mp_join
    simp [hq, queue_dequeue, hd, hsyn, hack, hlen, find_inbound_queue, hfind, hsf]
  · obtain ⟨sf, hsf, hm⟩ := find_matching_subflow_some hfind
    have hd : ¬ (DIRECTION_OUTBOUND = DIRECTION_INBOUND) := by decide
    refine ⟨sf, { s with vars_queue := rest },
      { o with
        mp_join_no_syn_sender_hmac :=
          hmac_sha1 E (le_bytes 8 s.kernel_key ++ le_bytes 8 s.packetdrill_key)
            (le_bytes 4 sf.kernel_rand_nbr ++ le_bytes 4 sf.packetdrill_rand_nbr) },
      ?_, hsf, hsf, rfl, rfl, rfl, fun h => absurd h hd, fun _ => ⟨hm, rfl⟩, rfl⟩
    unfold mptcp_subtype_mp_join
    simp [hq, queue_dequeue, hd, hsyn, hack, hlen, find_outbound_queue, hfind, hsf]

/-- C15 (counterexample): the script of `demo_g0` gives two MP_JOIN hints, which the
inbound MP_JOIN SYN and the outbound SYN/ACK consume.  On `demo_g2` the FIFO is empty
and the joined subflow matches the MP_JOIN ACK in either direction: the handler
returns `STATUS_ERR` and the option as it was, with an empty `sender_hmac`, which is
not what `hmac_sha1` gives on the stored keys and random numbers. -/
theorem mp_join_ack_hint_counterexample :
    demo_g2.vars_queue = [] ∧
    find_subflow_matching_inbound_packet demo_g2 (demo_join_inbound false true [demo_opt 24 1])
      = some 0 ∧
    find_subflow_matching_outbound_packet demo_g2
      (demo_join_outbound false true [demo_opt 24 1]) = some 0 ∧
    mptcp_subtype_mp_join demo_env demo_g2 (demo_join_inbound false true [demo_opt 24 1])
      (demo_join_inbound false true [demo_opt 24 1]) (demo_opt 24 1) DIRECTION_INBOUND
      = .ret (STATUS_ERR, demo_g2, demo_opt 24 1) ∧
    mptcp_subtype_mp_join demo_env demo_g2 (demo_join_outbound false true [demo_opt 24 1])
      (demo_join_outbound false true [demo_opt 24 1]) (demo_opt 24 1) DIRECTION_OUTBOUND
      = .ret (STATUS_ERR, demo_g2, demo_opt 24 1) ∧
    (demo_opt 24 1).mp_join_no_syn_sender_hmac = [] ∧
    (∀ sf ∈ demo_g2.subflows,
      hmac_sha1 demo_env (le_bytes 8 demo_g2.packetdrill_key ++ le_bytes 8 demo_g2.kernel_key)
        (le_bytes 4 sf.packetdrill_rand_nbr ++ le_bytes 4 sf.kernel_rand_nbr) ≠ []) ∧
    (∀ sf ∈ demo_g2.subflows,
      hmac_sha1 demo_env (le_bytes 8 demo_g2.kernel_key ++ le_bytes 8 demo_g2.packetdrill_key)
        (le_bytes 4 sf.kernel_rand_nbr ++ le_bytes 4 sf.packetdrill_rand_nbr) ≠ []) := by
  decide

/-- C15 (witness): the inbound MP_JOIN ACK of the subflow handshake `demo_j0`, and an
outbound MP_JOIN ACK on the same subflow. -/
theorem mp_join_ack_writes_hmac_witness :
    demo_j2.vars_queue = .join_info demo_auto :: [] ∧
    find_subflow_matching_inbound_packet demo_j2 (demo_join_inbound false true [demo_opt 24 1])
      = some 0 ∧
    find_subflow_matching_outbound_packet demo_j2
      (demo_join_outbound false true [demo_opt 24 1]) = some 0 ∧
    (∃ sf s' o',
      mptcp_subtype_mp_join demo_env demo_j2 (demo_join_inbound false true [demo_opt 24 1])
        (demo_join_inbound false true [demo_opt 24 1]) (demo_opt 24 1) DIRECTION_INBOUND
        = .ret (STATUS_OK, s', o') ∧
      demo_j2.subflows[0]? = some sf ∧ s'.subflows[0]? = some sf ∧
      o'.mp_join_no_syn_sender_hmac =
        hmac_sha1 demo_env (le_bytes 8 s'.packetdrill_key ++ le_bytes 8 s'.kernel_key)
          (le_bytes 4 sf.packetdrill_rand_nbr ++ le_bytes 4 sf.kernel_rand_nbr)) ∧
    (∃ sf s' o',
      mptcp_subtype_mp_join demo_env demo_j2 (demo_join_outbound false true [demo_opt 24 1])
        (demo_join_outbound false true [demo_opt 24 1]) (demo_opt 24 1) DIRECTION_OUTBOUND
        = .ret (STATUS_OK, s', o') ∧
      demo_j2.subflows[0]? = some sf ∧ s'.subflows[0]? = some sf ∧
      o'.mp_join_no_syn_sender_hmac =
        hmac_sha1 demo_env (le_bytes 8 s'.kernel_key ++ le_bytes 8 s'.packetdrill_key)
          (le_bytes 4 sf.kernel_rand_nbr ++ le_bytes 4 sf.packetdrill_rand_nbr)) :=
  ⟨by decide, by decide, by decide,
    match mp_join_ack_writes_hmac demo_env demo_j2
        (demo_join_inbound false true [demo_opt 24 1])
        (demo_join_inbound false true [demo_opt 24 1]) (demo_opt 24 1)
        (.join_info demo_auto) [] DIRECTION_INBOUND 0 (by decide) rfl rfl rfl
        (Or.inl ⟨rfl, by decide⟩) with
    | ⟨sf, s', o', hcall, hsf, hsf', _, _, _, hin, _, _⟩ =>
      ⟨sf, s', o', hcall, hsf, hsf', (hin rfl).2⟩,
    match mp_join_ack_writes_hmac demo_env demo_j2
        (demo_join_outbound false true [demo_opt 24 1])
        (demo_join_outbound false true [demo_opt 24 1]) (demo_opt 24 1)
        (.join_info demo_auto) [] DIRECTION_OUTBOUND 0 (by decide) rfl rfl rfl
        (Or.inr ⟨rfl, by decide⟩) with
    | ⟨sf, s', o', hcall, hsf, hsf', _, _, _, _, hout, _⟩ =>
      ⟨sf, s', o', hcall, hsf, hsf', (hout rfl).2⟩⟩

/-- C18: when no subflow matches (for the outbound SYN/ACK: no subflow matches the
live packet; for the ACK in either direction: none matches the packet being
processed), `mptcp_subtype_mp_join` returns `STATUS_ERR`, gives the option back as it
received it and leaves the subflow registry as it was; the only change of the session
is the removal of the front hint, if there is one. -/
theorem mp_join_no_subflow_is_error (E : Env) (s : mp_state_s) (p live : packet)
    (o : tcp_option) (direction : Nat)
    (h : (direction = DIRECTION_OUTBOUND ∧ p.tcp.syn = true ∧ p.tcp.ack = true ∧
          o.length = TCPOLEN_MP_JOIN_SYN_ACK ∧
          find_subflow_matching_outbound_packet s live = none) ∨
        (direction = DIRECTION_INBOUND ∧ p.tcp.syn = false ∧ p.tcp.ack = true ∧
          o.length = TCPOLEN_MP_JOIN_ACK ∧
          find_subflow_matching_inbound_packet s p = none) ∨
        (direction = DIRECTION_OUTBOUND ∧ p.tcp.syn = false ∧ p.tcp.ack = true ∧
          o.length = TCPOLEN_MP_JOIN_ACK ∧
          find_subflow_matching_outbound_packet s p = none)) :
    ∃ s',
      mptcp_subtype_mp_join E s p live o direction = .ret (STATUS_ERR, s', o) ∧
      s'.subflows = s.subflows ∧
      s' = { s with vars_queue := s.vars_queue.tail } := by
  have hio : ¬ (DIRECTION_INBOUND = DIRECTION_OUTBOUND) := by decide
  have hoi : ¬ (DIRECTION_OUTBOUND = DIRECTION_INBOUND) := by decide
  refine ⟨{ s with vars_queue := s.vars_queue.tail }, ?_, rfl, rfl⟩
  unfold mptcp_subtype_mp_join queue_dequeue
  rcases hq : s.vars_queue with _ | ⟨el, rest⟩
  · simp
    cases s; simp_all
  · rcases h with ⟨rfl, hsyn, hack, hlen, hfind⟩ | ⟨rfl, hsyn, hack, hlen, hfind⟩ |
      ⟨rfl, hsyn, hack, hlen, hfind⟩
    · simp [hoi, hsyn, hack, hlen, find_outbound_queue, hfind]
    · simp [hio, hsyn, hack, hlen, find_inbound_queue, hfind]
    · simp [hoi, hsyn, hack, hlen, find_outbound_queue, hfind]

/-- C18 (witness): on `demo_j0`, whose only subflow has the ports 1000 and 2000, the
outbound SYN/ACK and the ACKs of the port pair 1001 and 2000 find no subflow. -/
theorem mp_join_no_subflow_is_error_witness :
    find_subflow_matching_outbound_packet demo_j0 demo_live_join_synack = none ∧
    find_subflow_matching_inbound_packet demo_j0 (demo_join_inbound false true [demo_opt 24 1])
      = none ∧
    find_subflow_matching_outbound_packet demo_j0
      (demo_join_outbound false true [demo_opt 24 1]) = none ∧
    (∃ s',
      mptcp_subtype_mp_join demo_env demo_j0 (demo_join_outbound true true [demo_opt 16 1])
        demo_live_join_synack (demo_opt 16 1) DIRECTION_OUTBOUND
        = .ret (STATUS_ERR, s', demo_opt 16 1) ∧
      s'.subflows = demo_j0.subflows ∧
      s' = { demo_j0 with vars_queue := demo_j0.vars_queue.tail }) ∧
    (∃ s',
      mptcp_subtype_mp_join demo_env demo_j0 (demo_join_inbound false true [demo_opt 24 1])
        (demo_join_inbound false true [demo_opt 24 1]) (demo_opt 24 1) DIRECTION_INBOUND
        = .ret (STATUS_ERR, s', demo_opt 24 1) ∧
      s'.subflows = demo_j0.subflows ∧
      s' = { demo_j0 with vars_queue := demo_j0.vars_queue.tail }) ∧
    (∃ s',
      mptcp_subtype_mp_join demo_env demo_j0 (demo_join_outbound false true [demo_opt 24 1])
        (demo_join_outbound false true [demo_opt 24 1]) (demo_opt 24 1) DIRECTION_OUTBOUND
        = .ret (STATUS_ERR, s', demo_opt 24 1) ∧
      s'.subflows = demo_j0.subflows ∧
      s' = { demo_j0 with vars_queue := demo_j0.vars_queue.tail }) :=
  ⟨by decide, by decide, by decide,
    mp_join_no_subflow_is_error demo_env demo_j0
      (demo_join_outbound true true [demo_opt 16 1]) demo_live_join_synack (demo_opt 16 1)
      DIRECTION_OUTBOUND (Or.inl ⟨rfl, rfl, rfl, rfl, by decide⟩),
    mp_join_no_subflow_is_error demo_env demo_j0
      (demo_join_inbound false true [demo_opt 24 1])
      (demo_join_inbound false true [demo_opt 24 1]) (demo_opt 24 1)
      DIRECTION_INBOUND (Or.inr (Or.inl ⟨rfl, rfl, rfl, rfl, by decide⟩)),
    mp_join_no_subflow_is_error demo_env demo_j0
      (demo_join_outbound false true [demo_opt 24 1])
      (demo_join_outbound false true [demo_opt 24 1]) (demo_opt 24 1)
      DIRECTION_OUTBOUND (Or.inr (Or.inr ⟨rfl, rfl, rfl, rfl, by decide⟩))⟩

/-! ## Evaluations at the inputs where the code departs from the claims -/

/-- C11 (evaluation): the inbound MP_JOIN SYN of `demo_j0` returns `STATUS_OK`, the new
subflow stores the random number 2010, and the option's `sender_random_number` is 2010
itself, the host-order value, while `htonl 2010` is 3657891840; the receiver token of
the same option is `htonl` of the token. -/
theorem mp_join_syn_inbound_rand_host_order :
    mptcp_subtype_mp_join demo_env demo_j0 (demo_join_inbound true false [demo_opt 12 1])
      (demo_join_inbound true false [demo_opt 12 1]) (demo_opt 12 1) DIRECTION_INBOUND
      = .ret (STATUS_OK, demo_j1, demo_jo1) ∧
    demo_j1.subflows.map (fun sf => sf.packetdrill_rand_nbr) = [2010, 2009] ∧
    demo_jo1.mp_join_syn_no_ack_sender_random_number = 2010 ∧
    htonl 2010 = 3657891840 ∧
    demo_jo1.mp_join_syn_no_ack_sender_random_number ≠ htonl 2010 ∧
    demo_jo1.mp_join_syn_no_ack_receiver_token
      = htonl (sha1_least_32bits demo_env demo_j0.kernel_key) := by
  decide

/-- C12 (evaluation): the outbound MP_JOIN SYN of `demo_j0` with the all-auto hint and
the live packet `demo_live_join_syn` (ports 2000 to 1001, address id 9, random number
77) returns `STATUS_OK`; the new subflow has the live packet's ports reversed and
stores 9 and 77; the scripted option carries the address id 9, but its
`sender_random_number` is `htonl 77 = 1291845632`, not the 77 of the live option. -/
theorem mp_join_syn_outbound_rand_swapped :
    demo_j0.vars_queue.head? = some (.join_info demo_auto) ∧
    get_tcp_option demo_live_join_syn TCPOPT_MPTCP
      = some { demo_opt 12 1 with mp_join_syn_address_id := 9,
                                  mp_join_syn_no_ack_sender_random_number := 77 } ∧
    mptcp_subtype_mp_join demo_env demo_j0 (demo_join_outbound true false [demo_opt 12 1])
      demo_live_join_syn (demo_opt 12 1) DIRECTION_OUTBOUND
      = .ret (STATUS_OK, demo_js1, demo_jso1) ∧
    demo_js1.subflows.map
        (fun sf => (sf.src_port, sf.dst_port, sf.kernel_addr_id, sf.kernel_rand_nbr))
      = [(1001, 2000, 9, 77), (1000, 2000, 0, 0)] ∧
    ntohs demo_live_join_syn.tcp.dst_port = 1001 ∧
    ntohs demo_live_join_syn.tcp.src_port = 2000 ∧
    demo_jso1.mp_join_syn_address_id = 9 ∧
    demo_jso1.mp_join_syn_no_ack_sender_random_number = 1291845632 ∧
    demo_jso1.mp_join_syn_no_ack_sender_random_number = htonl 77 ∧
    demo_jso1.mp_join_syn_no_ack_sender_random_number ≠ 77 := by
  decide

/-- C16 (evaluation): side A (`demo_j2`) writes an inbound MP_JOIN SYN/ACK; its subflow
stores the random number 2011, the option carries `htonl 2011 = 3674669056` and the
`sender_hmac` 2842625685405564928.  Side B (`demo_b0`, the mirror of A) handles that
packet as an outbound MP_JOIN SYN/ACK: it stores 3674669056 as `kernel_rand_nbr` and
computes the `sender_hmac` 619303.  Both calls return `STATUS_OK` and the two tags
differ. -/
theorem mp_join_syn_ack_round_trip_differs :
    mptcp_subtype_mp_join demo_env demo_j2 (demo_join_inbound true true [demo_opt 16 1])
      (demo_join_inbound true true [demo_opt 16 1]) (demo_opt 16 1) DIRECTION_INBOUND
      = .ret (STATUS_OK, demo_a1, demo_ao1) ∧
    demo_b0.kernel_key = demo_j2.packetdrill_key ∧
    demo_b0.packetdrill_key = demo_j2.kernel_key ∧
    demo_b0.subflows.map (fun sf => sf.packetdrill_rand_nbr)
      = (demo_j2.subflows.take 1).map (fun sf => sf.kernel_rand_nbr) ∧
    get_tcp_option demo_a_wire TCPOPT_MPTCP = some demo_ao1 ∧
    mptcp_subtype_mp_join demo_env demo_b0 (demo_join_inbound true true [demo_opt 16 1])
      demo_a_wire (demo_opt 16 1) DIRECTION_OUTBOUND
      = .ret (STATUS_OK, demo_b1, demo_bo1) ∧
    (demo_a1.subflows.take 1).map (fun sf => sf.packetdrill_rand_nbr) = [2011] ∧
    demo_ao1.mp_join_syn_ack_sender_random_number = 3674669056 ∧
    demo_b1.subflows.map (fun sf => sf.kernel_rand_nbr) = [3674669056] ∧
    demo_ao1.mp_join_syn_ack_sender_hmac = 2842625685405564928 ∧
    demo_bo1.mp_join_syn_ack_sender_hmac = 619303 ∧
    demo_bo1.mp_join_syn_ack_sender_hmac ≠ demo_ao1.mp_join_syn_ack_sender_hmac := by
  decide

/-- C17 (evaluation): on `demo_j0`, whose only subflow has the ports 1000 and 2000, an
inbound MP_JOIN SYN/ACK on the ports 1001 and 2000 matches no subflow;
`mp_join_syn_ack` returns `STATUS_ERR`, and `mptcp_subtype_mp_join` returns
`STATUS_OK` with the option untouched and the front hint consumed. -/
theorem mp_join_syn_ack_inbound_no_subflow_ok :
    find_subflow_matching_inbound_packet demo_j0 (demo_join_inbound true true [demo_opt 16 1])
      = none ∧
    mp_join_syn_ack demo_env { demo_j0 with vars_queue := demo_j0.vars_queue.tail }
      (demo_join_inbound true true [demo_opt 16 1])
      (demo_join_inbound true true [demo_opt 16 1]) (demo_opt 16 1) (.join_info demo_auto)
      DIRECTION_INBOUND
      = .ret (STATUS_ERR, { demo_j0 with vars_queue := demo_j0.vars_queue.tail },
          demo_opt 16 1) ∧
    mptcp_subtype_mp_join demo_env demo_j0 (demo_join_inbound true true [demo_opt 16 1])
      (demo_join_inbound true true [demo_opt 16 1]) (demo_opt 16 1) DIRECTION_INBOUND
      = .ret (STATUS_OK, { demo_j0 with vars_queue := demo_j0.vars_queue.tail },
          demo_opt 16 1) := by
  decide

/-- C19 (evaluation): packets without an IPv4 and without an IPv6 header.  On `demo_s2`
the MP_CAPABLE option of length 20 returns `STATUS_OK` in both directions although
`new_subflow_inbound` and `new_subflow_outbound` return NULL; on `demo_j0` the inbound
MP_JOIN SYN returns `STATUS_OK` although `mp_join_syn` returns `STATUS_ERR`.  The
subflow registry is the same after each call. -/
theorem subflow_creation_failure_not_reported :
    (new_subflow_inbound demo_env demo_s2
      (demo_no_ip (demo_inbound false true [demo_opt 20 0]))).1 = none ∧
    ret_status (mptcp_subtype_mp_capable demo_env demo_s2
      (demo_no_ip (demo_inbound false true [demo_opt 20 0]))
      (demo_no_ip (demo_inbound false true [demo_opt 20 0])) (demo_opt 20 0)
      DIRECTION_INBOUND) = some STATUS_OK ∧
    (ret_state demo_s2 (mptcp_subtype_mp_capable demo_env demo_s2
      (demo_no_ip (demo_inbound false true [demo_opt 20 0]))
      (demo_no_ip (demo_inbound false true [demo_opt 20 0])) (demo_opt 20 0)
      DIRECTION_INBOUND)).subflows = demo_s2.subflows ∧
    (new_subflow_outbound demo_env demo_s2
      (demo_no_ip (demo_outbound false true [demo_opt 20 0]))).1 = none ∧
    ret_status (mptcp_subtype_mp_capable demo_env demo_s2
      (demo_no_ip (demo_outbound false true [demo_opt 20 0]))
      (demo_no_ip (demo_outbound false true [demo_opt 20 0])) (demo_opt 20 0)
      DIRECTION_OUTBOUND) = some STATUS_OK ∧
    (ret_state demo_s2 (mptcp_subtype_mp_capable demo_env demo_s2
      (demo_no_ip (demo_outbound false true [demo_opt 20 0]))
      (demo_no_ip (demo_outbound false true [demo_opt 20 0])) (demo_opt 20 0)
      DIRECTION_OUTBOUND)).subflows = demo_s2.subflows ∧
    ret_status (mp_join_syn demo_env { demo_j0 with vars_queue := demo_j0.vars_queue.tail }
      (demo_no_ip (demo_join_inbound true false [demo_opt 12 1]))
      (demo_no_ip (demo_join_inbound true false [demo_opt 12 1])) (demo_opt 12 1)
      (.join_info demo_auto) DIRECTION_INBOUND) = some STATUS_ERR ∧
    ret_status (mptcp_subtype_mp_join demo_env demo_j0
      (demo_no_ip (demo_join_inbound true false [demo_opt 12 1]))
      (demo_no_ip (demo_join_inbound true false [demo_opt 12 1])) (demo_opt 12 1)
      DIRECTION_INBOUND) = some STATUS_OK ∧
    (ret_state demo_j0 (mptcp_subtype_mp_join demo_env demo_j0
      (demo_no_ip (demo_join_inbound true false [demo_opt 12 1]))
      (demo_no_ip (demo_join_inbound true false [demo_opt 12 1])) (demo_opt 12 1)
      DIRECTION_INBOUND)).subflows = demo_j0.subflows := by
  decide

/-- C20 (evaluation): on `demo_k0` (front hint `a`, script-defined with value 1) and a
live packet without any option, `extract_and_set_kernel_key` returns `STATUS_ERR`, and
the outbound MP_CAPABLE option of length 12 is handled with `STATUS_OK`: the key 1 is
written, the hint is consumed and `remote_ssn` is counted up. -/
theorem kernel_key_extraction_error_overwritten :
    get_tcp_option (demo_outbound true false []) TCPOPT_MPTCP = none ∧
    extract_and_set_kernel_key demo_k0 (demo_outbound true false [])
      = .ret (STATUS_ERR, demo_k0) ∧
    mptcp_subtype_mp_capable demo_env demo_k0 (demo_outbound true false [demo_opt 12 0])
      (demo_outbound true false []) (demo_opt 12 0) DIRECTION_OUTBOUND
      = .ret (STATUS_OK,
          { demo_k0 with vars_queue := [.var_name "b"], remote_ssn := 1 },
          { demo_opt 12 0 with mp_capable_syn_key := 1 }) := by
  decide


/-! ## The dispatcher -/

theorem options_loop_no_mptcp (E : Env) (live : packet) (direction : Nat) (p : packet)
    (todo : List tcp_option) :
    ∀ (done : List tcp_option) (s : mp_state_s),
      (∀ o ∈ todo, o.kind ≠ TCPOPT_MPTCP) →
      options_loop E live direction p done todo s
        = .ret (STATUS_OK, s, { p with options := done ++ todo }) := by
  induction todo with
  | nil => intro done s _; simp [options_loop]
  | cons o todo ih =>
    intro done s h
    have ho : o.kind ≠ TCPOPT_MPTCP := h o (List.mem_cons_self _ _)
    rw [options_loop, if_neg ho, ih _ _ (fun x hx => h x (List.mem_cons_of_mem _ hx))]
    simp

/-- Every loop position is reached from the start by a run of handlers that returned
0, and what the loop returns is decided there: the end of the options, or the first
handler that does not return 0. -/
theorem options_loop_run (E : Env) (live : packet) (direction : Nat) (p : packet)
    (todo : List tcp_option) :
    ∀ (done : List tcp_option) (s : mp_state_s),
      ∃ d1 t1 s1, options_handled E live direction p done todo s d1 t1 s1 ∧
        ((t1 = [] ∧ options_loop E live direction p done todo s
            = .ret (STATUS_OK, s1, { p with options := d1 })) ∨
          ∃ o t2, t1 = o :: t2 ∧ o.kind = TCPOPT_MPTCP ∧
            ((dispatch_option E s1 { p with options := d1 ++ o :: t2 } live o direction
                = .fault ∧
              options_loop E live direction p done todo s = .fault) ∨
             ∃ e s2 o2,
              dispatch_option E s1 { p with options := d1 ++ o :: t2 } live o direction
                = .ret (e, s2, o2) ∧ e ≠ 0 ∧
              options_loop E live direction p done todo s
                = .ret (STATUS_ERR, s2, { p with options := d1 ++ o2 :: t2 }))) := by
  induction todo with
  | nil =>
    intro done s
    exact ⟨done, [], s, .stop _ _ _, Or.inl ⟨rfl, by simp [options_loop]⟩⟩
  | cons o todo ih =>
    intro done s
    by_cases hk : o.kind = TCPOPT_MPTCP
    · rcases hd : dispatch_option E s { p with options := done ++ o :: todo } live o
          direction with ⟨e, s2, o2⟩ | _
      · by_cases he : e = 0
        · subst he
          obtain ⟨d1, t1, s1, hrun, hres⟩ := ih (done ++ [o2]) s2
          refine ⟨d1, t1, s1, .run _ _ _ _ _ _ _ _ _ hk hd hrun, ?_⟩
          have hl : options_loop E live direction p done (o :: todo) s
              = options_loop E live direction p (done ++ [o2]) todo s2 := by
            rw [options_loop, if_pos hk, hd]; simp
          rw [hl]; exact hres
        · refine ⟨done, o :: todo, s, .stop _ _ _, Or.inr ⟨o, todo, rfl, hk, Or.inr
            ⟨e, s2, o2, hd, he, ?_⟩⟩⟩
          rw [options_loop, if_pos hk, hd]; simp [he]
      · refine ⟨done, o :: todo, s, .stop _ _ _, Or.inr ⟨o, todo, rfl, hk, Or.inl ⟨hd, ?_⟩⟩⟩
        rw [options_loop, if_pos hk, hd]
    · obtain ⟨d1, t1, s1, hrun, hres⟩ := ih (done ++ [o]) s
      refine ⟨d1, t1, s1, .skip _ _ _ _ _ _ _ hk hrun, ?_⟩
      have hl : options_loop E live direction p done (o :: todo) s
          = options_loop E live direction p (done ++ [o]) todo s := by
        rw [options_loop, if_neg hk]
      rw [hl]; exact hres

/-- A run passes over a prefix of the options ahead, in order: what is left ahead is
a suffix of the options it started with, the options behind grow by as many options
as were passed, and an option of another kind than MPTCP is behind as it was
ahead. -/
theorem options_handled_passed {E : Env} {live : packet} {direction : Nat} {p : packet}
    {done todo d1 t1 : List tcp_option} {s s1 : mp_state_s}
    (h : options_handled E live direction p done todo s d1 t1 s1) :
    ∃ pre pre', todo = pre ++ t1 ∧ d1 = done ++ pre' ∧
      List.Forall₂ (fun a b => a.kind ≠ TCPOPT_MPTCP → b = a) pre pre' := by
  induction h with
  | stop done todo s => exact ⟨[], [], by simp, by simp, .nil⟩
  | skip done o todo s done' todo' s' hk _ ih =>
    obtain ⟨pre, pre', h1, h2, h3⟩ := ih
    exact ⟨o :: pre, o :: pre', by simp [h1], by simp [h2], .cons (fun _ => rfl) h3⟩
  | run done o todo s s1 o1 done' todo' s' hk _ _ ih =>
    obtain ⟨pre, pre', h1, h2, h3⟩ := ih
    exact ⟨o :: pre, o1 :: pre', by simp [h1], by simp [h2],
      .cons (fun hn => absurd hk hn) h3⟩

/-- C24: `mptcp_insert_and_extract_opt_fields` goes once through the options in wire
order.  A packet without MPTCP option returns `STATUS_OK` with the state and the
packet unchanged.  In general there is a run of handlers that all returned 0 over a
prefix `pre` of the options, which leaves `pre'` (options of another kind are in it as
they were) and the state `s1`, and then either no option is left and the call returns
`STATUS_OK` with `s1`; or the next option `o` is an MPTCP option whose handler returns
`e ≠ 0`, and the call returns `STATUS_ERR` with the state of that handler and with the
options `t2` after `o` as they were (no handler ran on them, none of their hints is
consumed); or that handler does not return and neither does the call. -/
theorem dispatcher_single_pass_fail_fast (E : Env) (s : mp_state_s)
    (packet_to_modify live_packet : packet) (direction : Nat) :
    ((∀ o ∈ packet_to_modify.options, o.kind ≠ TCPOPT_MPTCP) →
      mptcp_insert_and_extract_opt_fields E s packet_to_modify live_packet direction
        = .ret (STATUS_OK, s, packet_to_modify)) ∧
    ∃ pre pre' t1 s1,
      packet_to_modify.options = pre ++ t1 ∧
      List.Forall₂ (fun a b => a.kind ≠ TCPOPT_MPTCP → b = a) pre pre' ∧
      options_handled E live_packet direction packet_to_modify [] packet_to_modify.options s
        pre' t1 s1 ∧
      ((t1 = [] ∧
          mptcp_insert_and_extract_opt_fields E s packet_to_modify live_packet direction
            = .ret (STATUS_OK, s1, { packet_to_modify with options := pre' })) ∨
        ∃ o t2, t1 = o :: t2 ∧ o.kind = TCPOPT_MPTCP ∧
          ((dispatch_option E s1 { packet_to_modify with options := pre' ++ o :: t2 }
                live_packet o direction = .fault ∧
            mptcp_insert_and_extract_opt_fields E s packet_to_modify live_packet direction
              = .fault) ∨
           ∃ e s2 o2,
            dispatch_option E s1 { packet_to_modify with options := pre' ++ o :: t2 }
              live_packet o direction = .ret (e, s2, o2) ∧ e ≠ 0 ∧
            mptcp_insert_and_extract_opt_fields E s packet_to_modify live_packet direction
              = .ret (STATUS_ERR, s2,
                  { packet_to_modify with options := pre' ++ o2 :: t2 }))) := by
  constructor
  · intro h
    unfold mptcp_insert_and_extract_opt_fields
    rw [options_loop_no_mptcp E live_packet direction packet_to_modify _ [] s h]
    simp
  · obtain ⟨d1, t1, s1, hrun, hres⟩ :=
      options_loop_run E live_packet direction packet_to_modify packet_to_modify.options [] s
    obtain ⟨pre, pre', h1, h2, h3⟩ := options_handled_passed hrun
    simp at h2
    subst h2
    exact ⟨pre, _, t1, s1, h1, h3, hrun, hres⟩

theorem options_loop_of_handled {E : Env} {live : packet} {direction : Nat} {p : packet}
    {done todo d1 t1 : List tcp_option} {s s1 : mp_state_s}
    (h : options_handled E live direction p done todo s d1 t1 s1) :
    options_loop E live direction p done todo s = options_loop E live direction p d1 t1 s1 := by
  induction h with
  | stop done todo s => rfl
  | skip done o todo s done' todo' s' hk _ ih =>
    rw [options_loop, if_neg hk, ih]
  | run done o todo s s1 o1 done' todo' s' hk hd _ ih =>
    rw [options_loop, if_pos hk, hd]; simpa using ih

/-! ## Error returns of the handlers -/

theorem find_next_key_empty (s : mp_state_s) (hq : s.vars_queue = []) :
    find_next_key s = .ret (none, s) := by
  simp [find_next_key, queue_dequeue, hq]

theorem extract_and_set_kernel_key_empty (s : mp_state_s) (live : packet)
    (hq : s.vars_queue = []) :
    ∃ st s1, extract_and_set_kernel_key s live = .ret (st, s1) ∧ s1.vars_queue = [] := by
  unfold extract_and_set_kernel_key
  rcases get_tcp_option live TCPOPT_MPTCP with _ | lo
  · exact ⟨_, _, rfl, hq⟩
  · by_cases hs : s.kernel_key_set = false
    · refine ⟨STATUS_ERR, set_kernel_key s lo.mp_capable_syn_key, ?_, hq⟩
      simp [queue_front, hq, hs, set_kernel_key]
    · refine ⟨STATUS_OK, s, ?_, hq⟩
      simp [queue_front, hq, hs]

/-- C21: with an empty hint FIFO, `mptcp_subtype_mp_capable` on an option of length 12
or 20 returns, in every direction, a status that is not 0 (`STATUS_ERR`, or 1 from
the `||` of the inbound branches), with the option as it was and the FIFO still empty;
and `mptcp_subtype_mp_join` returns `STATUS_ERR` with the state and the option as they
were, whatever the flags, the length and the direction. -/
theorem empty_fifo_is_error (E : Env) (s : mp_state_s) (p live : packet) (o : tcp_option)
    (direction : Nat) (hq : s.vars_queue = []) :
    (o.length = TCPOLEN_MP_CAPABLE_SYN ∨ o.length = TCPOLEN_MP_CAPABLE →
      ∃ st s', mptcp_subtype_mp_capable E s p live o direction = .ret (st, s', o) ∧
        (st = STATUS_ERR ∨ st = 1) ∧ st ≠ STATUS_OK ∧ s'.vars_queue = []) ∧
    mptcp_subtype_mp_join E s p live o direction = .ret (STATUS_ERR, s, o) := by
  have hgen : mptcp_gen_key E s = .ret (STATUS_ERR, s) := by
    simp [mptcp_gen_key, queue_front, hq]
  have hsyn : ∀ t : mp_state_s, t.vars_queue = [] →
      mptcp_set_mp_cap_syn_key t o = .ret (STATUS_ERR, t, o) := by
    intro t ht
    simp [mptcp_set_mp_cap_syn_key, find_next_key_empty t ht]
  have hkeys : mptcp_set_mp_cap_keys s o = .ret (STATUS_ERR, s, o) := by
    simp [mptcp_set_mp_cap_keys, find_next_key_empty s hq]
  constructor
  · intro hlen
    unfold mptcp_subtype_mp_capable
    rcases hlen with hlen | hlen
    · by_cases hin : direction = DIRECTION_INBOUND
      · subst hin
        have hd : ¬ (DIRECTION_INBOUND = DIRECTION_OUTBOUND) := by decide
        have h20 : ¬ (TCPOLEN_MP_CAPABLE_SYN = TCPOLEN_MP_CAPABLE) := by decide
        rcases hack : p.tcp.ack
        · simp only [hlen, hack, hgen, hsyn s hq, and_self, if_true]
          exact ⟨_, _, rfl, Or.inr (by decide), by decide, hq⟩
        · simp only [hlen, hack, hgen, hsyn s hq, hd, h20, and_self, and_false, false_and,
            Bool.true_eq_false, if_true, if_false]
          exact ⟨_, _, rfl, Or.inr (by decide), by decide, hq⟩
      · by_cases hout : direction = DIRECTION_OUTBOUND
        · subst hout
          obtain ⟨st, s1, he, hq1⟩ := extract_and_set_kernel_key_empty s live hq
          simp only [hlen, hin, he, hsyn s1 hq1, and_self, false_and, and_false, if_true,
            if_false]
          exact ⟨_, _, rfl, Or.inl rfl, by decide, hq1⟩
        · have h20 : ¬ (TCPOLEN_MP_CAPABLE_SYN = TCPOLEN_MP_CAPABLE) := by decide
          simp only [hlen, hin, hout, h20, and_false, false_and, if_false]
          exact ⟨_, _, rfl, Or.inl rfl, by decide, hq⟩
    · have h12 : ¬ (TCPOLEN_MP_CAPABLE = TCPOLEN_MP_CAPABLE_SYN) := by decide
      simp only [hlen, h12, false_and, if_false, if_true, hkeys]
      by_cases hin : direction = DIRECTION_INBOUND
      · simp only [hin, if_true]
        refine ⟨_, _, rfl, Or.inl rfl, by decide, ?_⟩
        rw [new_subflow_inbound_frame]; exact hq
      · by_cases hout : direction = DIRECTION_OUTBOUND
        · simp only [hin, hout, if_true, if_false]
          refine ⟨_, _, rfl, Or.inl rfl, by decide, ?_⟩
          rw [new_subflow_outbound_frame]; exact hq
        · simp only [hin, hout, if_false]
          exact ⟨_, _, rfl, Or.inl rfl, by decide, hq⟩
  · unfold mptcp_subtype_mp_join
    simp [queue_dequeue, hq]

/-! ## Counters and registry: what one handler does -/

theorem counters_frame_refl (s : mp_state_s) : counters_frame s s := ⟨rfl, rfl, rfl⟩

theorem counters_frame_trans {a b c : mp_state_s} (h1 : counters_frame a b)
    (h2 : counters_frame b c) : counters_frame a c :=
  ⟨h2.1.trans h1.1, h2.2.1.trans h1.2.1, h2.2.2.trans h1.2.2⟩

theorem find_next_key_counters_frame {s s1 : mp_state_s} {k : Option Nat}
    (h : find_next_key s = .ret (k, s1)) : counters_frame s s1 := by
  have f := find_next_key_frame h
  rw [f]; exact ⟨rfl, rfl, rfl⟩

theorem mptcp_set_mp_cap_syn_key_counters_frame {s s1 : mp_state_s} {o o1 : tcp_option}
    {e : Int} (h : mptcp_set_mp_cap_syn_key s o = .ret (e, s1, o1)) :
    counters_frame s s1 := by
  unfold mptcp_set_mp_cap_syn_key at h
  split at h
  · simp at h
  · rename_i sa hk
    simp at h; obtain ⟨-, rfl, -⟩ := h
    exact find_next_key_counters_frame hk
  · rename_i key sa hk
    simp at h; obtain ⟨-, rfl, -⟩ := h
    exact find_next_key_counters_frame hk

theorem mptcp_set_mp_cap_keys_counters_frame {s s1 : mp_state_s} {o o1 : tcp_option}
    {e : Int} (h : mptcp_set_mp_cap_keys s o = .ret (e, s1, o1)) : counters_frame s s1 := by
  have f := mptcp_set_mp_cap_keys_frame h
  rw [f]; exact ⟨rfl, rfl, rfl⟩

theorem mptcp_gen_key_counters_frame {E : Env} {s s' : mp_state_s} {st : Int}
    (h : mptcp_gen_key E s = .ret (st, s')) : counters_frame s s' := by
  have f := mptcp_gen_key_frame h
  rw [f]; exact ⟨rfl, rfl, rfl⟩

theorem extract_and_set_kernel_key_counters_frame {s s' : mp_state_s} {live : packet}
    {st : Int} (h : extract_and_set_kernel_key s live = .ret (st, s')) :
    counters_frame s s' := by
  have f := extract_and_set_kernel_key_frame h
  rw [f]; exact ⟨rfl, rfl, rfl⟩

theorem new_subflow_inbound_effect (E : Env) (s : mp_state_s) (p : packet) :
    inbound_subflow_effect p s (new_subflow_inbound E s p).2 ∧
      (new_subflow_inbound E s p).2.remote_ssn = s.remote_ssn ∧
      ((new_subflow_inbound E s p).1 = none ↔ has_ip_header p = false) ∧
      ((new_subflow_inbound E s p).1 = none ∨ (new_subflow_inbound E s p).1 = some 0) := by
  unfold inbound_subflow_effect has_ip_header new_subflow_inbound malloc_subflow generate_32
  rcases p.ipv4 with _ | h4 <;> rcases p.ipv6 with _ | h6 <;> simp

theorem new_subflow_outbound_effect (E : Env) (s : mp_state_s) (q : packet) :
    outbound_subflow_effect q s (new_subflow_outbound E s q).2 ∧
      (new_subflow_outbound E s q).2.remote_ssn = s.remote_ssn ∧
      ((new_subflow_outbound E s q).1 = none ∨ (new_subflow_outbound E s q).1 = some 0) := by
  unfold outbound_subflow_effect has_ip_header new_subflow_outbound malloc_subflow
  rcases get_tcp_option q TCPOPT_MPTCP with _ | o <;>
    rcases q.ipv4 with _ | h4 <;> rcases q.ipv6 with _ | h6 <;> simp

theorem inbound_subflow_effect_of_frame {p : packet} {a b c : mp_state_s}
    (hf : b.subflows = a.subflows)
    (ha : b.last_packetdrill_addr_id = a.last_packetdrill_addr_id)
    (h : inbound_subflow_effect p b c) : inbound_subflow_effect p a c := by
  unfold inbound_subflow_effect at h ⊢
  rw [hf, ha] at h
  exact h

theorem outbound_subflow_effect_of_frame {q : packet} {a b c : mp_state_s}
    (hf : b.subflows = a.subflows)
    (ha : b.last_packetdrill_addr_id = a.last_packetdrill_addr_id)
    (h : outbound_subflow_effect q b c) : outbound_subflow_effect q a c := by
  unfold outbound_subflow_effect at h ⊢
  rw [hf, ha] at h
  exact h

/-- The counters and the registry across `mptcp_subtype_mp_capable`: `remote_ssn` is
incremented by the outbound branch for length 12 and by no other; the registry and
`last_packetdrill_addr_id` change in the branch for length 20 only, through the
subflow constructor of the direction. -/
theorem mptcp_subtype_mp_capable_counters {E : Env} {s s' : mp_state_s} {p live : packet}
    {o o' : tcp_option} {direction : Nat} {st : Int}
    (h : mptcp_subtype_mp_capable E s p live o direction = .ret (st, s', o')) :
    (s'.remote_ssn = s.remote_ssn ∨
      s'.remote_ssn = (s.remote_ssn + 1) % 2 ^ E.remote_ssn_bits) ∧
    ((o.length = TCPOLEN_MP_CAPABLE ∧ direction = DIRECTION_INBOUND ∧
        inbound_subflow_effect p s s') ∨
      (o.length = TCPOLEN_MP_CAPABLE ∧ direction = DIRECTION_OUTBOUND ∧
        outbound_subflow_effect p s s') ∨
      (¬ (o.length = TCPOLEN_MP_CAPABLE ∧
          (direction = DIRECTION_INBOUND ∨ direction = DIRECTION_OUTBOUND)) ∧
        s'.subflows = s.subflows ∧
        s'.last_packetdrill_addr_id = s.last_packetdrill_addr_id)) := by
  have h1220 : ¬ (TCPOLEN_MP_CAPABLE_SYN = TCPOLEN_MP_CAPABLE) := by decide
  have inbound : ∀ r, (match mptcp_gen_key E s with
        | .fault => Outcome.fault
        | .ret (error, s) =>
          match mptcp_set_mp_cap_syn_key s o with
          | .fault => .fault
          | .ret (error2, s, opt) => .ret (c_or error2 error, s, opt)) = r →
      r = .ret (st, s', o') → counters_frame s s' := by
    intro r hr hr'
    rw [hr'] at hr
    split at hr
    · simp at hr
    · rename_i e1 s1 hg
      split at hr
      · simp at hr
      · rename_i e2 s2 o2 hk
        simp at hr
        obtain ⟨-, rfl, -⟩ := hr
        exact counters_frame_trans (mptcp_gen_key_counters_frame hg)
          (mptcp_set_mp_cap_syn_key_counters_frame hk)
  unfold mptcp_subtype_mp_capable at h
  split at h
  · rename_i hc
    have f := inbound _ h rfl
    exact ⟨Or.inl f.1, Or.inr (Or.inr ⟨fun hn => h1220 (hc.1 ▸ hn.1), f.2.2, f.2.1⟩)⟩
  · split at h
    · rename_i hc
      split at h
      · simp at h
      · rename_i e1 s1 hg
        split at h
        · simp at h
        · rename_i e2 s2 o2 hk
          simp at h
          obtain ⟨-, rfl, -⟩ := h
          have f := counters_frame_trans (extract_and_set_kernel_key_counters_frame hg)
            (mptcp_set_mp_cap_syn_key_counters_frame hk)
          refine ⟨Or.inr ?_, Or.inr (Or.inr ⟨fun hn => h1220 (hc.1 ▸ hn.1), f.2.2, f.2.1⟩)⟩
          simp [f.1]
    · split at h
      · rename_i hlen
        split at h
        · simp at h
        · rename_i e s1 o1 hk
          have f1 := mptcp_set_mp_cap_keys_counters_frame hk
          simp only at h
          split at h
          · rename_i hin
            simp at h; obtain ⟨-, rfl, -⟩ := h
            have g := new_subflow_inbound_effect E
              { s1 with
                idsn := sha1_least_64bits E s1.packetdrill_key
                remote_idsn := sha1_least_64bits E s1.kernel_key
                last_dsn_rcvd :=
                  (sha1_least_64bits E s1.kernel_key + s1.remote_ssn) % 2 ^ DSN_BITS } p
            exact ⟨Or.inl (g.2.1.trans f1.1), Or.inl ⟨hlen, hin,
              inbound_subflow_effect_of_frame f1.2.2 f1.2.1 g.1⟩⟩
          · split at h
            · rename_i hout
              simp at h; obtain ⟨-, rfl, -⟩ := h
              have g := new_subflow_outbound_effect E
                { s1 with
                  idsn := sha1_least_64bits E s1.packetdrill_key
                  remote_idsn := sha1_least_64bits E s1.kernel_key
                  last_dsn_rcvd :=
                    (sha1_least_64bits E s1.kernel_key + s1.remote_ssn) % 2 ^ DSN_BITS } p
              exact ⟨Or.inl (g.2.1.trans f1.1), Or.inr (Or.inl ⟨hlen, hout,
                outbound_subflow_effect_of_frame f1.2.2 f1.2.1 g.1⟩)⟩
            · rename_i hin hout
              simp at h; obtain ⟨-, rfl, -⟩ := h
              exact ⟨Or.inl f1.1, Or.inr (Or.inr ⟨fun hn => hn.2.elim hin hout, f1.2.2,
                f1.2.1⟩)⟩
      · rename_i hlen
        split at h
        · have f := inbound _ h rfl
          exact ⟨Or.inl f.1, Or.inr (Or.inr ⟨fun hn => hlen hn.1, f.2.2, f.2.1⟩)⟩
        · simp at h; obtain ⟨-, rfl, -⟩ := h
          exact ⟨Or.inl rfl, Or.inr (Or.inr ⟨fun hn => hlen hn.1, rfl, rfl⟩)⟩

theorem new_subflow_inbound_cases (E : Env) (s : mp_state_s) (p : packet) :
    (has_ip_header p = false ∧ (new_subflow_inbound E s p).1 = none ∧
        (new_subflow_inbound E s p).2.subflows = s.subflows ∧
        (new_subflow_inbound E s p).2.last_packetdrill_addr_id
          = s.last_packetdrill_addr_id) ∨
      (has_ip_header p = true ∧ (new_subflow_inbound E s p).1 = some 0 ∧
        (∃ sf, (new_subflow_inbound E s p).2.subflows = sf :: s.subflows) ∧
        (new_subflow_inbound E s p).2.last_packetdrill_addr_id
          = (s.last_packetdrill_addr_id + 1) % 2 ^ 32) := by
  unfold has_ip_header new_subflow_inbound malloc_subflow generate_32
  rcases p.ipv4 with _ | h4 <;> rcases p.ipv6 with _ | h6 <;> simp

theorem new_subflow_outbound_cases (E : Env) (s : mp_state_s) (q : packet) :
    (((get_tcp_option q TCPOPT_MPTCP).isSome = false ∨ has_ip_header q = false) ∧
        (new_subflow_outbound E s q).1 = none ∧
        (new_subflow_outbound E s q).2.subflows = s.subflows ∧
        (new_subflow_outbound E s q).2.last_packetdrill_addr_id
          = s.last_packetdrill_addr_id) ∨
      ((get_tcp_option q TCPOPT_MPTCP).isSome = true ∧ has_ip_header q = true ∧
        (new_subflow_outbound E s q).1 = some 0 ∧
        (∃ sf, (new_subflow_outbound E s q).2.subflows = sf :: s.subflows) ∧
        (new_subflow_outbound E s q).2.last_packetdrill_addr_id
          = s.last_packetdrill_addr_id) := by
  unfold has_ip_header new_subflow_outbound malloc_subflow
  rcases get_tcp_option q TCPOPT_MPTCP with _ | o <;>
    rcases q.ipv4 with _ | h4 <;> rcases q.ipv6 with _ | h6 <;> simp

theorem mp_join_syn_body_effect (E : Env) (s' s1 : mp_state_s) (o o' : tcp_option)
    (el : queue_el) (direction : Nat) (st : Int) (c : Option Nat)
    (hm : (match c with
        | none => Outcome.ret (STATUS_ERR, s1, o)
        | some i =>
          match el, s1.subflows[i]? with
          | .join_info mp_join_script_info, some subflow =>
            match mp_join_syn_rcv_token E s1 o mp_join_script_info direction with
            | .fault => .fault
            | .ret opt =>
              .ret (STATUS_OK, store_subflow s1 i
                (mp_join_syn_address_id
                  (mp_join_syn_rand opt mp_join_script_info subflow direction).2
                  mp_join_script_info
                  (mp_join_syn_rand opt mp_join_script_info subflow direction).1
                  direction).1,
                (mp_join_syn_address_id
                  (mp_join_syn_rand opt mp_join_script_info subflow direction).2
                  mp_join_script_info
                  (mp_join_syn_rand opt mp_join_script_info subflow direction).1
                  direction).2)
          | _, _ => .fault) = .ret (st, s', o')) :
    s'.last_packetdrill_addr_id = s1.last_packetdrill_addr_id ∧
      ((c = none ∧ s'.subflows = s1.subflows) ∨
        ∃ i sf, c = some i ∧ s'.subflows = s1.subflows.set i sf) := by
  split at hm
  · simp at hm; obtain ⟨-, rfl, -⟩ := hm; exact ⟨rfl, Or.inl ⟨rfl, rfl⟩⟩
  · rename_i i
    split at hm
    · split at hm
      · simp at hm
      · simp at hm
        obtain ⟨-, rfl, -⟩ := hm
        exact ⟨rfl, Or.inr ⟨i, _, rfl, rfl⟩⟩
    · simp at hm

theorem mp_join_syn_effect_in {E : Env} {s s' : mp_state_s} {p live : packet}
    {o o' : tcp_option} {el : queue_el} {st : Int}
    (h : mp_join_syn E s p live o el DIRECTION_INBOUND = .ret (st, s', o')) :
    inbound_subflow_effect p s s' := by
  unfold mp_join_syn at h
  split at h
  · simp at h
  · simp only [if_true] at h
    obtain ⟨ha, hb⟩ := mp_join_syn_body_effect E s' _ o o' el _ st _ h
    unfold inbound_subflow_effect
    rcases new_subflow_inbound_cases E s p with ⟨hip, hc, hs, hid⟩ | ⟨hip, hc, ⟨sf, hs⟩, hid⟩
    · right
      rcases hb with ⟨-, hb⟩ | ⟨i, sf', hi, -⟩
      · exact ⟨hip, hb.trans hs, ha.trans hid⟩
      · rw [hc] at hi; simp at hi
    · left
      rcases hb with ⟨hn, -⟩ | ⟨i, sf', hi, hb⟩
      · rw [hc] at hn; simp at hn
      · rw [hc] at hi
        simp at hi
        subst hi
        exact ⟨hip, ⟨sf', by rw [hb, hs]; rfl⟩, ha.trans hid⟩

theorem mp_join_syn_effect_out {E : Env} {s s' : mp_state_s} {p live : packet}
    {o o' : tcp_option} {el : queue_el} {st : Int}
    (h : mp_join_syn E s p live o el DIRECTION_OUTBOUND = .ret (st, s', o')) :
    outbound_subflow_effect live s s' := by
  unfold mp_join_syn at h
  split at h
  · simp at h
  · have hd : ¬ (DIRECTION_OUTBOUND = DIRECTION_INBOUND) := by decide
    simp only [hd, if_false] at h
    obtain ⟨ha, hb⟩ := mp_join_syn_body_effect E s' _ o o' el _ st _ h
    unfold outbound_subflow_effect
    rcases new_subflow_outbound_cases E s live with
      ⟨hno, hc, hs, hid⟩ | ⟨hopt, hip, hc, ⟨sf, hs⟩, hid⟩
    · refine ⟨ha.trans hid, Or.inr ⟨hno, ?_⟩⟩
      rcases hb with ⟨-, hb⟩ | ⟨i, sf', hi, -⟩
      · exact hb.trans hs
      · rw [hc] at hi; simp at hi
    · refine ⟨ha.trans hid, Or.inl ⟨hopt, hip, ?_⟩⟩
      rcases hb with ⟨hn, -⟩ | ⟨i, sf', hi, hb⟩
      · rw [hc] at hn; simp at hn
      · rw [hc] at hi
        simp at hi
        subst hi
        exact ⟨sf', by rw [hb, hs]; rfl⟩

theorem mp_join_syn_ack_effect {E : Env} {s s' : mp_state_s} {p live : packet}
    {o o' : tcp_option} {el : queue_el} {direction : Nat} {st : Int}
    (h : mp_join_syn_ack E s p live o el direction = .ret (st, s', o')) :
    s'.subflows.length = s.subflows.length ∧
      (s'.last_packetdrill_addr_id = s.last_packetdrill_addr_id ∨
        (direction = DIRECTION_INBOUND ∧
          s'.last_packetdrill_addr_id = (s.last_packetdrill_addr_id + 1) % 2 ^ 32)) := by
  unfold mp_join_syn_ack at h
  by_cases hin : direction = DIRECTION_INBOUND
  · simp only [hin, if_true] at h
    rcases hfind : find_subflow_matching_inbound_packet s p with _ | i
    · simp [hfind] at h; obtain ⟨-, rfl, -⟩ := h; exact ⟨rfl, Or.inl rfl⟩
    · simp only [hfind] at h
      rcases el with n | info
      · simp at h
      · rcases hsub : s.subflows[i]? with _ | subflow
        · simp [hsub] at h
        · simp only [hsub] at h
          by_cases h1 : info.is_script_defined = true
          · by_cases h2 : info.is_var = true
            · simp only [h1, h2, if_true] at h
              split at h
              · simp [generate_32, store_subflow] at h; obtain ⟨-, rfl, -⟩ := h
                exact ⟨by simp, Or.inr ⟨hin, rfl⟩⟩
              · simp at h
            · simp only [h1, h2, if_true, if_false] at h
              simp [generate_32, store_subflow] at h; obtain ⟨-, rfl, -⟩ := h
              exact ⟨by simp, Or.inr ⟨hin, rfl⟩⟩
          · simp only [h1, if_false] at h
            simp [generate_32, store_subflow] at h; obtain ⟨-, rfl, -⟩ := h
            exact ⟨by simp, Or.inr ⟨hin, rfl⟩⟩
  · simp only [hin, if_false] at h
    by_cases hout : direction = DIRECTION_OUTBOUND
    · simp only [hout, if_true] at h
      split at h
      · split at h
        · simp at h
        · simp [store_subflow] at h; obtain ⟨-, rfl, -⟩ := h
          exact ⟨by simp, Or.inl rfl⟩
      · simp at h; obtain ⟨-, rfl, -⟩ := h; exact ⟨rfl, Or.inl rfl⟩
    · simp [hout] at h; obtain ⟨-, rfl, -⟩ := h; exact ⟨rfl, Or.inl rfl⟩

/-- The counters and the registry across `mptcp_subtype_mp_join`: `remote_ssn` stays;
an MP_JOIN SYN handled with a hint goes through the subflow constructor of the
direction; every other call leaves the number of subflows as it was and can increment
`last_packetdrill_addr_id` only when inbound. -/
theorem mptcp_subtype_mp_join_counters {E : Env} {s s' : mp_state_s} {p live : packet}
    {o o' : tcp_option} {direction : Nat} {st : Int}
    (h : mptcp_subtype_mp_join E s p live o direction = .ret (st, s', o')) :
    s'.remote_ssn = s.remote_ssn ∧
    ((s.vars_queue ≠ [] ∧ direction = DIRECTION_INBOUND ∧ p.tcp.syn = true ∧
        p.tcp.ack = false ∧ o.length = TCPOLEN_MP_JOIN_SYN ∧
        inbound_subflow_effect p s s') ∨
      (s.vars_queue ≠ [] ∧ direction = DIRECTION_OUTBOUND ∧ p.tcp.syn = true ∧
        p.tcp.ack = false ∧ o.length = TCPOLEN_MP_JOIN_SYN ∧
        outbound_subflow_effect live s s') ∨
      (¬ (s.vars_queue ≠ [] ∧
          (direction = DIRECTION_INBOUND ∨ direction = DIRECTION_OUTBOUND) ∧
          p.tcp.syn = true ∧ p.tcp.ack = false ∧ o.length = TCPOLEN_MP_JOIN_SYN) ∧
        s'.subflows.length = s.subflows.length ∧
        (s'.last_packetdrill_addr_id = s.last_packetdrill_addr_id ∨
          (direction = DIRECTION_INBOUND ∧
            s'.last_packetdrill_addr_id = (s.last_packetdrill_addr_id + 1) % 2 ^ 32)))) := by
  have hio : ¬ (DIRECTION_INBOUND = DIRECTION_OUTBOUND) := by decide
  have hssn : s'.remote_ssn = s.remote_ssn := by
    have f := mptcp_subtype_mp_join_frame h
    rw [f]
  refine ⟨hssn, ?_⟩
  unfold mptcp_subtype_mp_join queue_dequeue at h
  rcases hq : s.vars_queue with _ | ⟨el, rest⟩
  · simp [hq] at h; obtain ⟨-, rfl, -⟩ := h
    exact Or.inr (Or.inr ⟨fun hn => hn.1 rfl, rfl, Or.inl rfl⟩)
  · have hne : el :: rest ≠ [] := by simp
    simp only [hq] at h
    split at h
    · rename_i hc
      split at h
      · simp at h
      · rename_i hj
        simp at h; obtain ⟨-, rfl, -⟩ := h
        have g := mp_join_syn_effect_in hj
        exact Or.inl ⟨hne, hc.1, hc.2.2.1, hc.2.1, hc.2.2.2,
          inbound_subflow_effect_of_frame (a := s) rfl rfl g⟩
    · rename_i hc1
      split at h
      · rename_i hc
        have hrest : ¬ (el :: rest ≠ [] ∧
            (direction = DIRECTION_INBOUND ∨ direction = DIRECTION_OUTBOUND) ∧
            p.tcp.syn = true ∧ p.tcp.ack = false ∧ o.length = TCPOLEN_MP_JOIN_SYN) := by
          intro hn
          rw [hc.2.1] at hn
          simp at hn
        split at h
        · split at h
          · simp at h
          · simp [store_subflow] at h; obtain ⟨-, rfl, -⟩ := h
            exact Or.inr (Or.inr ⟨hrest, by simp, Or.inl rfl⟩)
        · simp at h; obtain ⟨-, rfl, -⟩ := h
          exact Or.inr (Or.inr ⟨hrest, rfl, Or.inl rfl⟩)
      · rename_i hc2
        split at h
        · rename_i hc
          have hrest : ¬ (el :: rest ≠ [] ∧
              (direction = DIRECTION_INBOUND ∨ direction = DIRECTION_OUTBOUND) ∧
              p.tcp.syn = true ∧ p.tcp.ack = false ∧ o.length = TCPOLEN_MP_JOIN_SYN) := by
            intro hn
            rw [hc.2.1] at hn
            simp at hn
          split at h
          · simp at h; obtain ⟨-, rfl, -⟩ := h
            exact Or.inr (Or.inr ⟨hrest, rfl, Or.inl rfl⟩)
          · split at h
            · simp at h
            · simp at h; obtain ⟨-, rfl, -⟩ := h
              exact Or.inr (Or.inr ⟨hrest, rfl, Or.inl rfl⟩)
        · rename_i hc3
          split at h
          · rename_i hc
            split at h
            · simp at h
            · rename_i hj
              simp at h; obtain ⟨-, rfl, -⟩ := h
              have g := mp_join_syn_effect_out hj
              exact Or.inr (Or.inl ⟨hne, hc.1, hc.2.2.1, hc.2.1, hc.2.2.2,
                outbound_subflow_effect_of_frame (a := s) rfl rfl g⟩)
          · rename_i hc4
            have hrest : ¬ (el :: rest ≠ [] ∧
                (direction = DIRECTION_INBOUND ∨ direction = DIRECTION_OUTBOUND) ∧
                p.tcp.syn = true ∧ p.tcp.ack = false ∧ o.length = TCPOLEN_MP_JOIN_SYN) := by
              rintro ⟨-, hd | hd, h1, h2, h3⟩
              · exact hc1 ⟨hd, h2, h1, h3⟩
              · exact hc4 ⟨hd, h2, h1, h3⟩
            split at h
            · rename_i hc
              split at h
              · simp at h
              · rename_i hj
                simp at h; obtain ⟨-, rfl, -⟩ := h
                have g := mp_join_syn_ack_effect hj
                exact Or.inr (Or.inr ⟨hrest, g.1, g.2.imp id (fun x => ⟨hc.1, x.2⟩)⟩)
            · split at h
              · split at h
                · simp at h; obtain ⟨-, rfl, -⟩ := h
                  exact Or.inr (Or.inr ⟨hrest, rfl, Or.inl rfl⟩)
                · split at h
                  · simp at h
                  · simp at h; obtain ⟨-, rfl, -⟩ := h
                    exact Or.inr (Or.inr ⟨hrest, rfl, Or.inl rfl⟩)
              · simp at h; obtain ⟨-, rfl, -⟩ := h
                exact Or.inr (Or.inr ⟨hrest, rfl, Or.inl rfl⟩)

theorem mptcp_subtype_dss_counters_frame {E : Env} {s s' : mp_state_s} {p live : packet}
    {o o' : tcp_option} {direction : Nat} {st : Int}
    (h : mptcp_subtype_dss E s p live o direction = .ret (st, s', o')) :
    counters_frame s s' := by
  have f := mptcp_subtype_dss_frame h
  rw [f]; exact ⟨rfl, rfl, rfl⟩

/-- One handler call moves each counter by at most one step, adds at most one subflow,
adds none on an option that calls no subflow constructor, and an inbound call that
adds a subflow increments `last_packetdrill_addr_id`; a call that is not inbound
leaves that counter alone. -/
theorem dispatch_option_counters {E : Env} {s s' : mp_state_s} {p live : packet}
    {o o' : tcp_option} {direction : Nat} {st : Int}
    (h : dispatch_option E s p live o direction = .ret (st, s', o')) :
    (s'.remote_ssn = s.remote_ssn ∨
      s'.remote_ssn = (s.remote_ssn + 1) % 2 ^ E.remote_ssn_bits) ∧
    (s'.last_packetdrill_addr_id = s.last_packetdrill_addr_id ∨
      s'.last_packetdrill_addr_id = (s.last_packetdrill_addr_id + 1) % 2 ^ 32) ∧
    (s'.subflows.length = s.subflows.length ∨
      s'.subflows.length = s.subflows.length + 1) ∧
    (direction = DIRECTION_INBOUND → s'.subflows.length = s.subflows.length + 1 →
      s'.last_packetdrill_addr_id = (s.last_packetdrill_addr_id + 1) % 2 ^ 32) ∧
    (direction ≠ DIRECTION_INBOUND →
      s'.last_packetdrill_addr_id = s.last_packetdrill_addr_id) ∧
    (¬ creates_subflow p o → s'.subflows.length = s.subflows.length) := by
  have hio : ¬ (DIRECTION_INBOUND = DIRECTION_OUTBOUND) := by decide
  have hin : ∀ q : packet, inbound_subflow_effect q s s' →
      (s'.last_packetdrill_addr_id = s.last_packetdrill_addr_id ∨
        s'.last_packetdrill_addr_id = (s.last_packetdrill_addr_id + 1) % 2 ^ 32) ∧
      (s'.subflows.length = s.subflows.length ∨
        s'.subflows.length = s.subflows.length + 1) ∧
      (s'.subflows.length = s.subflows.length + 1 →
        s'.last_packetdrill_addr_id = (s.last_packetdrill_addr_id + 1) % 2 ^ 32) := by
    intro q hq
    rcases hq with ⟨-, ⟨sf, hs⟩, ha⟩ | ⟨-, hs, ha⟩
    · exact ⟨Or.inr ha, Or.inr (by rw [hs]; rfl), fun _ => ha⟩
    · exact ⟨Or.inl ha, Or.inl (by rw [hs]), fun hl => by rw [hs] at hl; omega⟩
  have hout : ∀ q : packet, outbound_subflow_effect q s s' →
      s'.last_packetdrill_addr_id = s.last_packetdrill_addr_id ∧
      (s'.subflows.length = s.subflows.length ∨
        s'.subflows.length = s.subflows.length + 1) := by
    intro q hq
    rcases hq with ⟨ha, ⟨-, -, sf, hs⟩ | ⟨-, hs⟩⟩
    · exact ⟨ha, Or.inr (by rw [hs]; rfl)⟩
    · exact ⟨ha, Or.inl (by rw [hs])⟩
  unfold dispatch_option at h
  split at h
  · rename_i hsub
    obtain ⟨h1, h2⟩ := mptcp_subtype_mp_capable_counters h
    refine ⟨h1, ?_⟩
    rcases h2 with ⟨hlen, hd, he⟩ | ⟨hlen, hd, he⟩ | ⟨hn, hs, ha⟩
    · obtain ⟨g1, g2, g3⟩ := hin _ he
      exact ⟨g1, g2, fun _ => g3, fun hne => absurd hd hne, fun hnc =>
        absurd (Or.inl ⟨hsub, hlen⟩) hnc⟩
    · obtain ⟨g1, g2⟩ := hout _ he
      subst hd
      exact ⟨Or.inl g1, g2, fun hd => absurd hd.symm hio, fun _ => g1, fun hnc =>
        absurd (Or.inl ⟨hsub, hlen⟩) hnc⟩
    · exact ⟨Or.inl ha, Or.inl (by rw [hs]), fun _ hl => by rw [hs] at hl; omega,
        fun _ => ha, fun _ => by rw [hs]⟩
  · rename_i hsub0
    split at h
    · rename_i hsub
      obtain ⟨h1, h2⟩ := mptcp_subtype_mp_join_counters h
      refine ⟨Or.inl h1, ?_⟩
      rcases h2 with ⟨-, hd, hsyn, hack, hlen, he⟩ | ⟨-, hd, hsyn, hack, hlen, he⟩ |
        ⟨-, hs, ha⟩
      · obtain ⟨g1, g2, g3⟩ := hin _ he
        exact ⟨g1, g2, fun _ => g3, fun hne => absurd hd hne, fun hnc =>
          absurd (Or.inr ⟨hsub, hsyn, hack, hlen⟩) hnc⟩
      · obtain ⟨g1, g2⟩ := hout _ he
        subst hd
        exact ⟨Or.inl g1, g2, fun hd => absurd hd.symm hio, fun _ => g1, fun hnc =>
          absurd (Or.inr ⟨hsub, hsyn, hack, hlen⟩) hnc⟩
      · refine ⟨ha.imp id (fun x => x.2), Or.inl hs, fun _ hl => by omega, fun hne => ?_,
          fun _ => hs⟩
        rcases ha with ha | ⟨hd, -⟩
        · exact ha
        · exact absurd hd hne
    · split at h
      · obtain ⟨f1, f2, f3⟩ := mptcp_subtype_dss_counters_frame h
        exact ⟨Or.inl f1, Or.inl f2, Or.inl (by rw [f3]), fun _ hl => by rw [f3] at hl; omega,
          fun _ => f2, fun _ => by rw [f3]⟩
      · simp at h; obtain ⟨-, rfl, -⟩ := h
        exact ⟨Or.inl rfl, Or.inl rfl, Or.inl rfl, fun _ hl => by omega, fun _ => rfl,
          fun _ => rfl⟩

/-- Induction over the loop of the dispatcher: a property that is indexed by the number
of MPTCP options still ahead and that every returning handler call carries from
`n + 1` to `n` holds, for some index, of the state the loop returns. -/
theorem options_loop_induct (E : Env) (live : packet) (direction : Nat) (p : packet)
    (R : Nat → mp_state_s → Prop)
    (hstep : ∀ (n : Nat) (s s' : mp_state_s) (q : packet) (o o' : tcp_option) (st : Int),
      R (n + 1) s → dispatch_option E s q live o direction = .ret (st, s', o') → R n s')
    (todo : List tcp_option) :
    ∀ (done : List tcp_option) (s s' : mp_state_s) (st : Int) (p' : packet),
      options_loop E live direction p done todo s = .ret (st, s', p') →
      R (mptcp_option_count todo) s → ∃ n, R n s' := by
  induction todo with
  | nil =>
    intro done s s' st p' h hR
    simp [options_loop] at h
    obtain ⟨-, rfl, -⟩ := h
    exact ⟨_, hR⟩
  | cons opt todo ih =>
    intro done s s' st p' h hR
    rw [options_loop] at h
    split at h
    · rename_i hk
      have hcount : mptcp_option_count (opt :: todo) = mptcp_option_count todo + 1 := by
        simp [mptcp_option_count, hk]
      rw [hcount] at hR
      split at h
      · simp at h
      · rename_i e s1 o1 hd
        have hs := hstep _ _ _ _ _ _ _ hR hd
        split at h
        · simp at h; obtain ⟨-, rfl, -⟩ := h; exact ⟨_, hs⟩
        · exact ih _ _ _ _ _ h hs
    · rename_i hk
      have hcount : mptcp_option_count (opt :: todo) = mptcp_option_count todo := by
        simp [mptcp_option_count, hk]
      rw [hcount] at hR
      exact ih _ _ _ _ _ h hR

/-! ## Counters and registry across the dispatcher -/

/-- C26 (amended): when each counter plus the number of MPTCP options of the packet
stays below the maximum of its integer type, every returning call of
`mptcp_insert_and_extract_opt_fields`, whatever its status, leaves
`last_packetdrill_addr_id` and `remote_ssn` at least as large as before, and larger
by at most that number of options. -/
theorem counters_monotone_without_wrap (E : Env) (s s' : mp_state_s)
    (packet_to_modify live_packet p' : packet) (direction : Nat) (st : Int)
    (haddr : s.last_packetdrill_addr_id + mptcp_option_count packet_to_modify.options
      < 2 ^ 32)
    (hssn : s.remote_ssn + mptcp_option_count packet_to_modify.options
      < 2 ^ E.remote_ssn_bits)
    (hret : mptcp_insert_and_extract_opt_fields E s packet_to_modify live_packet direction
      = .ret (st, s', p')) :
    s.last_packetdrill_addr_id ≤ s'.last_packetdrill_addr_id ∧
    s'.last_packetdrill_addr_id
      ≤ s.last_packetdrill_addr_id + mptcp_option_count packet_to_modify.options ∧
    s.remote_ssn ≤ s'.remote_ssn ∧
    s'.remote_ssn ≤ s.remote_ssn + mptcp_option_count packet_to_modify.options := by
  unfold mptcp_insert_and_extract_opt_fields at hret
  obtain ⟨n, h1, h2, h3, h4⟩ := options_loop_induct E live_packet direction packet_to_modify
    (fun n t =>
      s.last_packetdrill_addr_id ≤ t.last_packetdrill_addr_id ∧
      t.last_packetdrill_addr_id + n
        ≤ s.last_packetdrill_addr_id + mptcp_option_count packet_to_modify.options ∧
      s.remote_ssn ≤ t.remote_ssn ∧
      t.remote_ssn + n ≤ s.remote_ssn + mptcp_option_count packet_to_modify.options)
    (by
      intro n t t' q o o' e ⟨a1, a2, a3, a4⟩ hd
      obtain ⟨c1, c2, -⟩ := dispatch_option_counters hd
      have m1 : (t.last_packetdrill_addr_id + 1) % 2 ^ 32 = t.last_packetdrill_addr_id + 1 :=
        Nat.mod_eq_of_lt (by omega)
      have m2 : (t.remote_ssn + 1) % 2 ^ E.remote_ssn_bits = t.remote_ssn + 1 :=
        Nat.mod_eq_of_lt (by omega)
      rw [m1] at c2
      rw [m2] at c1
      refine ⟨?_, ?_, ?_, ?_⟩ <;> rcases c1 with c1 | c1 <;> rcases c2 with c2 | c2 <;>
        omega)
    _ _ _ _ _ _ hret ⟨le_refl _, le_refl _, le_refl _, le_refl _⟩
  exact ⟨h1, by omega, h3, by omega⟩

theorem options_loop_addr_bound (E : Env) (live : packet) (p : packet) (k : Nat)
    (s s' : mp_state_s) (st : Int) (p' : packet)
    (hret : options_loop E live DIRECTION_INBOUND p [] p.options s = .ret (st, s', p'))
    (haddr : s.last_packetdrill_addr_id + mptcp_option_count p.options < 2 ^ 32)
    (hinv : s.subflows.length ≤ s.last_packetdrill_addr_id + k) :
    s'.subflows.length ≤ s'.last_packetdrill_addr_id + k := by
  obtain ⟨n, h1, -⟩ := options_loop_induct E live DIRECTION_INBOUND p
    (fun n t =>
      t.subflows.length ≤ t.last_packetdrill_addr_id + k ∧
      t.last_packetdrill_addr_id + n < 2 ^ 32)
    (by
      intro n t t' q o o' e ⟨a1, a2⟩ hd
      obtain ⟨-, c2, c3, c4, -⟩ := dispatch_option_counters hd
      have m1 : (t.last_packetdrill_addr_id + 1) % 2 ^ 32 = t.last_packetdrill_addr_id + 1 :=
        Nat.mod_eq_of_lt (by omega)
      rw [m1] at c2 c4
      rcases c3 with c3 | c3
      · rcases c2 with c2 | c2 <;> constructor <;> omega
      · have c5 := c4 rfl c3
        constructor <;> omega)
    _ _ _ _ _ _ hret ⟨hinv, haddr⟩
  exact h1

theorem options_loop_subflows_bound (E : Env) (live : packet) (direction : Nat) (p : packet)
    (s s' : mp_state_s) (st : Int) (p' : packet)
    (hret : options_loop E live direction p [] p.options s = .ret (st, s', p')) :
    s.subflows.length ≤ s'.subflows.length ∧
    s'.subflows.length ≤ s.subflows.length + mptcp_option_count p.options ∧
    (direction ≠ DIRECTION_INBOUND →
      s'.last_packetdrill_addr_id = s.last_packetdrill_addr_id) := by
  obtain ⟨n, h1, h2, h3⟩ := options_loop_induct E live direction p
    (fun n t =>
      s.subflows.length ≤ t.subflows.length ∧
      t.subflows.length + n ≤ s.subflows.length + mptcp_option_count p.options ∧
      (direction ≠ DIRECTION_INBOUND →
        t.last_packetdrill_addr_id = s.last_packetdrill_addr_id))
    (by
      intro n t t' q o o' e ⟨a1, a2, a3⟩ hd
      obtain ⟨-, -, c3, -, c5, -⟩ := dispatch_option_counters hd
      refine ⟨?_, ?_, fun hne => (c5 hne).trans (a3 hne)⟩ <;> rcases c3 with c3 | c3 <;> omega)
    _ _ _ _ _ _ hret ⟨le_refl _, le_refl _, fun _ => rfl⟩
  exact ⟨h1, by omega, h3⟩

/-- C27 (amended): in every session state reachable from `init_mp_state` by the
parser's registrations and by calls of `mptcp_insert_and_extract_opt_fields` that do
not wrap `last_packetdrill_addr_id` around, the number of subflows is at most
`last_packetdrill_addr_id` plus the number of MPTCP options handled by the calls that
were not inbound; when every call was inbound, `last_packetdrill_addr_id` is greater
than or equal to the number of subflows. -/
theorem addr_id_bounds_subflows (E : Env) (k : Nat) (s : mp_state_s)
    (h : reachable E k s) :
    s.subflows.length ≤ s.last_packetdrill_addr_id + k ∧
    (k = 0 → s.subflows.length ≤ s.last_packetdrill_addr_id) := by
  have main : s.subflows.length ≤ s.last_packetdrill_addr_id + k := by
    induction h with
    | init g => simp [init_mp_state, mp_state_zero]
    | hint k s el _ ih => exact ih
    | script_var k s name value length _ ih => exact ih
    | inbound k s s' p live p' st _ haddr hret ih =>
      exact options_loop_addr_bound E live p k s s' st p' hret haddr ih
    | other k s s' p live p' st direction _ hne hret ih =>
      obtain ⟨-, h2, h3⟩ := options_loop_subflows_bound E live direction p s s' st p' hret
      have := h3 hne
      omega
  exact ⟨main, fun hk => by omega⟩

/-- C28 (amended): one handler call adds at most one subflow.  An MP_CAPABLE option of
length 20 adds exactly one when the packet has an IP header (outbound: and an MPTCP
option, which the packet being processed has), whatever status the handler returns;
so does an MP_JOIN SYN handled with a hint in the FIFO, inbound for the packet and
outbound for the live packet.  Every other option leaves the number of subflows as it
was, and the number never decreases under `mptcp_insert_and_extract_opt_fields`. -/
theorem subflow_count_tracks_constructor (E : Env) (s s' : mp_state_s) (p live : packet)
    (o o' : tcp_option) (direction : Nat) (st : Int)
    (h : dispatch_option E s p live o direction = .ret (st, s', o')) :
    (s'.subflows.length = s.subflows.length ∨
      s'.subflows.length = s.subflows.length + 1) ∧
    (o.subtype = MP_CAPABLE_SUBTYPE → o.length = TCPOLEN_MP_CAPABLE →
      (direction = DIRECTION_INBOUND → has_ip_header p = true →
        s'.subflows.length = s.subflows.length + 1) ∧
      (direction = DIRECTION_OUTBOUND → has_ip_header p = true →
        (get_tcp_option p TCPOPT_MPTCP).isSome = true →
        s'.subflows.length = s.subflows.length + 1)) ∧
    (o.subtype = MP_JOIN_SUBTYPE → p.tcp.syn = true → p.tcp.ack = false →
      o.length = TCPOLEN_MP_JOIN_SYN → s.vars_queue ≠ [] →
      (direction = DIRECTION_INBOUND → has_ip_header p = true →
        s'.subflows.length = s.subflows.length + 1) ∧
      (direction = DIRECTION_OUTBOUND → has_ip_header live = true →
        (get_tcp_option live TCPOPT_MPTCP).isSome = true →
        s'.subflows.length = s.subflows.length + 1)) ∧
    (¬ creates_subflow p o → s'.subflows.length = s.subflows.length) ∧
    (∀ (t t' : mp_state_s) (q q' l : packet) (d : Nat) (e : Int),
      mptcp_insert_and_extract_opt_fields E t q l d = .ret (e, t', q') →
      t.subflows.length ≤ t'.subflows.length) := by
  have hio : ¬ (DIRECTION_INBOUND = DIRECTION_OUTBOUND) := by decide
  have hin : ∀ q : packet, has_ip_header q = true → inbound_subflow_effect q s s' →
      s'.subflows.length = s.subflows.length + 1 := by
    intro q hq he
    rcases he with ⟨-, ⟨sf, hs⟩, -⟩ | ⟨hno, -, -⟩
    · rw [hs]; rfl
    · rw [hq] at hno; simp at hno
  have hout : ∀ q : packet, has_ip_header q = true →
      (get_tcp_option q TCPOPT_MPTCP).isSome = true → outbound_subflow_effect q s s' →
      s'.subflows.length = s.subflows.length + 1 := by
    intro q hq ho he
    rcases he with ⟨-, ⟨-, -, sf, hs⟩ | ⟨hno, -⟩⟩
    · rw [hs]; rfl
    · rcases hno with hno | hno
      · rw [ho] at hno; simp at hno
      · rw [hq] at hno; simp at hno
  obtain ⟨-, -, c3, -, -, c6⟩ := dispatch_option_counters h
  refine ⟨c3, ?_, ?_, c6, ?_⟩
  · intro hsub hlen
    unfold dispatch_option at h
    rw [if_pos hsub] at h
    obtain ⟨-, h2⟩ := mptcp_subtype_mp_capable_counters h
    rcases h2 with ⟨-, hd, he⟩ | ⟨-, hd, he⟩ | ⟨hn, -, -⟩
    · exact ⟨fun _ hq => hin _ hq he, fun hd' => absurd (hd.symm.trans hd') hio⟩
    · exact ⟨fun hd' => absurd (hd'.symm.trans hd) hio, fun _ hq ho => hout _ hq ho he⟩
    · exact ⟨fun hd => absurd ⟨hlen, Or.inl hd⟩ hn, fun hd => absurd ⟨hlen, Or.inr hd⟩ hn⟩
  · intro hsub hsyn hack hlen hq
    have h0 : ¬ (o.subtype = MP_CAPABLE_SUBTYPE) := by rw [hsub]; decide
    unfold dispatch_option at h
    rw [if_neg h0, if_pos hsub] at h
    obtain ⟨-, h2⟩ := mptcp_subtype_mp_join_counters h
    rcases h2 with ⟨-, hd, -, -, -, he⟩ | ⟨-, hd, -, -, -, he⟩ | ⟨hn, -, -⟩
    · exact ⟨fun _ hip => hin _ hip he, fun hd' => absurd (hd.symm.trans hd') hio⟩
    · exact ⟨fun hd' => absurd (hd'.symm.trans hd) hio, fun _ hip ho => hout _ hip ho he⟩
    · exact ⟨fun hd => absurd ⟨hq, Or.inl hd, hsyn, hack, hlen⟩ hn,
        fun hd => absurd ⟨hq, Or.inr hd, hsyn, hack, hlen⟩ hn⟩
  · intro t t' q q' l d e hret
    unfold mptcp_insert_and_extract_opt_fields at hret
    exact (options_loop_subflows_bound E l d q t t' e q' hret).1

/-- C25: an MPTCP option whose subtype is not MP_CAPABLE, MP_JOIN or DSS makes
`dispatch_option` return `STATUS_ERR`, and `mptcp_insert_and_extract_opt_fields`
returns `STATUS_ERR` when its loop arrives at such an option; `mptcp_subtype_mp_capable`
returns `STATUS_ERR` for every option length other than 12 and 20; and
`mptcp_subtype_mp_join` returns `STATUS_ERR` unless the direction is inbound or
outbound and the packet and option are SYN with length 12, SYN and ACK with length 16,
or ACK with length 24.  State and option are as before, except that
`mptcp_subtype_mp_join` has removed the front hint. -/
theorem unmatched_dispatch_is_error (E : Env) (s : mp_state_s) (p live : packet)
    (o : tcp_option) (direction : Nat) :
    (o.subtype ≠ MP_CAPABLE_SUBTYPE → o.subtype ≠ MP_JOIN_SUBTYPE →
      o.subtype ≠ DSS_SUBTYPE →
      dispatch_option E s p live o direction = .ret (STATUS_ERR, s, o) ∧
      ∀ (s0 : mp_state_s) (d1 t2 : List tcp_option), o.kind = TCPOPT_MPTCP →
        options_handled E live direction p [] p.options s0 d1 (o :: t2) s →
        mptcp_insert_and_extract_opt_fields E s0 p live direction
          = .ret (STATUS_ERR, s, { p with options := d1 ++ o :: t2 })) ∧
    (o.length ≠ TCPOLEN_MP_CAPABLE_SYN → o.length ≠ TCPOLEN_MP_CAPABLE →
      mptcp_subtype_mp_capable E s p live o direction = .ret (STATUS_ERR, s, o)) ∧
    (¬ ((direction = DIRECTION_INBOUND ∨ direction = DIRECTION_OUTBOUND) ∧
        ((p.tcp.syn = true ∧ p.tcp.ack = false ∧ o.length = TCPOLEN_MP_JOIN_SYN) ∨
          (p.tcp.syn = true ∧ p.tcp.ack = true ∧ o.length = TCPOLEN_MP_JOIN_SYN_ACK) ∨
          (p.tcp.syn = false ∧ p.tcp.ack = true ∧ o.length = TCPOLEN_MP_JOIN_ACK))) →
      mptcp_subtype_mp_join E s p live o direction
        = .ret (STATUS_ERR, { s with vars_queue := s.vars_queue.tail }, o)) := by
  refine ⟨?_, ?_, ?_⟩
  · intro h0 h1 h2
    have hd : ∀ q : packet, dispatch_option E s q live o direction
        = .ret (STATUS_ERR, s, o) := by
      intro q
      unfold dispatch_option
      rw [if_neg h0, if_neg h1, if_neg h2]
    refine ⟨hd p, ?_⟩
    intro s0 d1 t2 hk hrun
    unfold mptcp_insert_and_extract_opt_fields
    rw [options_loop_of_handled hrun, options_loop, if_pos hk, hd]
    simp [STATUS_ERR]
  · intro h12 h20
    unfold mptcp_subtype_mp_capable
    simp [h12, h20]
  · intro hn
    have c1 : ¬ (direction = DIRECTION_INBOUND ∧ p.tcp.ack = false ∧ p.tcp.syn = true ∧
        o.length = TCPOLEN_MP_JOIN_SYN) :=
      fun ⟨a, b, c, d⟩ => hn ⟨Or.inl a, Or.inl ⟨c, b, d⟩⟩
    have c2 : ¬ (direction = DIRECTION_OUTBOUND ∧ p.tcp.ack = true ∧ p.tcp.syn = true ∧
        o.length = TCPOLEN_MP_JOIN_SYN_ACK) :=
      fun ⟨a, b, c, d⟩ => hn ⟨Or.inr a, Or.inr (Or.inl ⟨c, b, d⟩)⟩
    have c3 : ¬ (direction = DIRECTION_INBOUND ∧ p.tcp.ack = true ∧ p.tcp.syn = false ∧
        o.length = TCPOLEN_MP_JOIN_ACK) :=
      fun ⟨a, b, c, d⟩ => hn ⟨Or.inl a, Or.inr (Or.inr ⟨c, b, d⟩)⟩
    have c4 : ¬ (direction = DIRECTION_OUTBOUND ∧ p.tcp.ack = false ∧ p.tcp.syn = true ∧
        o.length = TCPOLEN_MP_JOIN_SYN) :=
      fun ⟨a, b, c, d⟩ => hn ⟨Or.inr a, Or.inl ⟨c, b, d⟩⟩
    have c5 : ¬ (direction = DIRECTION_INBOUND ∧ p.tcp.ack = true ∧ p.tcp.syn = true ∧
        o.length = TCPOLEN_MP_JOIN_SYN_ACK) :=
      fun ⟨a, b, c, d⟩ => hn ⟨Or.inl a, Or.inr (Or.inl ⟨c, b, d⟩)⟩
    have c6 : ¬ (direction = DIRECTION_OUTBOUND ∧ p.tcp.ack = true ∧ p.tcp.syn = false ∧
        o.length = TCPOLEN_MP_JOIN_ACK) :=
      fun ⟨a, b, c, d⟩ => hn ⟨Or.inr a, Or.inr (Or.inr ⟨c, b, d⟩)⟩
    unfold mptcp_subtype_mp_join queue_dequeue
    rcases hq : s.vars_queue with _ | ⟨el, rest⟩
    · simp
      cases s; simp_all
    · simp only [if_neg c1, if_neg c2, if_neg c3, if_neg c4, if_neg c5, if_neg c6,
        List.tail_cons]

/-! ## Registry round trip and the DSS acknowledgement -/

theorem find_matching_subflow_head (s : mp_state_s) (p : packet)
    (does_match : mp_subflow → packet → Bool) (sf : mp_subflow) (rest : List mp_subflow)
    (hs : s.subflows = sf :: rest) (hm : does_match sf p = true) :
    find_matching_subflow s p does_match = some 0 := by
  unfold find_matching_subflow
  simp [hs, List.findIdx_cons, hm]

theorem new_subflow_outbound_created (E : Env) (s : mp_state_s) (q : packet)
    (lo : tcp_option) (hopt : get_tcp_option q TCPOPT_MPTCP = some lo)
    (hip : q.ipv4 ≠ none ∨ q.ipv6 ≠ none) :
    ∃ sf : mp_subflow,
      new_subflow_outbound E s q =
        (some 0, { s with heap := s.heap + 1, subflows := sf :: s.subflows }) ∧
      sf.src_port = ntohs q.tcp.dst_port ∧ sf.dst_port = ntohs q.tcp.src_port ∧
      sf.kernel_rand_nbr = lo.mp_join_syn_no_ack_sender_random_number ∧
      sf.kernel_addr_id = lo.mp_join_syn_address_id ∧ sf.ssn = 0 := by
  unfold new_subflow_outbound malloc_subflow
  simp only [hopt]
  rcases h4 : q.ipv4 with _ | a
  · rcases h6 : q.ipv6 with _ | b
    · simp [h4, h6] at hip
    · exact ⟨_, rfl, rfl, rfl, rfl, rfl, rfl⟩
  · exact ⟨_, rfl, rfl, rfl, rfl, rfl, rfl⟩

/-- C29: on a packet `p` with an IP header, `new_subflow_inbound` returns the subflow
it has put in front of the registry, with `src_port` and `dst_port` the packet's ports
and `ssn = 0`; right afterwards the inbound lookup of `p` and the outbound lookup of
every packet with the ports exchanged return that subflow.  When `p` also carries an
MPTCP option, the subflow `new_subflow_outbound` creates has the ports exchanged and
`ssn = 0`, and it is returned by the outbound lookup of `p` and by the inbound lookup
of every packet with the ports exchanged. -/
theorem registry_round_trip (E : Env) (s : mp_state_s) (p : packet)
    (hip : p.ipv4 ≠ none ∨ p.ipv6 ≠ none) :
    (∃ sf,
      (new_subflow_inbound E s p).1 = some 0 ∧
      (new_subflow_inbound E s p).2.subflows = sf :: s.subflows ∧
      sf.src_port = ntohs p.tcp.src_port ∧ sf.dst_port = ntohs p.tcp.dst_port ∧
      sf.ssn = 0 ∧
      find_subflow_matching_inbound_packet (new_subflow_inbound E s p).2 p = some 0 ∧
      ∀ q : packet, q.tcp.src_port = p.tcp.dst_port → q.tcp.dst_port = p.tcp.src_port →
        find_subflow_matching_outbound_packet (new_subflow_inbound E s p).2 q = some 0) ∧
    (get_tcp_option p TCPOPT_MPTCP ≠ none →
      ∃ sf,
        (new_subflow_outbound E s p).1 = some 0 ∧
        (new_subflow_outbound E s p).2.subflows = sf :: s.subflows ∧
        sf.src_port = ntohs p.tcp.dst_port ∧ sf.dst_port = ntohs p.tcp.src_port ∧
        sf.ssn = 0 ∧
        find_subflow_matching_outbound_packet (new_subflow_outbound E s p).2 p = some 0 ∧
        ∀ q : packet, q.tcp.src_port = p.tcp.dst_port → q.tcp.dst_port = p.tcp.src_port →
          find_subflow_matching_inbound_packet (new_subflow_outbound E s p).2 q = some 0) := by
  constructor
  · obtain ⟨sf, hnew, h1, h2, -, -, h5⟩ := new_subflow_inbound_created E s p hip
    rw [hnew]
    refine ⟨sf, rfl, rfl, h1, h2, h5, ?_, ?_⟩
    · exact find_matching_subflow_head _ _ _ sf s.subflows rfl
        (by simp [does_subflow_match_inbound_packet, h1, h2])
    · intro q hq1 hq2
      exact find_matching_subflow_head _ _ _ sf s.subflows rfl
        (by simp [does_subflow_match_outbound_packet, h1, h2, hq1, hq2])
  · intro hopt
    rcases ho : get_tcp_option p TCPOPT_MPTCP with _ | lo
    · exact absurd ho hopt
    · obtain ⟨sf, hnew, h1, h2, -, -, h5⟩ := new_subflow_outbound_created E s p lo ho hip
      rw [hnew]
      refine ⟨sf, rfl, rfl, h1, h2, h5, ?_, ?_⟩
      · exact find_matching_subflow_head _ _ _ sf s.subflows rfl
          (by simp [does_subflow_match_outbound_packet, h1, h2])
      · intro q hq1 hq2
        exact find_matching_subflow_head _ _ _ sf s.subflows rfl
          (by simp [does_subflow_match_inbound_packet, h1, h2, hq1, hq2])

theorem bswap32_mod (x : Nat) : bswap32 (x % 2 ^ 32) = bswap32 x := by
  unfold bswap32
  have e1 : x % 2 ^ 32 % 256 = x % 256 := by omega
  have e2 : x % 2 ^ 32 / 2 ^ 8 % 256 = x / 2 ^ 8 % 256 := by omega
  have e3 : x % 2 ^ 32 / 2 ^ 16 % 256 = x / 2 ^ 16 % 256 := by omega
  have e4 : x % 2 ^ 32 / 2 ^ 24 % 256 = x / 2 ^ 24 % 256 := by omega
  rw [e1, e2, e3, e4]

theorem mp_capable_third_step_last_dsn {E : Env} {s s' : mp_state_s} {p live : packet}
    {o o' : tcp_option} {direction : Nat} {st : Int}
    (hlen : o.length = TCPOLEN_MP_CAPABLE)
    (hdir : direction = DIRECTION_INBOUND ∨ direction = DIRECTION_OUTBOUND)
    (hret : mptcp_subtype_mp_capable E s p live o direction = .ret (st, s', o')) :
    s'.last_dsn_rcvd = (sha1_least_64bits E s'.kernel_key + s'.remote_ssn) % 2 ^ 64 := by
  unfold mptcp_subtype_mp_capable at hret
  simp only [hlen] at hret
  simp at hret
  split at hret
  · simp at hret
  · rename_i e s1 o1 hk
    rcases hdir with rfl | rfl
    · simp at hret
      obtain ⟨-, rfl, -⟩ := hret
      rw [new_subflow_inbound_frame]
    · simp at hret
      obtain ⟨-, rfl, -⟩ := hret
      rw [new_subflow_outbound_frame]

/-- C30 (amended): on a packet with an IPv4 header, an inbound DSS option without DSN
(`flag_M` clear) that carries a 4-byte DACK (`flag_A` set, `flag_a` clear) with
`dack4 = UNDEFINED` makes `mptcp_subtype_dss` return `STATUS_OK`, with the state as it
was and `dack4 = htonl (last_dsn_rcvd mod 2^32)`; when the state is the one an
MP_CAPABLE option of length 20 has just been handled into, that value is
`htonl ((sha1_least_64bits kernel_key + remote_ssn) mod 2^32)`. -/
theorem dss_inbound_undefined_dack (E : Env) (s : mp_state_s) (p live : packet)
    (o : tcp_option) (h4 : ipv4_hdr)
    (hip : p.ipv4 = some h4)
    (hM : o.dss_flag_M = false) (hA : o.dss_flag_A = true) (ha : o.dss_flag_a = false)
    (hund : o.dss_dack_dack4 = to_unsigned 32 E.UNDEFINED) :
    mptcp_subtype_dss E s p live o DIRECTION_INBOUND
      = .ret (STATUS_OK, s, { o with dss_dack_dack4 := htonl (s.last_dsn_rcvd % 2 ^ 32) }) ∧
    ∀ (s0 : mp_state_s) (p0 live0 : packet) (o0 o0' : tcp_option) (d0 : Nat) (st0 : Int),
      o0.length = TCPOLEN_MP_CAPABLE →
      d0 = DIRECTION_INBOUND ∨ d0 = DIRECTION_OUTBOUND →
      mptcp_subtype_mp_capable E s0 p0 live0 o0 d0 = .ret (st0, s, o0') →
      mptcp_subtype_dss E s p live o DIRECTION_INBOUND
        = .ret (STATUS_OK, s, { o with
            dss_dack_dack4 :=
              htonl ((sha1_least_64bits E s.kernel_key + s.remote_ssn) % 2 ^ 32) }) := by
  have main : mptcp_subtype_dss E s p live o DIRECTION_INBOUND
      = .ret (STATUS_OK, s, { o with dss_dack_dack4 := htonl (s.last_dsn_rcvd % 2 ^ 32) }) := by
    unfold mptcp_subtype_dss dss_inbound_parser_fn
    have e : htonl (s.last_dsn_rcvd % 2 ^ 32) = htonl s.last_dsn_rcvd := bswap32_mod _
    simp only [hip, hM, hA, ha, hund, if_true, Bool.false_eq_true, if_false, e]
  refine ⟨main, ?_⟩
  intro s0 p0 live0 o0 o0' d0 st0 hlen hd hthird
  rw [main, mp_capable_third_step_last_dsn hlen hd hthird]
  have e : (sha1_least_64bits E s.kernel_key + s.remote_ssn) % 2 ^ 64 % 2 ^ 32
      = (sha1_least_64bits E s.kernel_key + s.remote_ssn) % 2 ^ 32 :=
    Nat.mod_mod_of_dvd _ (by norm_num)
  rw [e]

/-! ## Concrete runs of the dispatcher, the counters and the registry -/

/-- C21 (witness): the session `demo_s3` has used up its hints; an MP_CAPABLE option of
length 12 and an MP_JOIN option are both refused. -/
theorem empty_fifo_is_error_witness :
    demo_s3.vars_queue = [] ∧
    (∃ st s', mptcp_subtype_mp_capable demo_env demo_s3 (demo_inbound true false [demo_opt 12 0])
        (demo_inbound true false [demo_opt 12 0]) (demo_opt 12 0) DIRECTION_INBOUND
        = .ret (st, s', demo_opt 12 0) ∧
      (st = STATUS_ERR ∨ st = 1) ∧ st ≠ STATUS_OK ∧ s'.vars_queue = []) ∧
    mptcp_subtype_mp_join demo_env demo_s3 (demo_inbound true false [demo_opt 12 0])
      (demo_inbound true false [demo_opt 12 0]) (demo_opt 12 0) DIRECTION_INBOUND
      = .ret (STATUS_ERR, demo_s3, demo_opt 12 0) :=
  have h := empty_fifo_is_error demo_env demo_s3 (demo_inbound true false [demo_opt 12 0])
    (demo_inbound true false [demo_opt 12 0]) (demo_opt 12 0) DIRECTION_INBOUND (by decide)
  ⟨by decide, h.1 (Or.inl rfl), h.2⟩

/-- C22 (evaluation): on `demo_s3`, whose hint FIFO is empty, an inbound DSS option with
a 4-byte DACK and `dack4 = SCRIPT_DEFINED` makes `dss_inbound_parser` return
`STATUS_ERR`, while `mptcp_subtype_dss` and `mptcp_insert_and_extract_opt_fields`
return `STATUS_OK` and leave the option as it was. -/
theorem dss_missing_hint_returns_ok :
    demo_s3.vars_queue = [] ∧
    (demo_dss_ack 1).dss_dack_dack4 = SCRIPT_DEFINED ∧
    (demo_dss_ack 1).dss_flag_A = true ∧ (demo_dss_ack 1).dss_flag_a = false ∧
    (demo_dss_ack 1).dss_flag_M = false ∧
    dss_inbound_parser_fn demo_env demo_s3
      (dss_tcp_payload_length (demo_inbound false true [demo_dss_ack 1])
        { ihl := 5, src_ip := 1, dst_ip := 2 }) (demo_dss_ack 1)
      = .ret (STATUS_ERR, demo_s3, demo_dss_ack 1) ∧
    mptcp_subtype_dss demo_env demo_s3 (demo_inbound false true [demo_dss_ack 1])
      (demo_inbound false true [demo_dss_ack 1]) (demo_dss_ack 1) DIRECTION_INBOUND
      = .ret (STATUS_OK, demo_s3, demo_dss_ack 1) ∧
    mptcp_insert_and_extract_opt_fields demo_env demo_s3
      (demo_inbound false true [demo_dss_ack 1]) (demo_inbound false true [demo_dss_ack 1])
      DIRECTION_INBOUND
      = .ret (STATUS_OK, demo_s3, demo_inbound false true [demo_dss_ack 1]) := by
  decide

/-- C23 (evaluation): in `demo_s1` the packetdrill key is bound, the variable table
holds `a` only and the front hint is `b`.  A second inbound MP_CAPABLE SYN finds no
variable `b`, and `find_next_key` reads through the NULL pointer: the handler and the
dispatcher do not return. -/
theorem unknown_hint_name_faults :
    demo_s1.packetdrill_key_set = true ∧
    demo_s1.vars_queue.head? = some (.var_name "b") ∧
    find_mp_var demo_s1 "b" = none ∧
    mptcp_gen_key demo_env demo_s1 = .ret (STATUS_OK, demo_s1) ∧
    find_next_key demo_s1 = .fault ∧
    mptcp_subtype_mp_capable demo_env demo_s1 (demo_inbound true false [demo_opt 12 0])
      (demo_inbound true false [demo_opt 12 0]) (demo_opt 12 0) DIRECTION_INBOUND = .fault ∧
    mptcp_insert_and_extract_opt_fields demo_env demo_s1
      (demo_inbound true false [demo_opt 12 0]) (demo_inbound true false [demo_opt 12 0])
      DIRECTION_INBOUND = .fault := by
  decide

/-- C24 (witness): a packet with two no-operation options goes through unchanged; and
on the packet `demo_mixed` the first MP_JOIN SYN is handled, the no-operation is
passed over, the option of unknown subtype fails, and the second MP_JOIN SYN is as it
was, with its hint still in the FIFO. -/
theorem dispatcher_single_pass_fail_fast_witness :
    mptcp_insert_and_extract_opt_fields demo_env demo_j0
      (demo_inbound false true [demo_nop, demo_nop]) (demo_inbound false true [demo_nop, demo_nop])
      DIRECTION_INBOUND
      = .ret (STATUS_OK, demo_j0, demo_inbound false true [demo_nop, demo_nop]) ∧
    mptcp_insert_and_extract_opt_fields demo_env demo_j0 demo_mixed demo_mixed
      DIRECTION_INBOUND = .ret (STATUS_ERR, demo_m1, demo_mp1) ∧
    demo_mp1.options = [demo_jo1, demo_nop, demo_unknown, demo_opt 12 1] ∧
    demo_j0.vars_queue.length = 3 ∧ demo_m1.vars_queue.length = 2 ∧
    demo_m1.subflows.length = demo_j0.subflows.length + 1 :=
  ⟨(dispatcher_single_pass_fail_fast demo_env demo_j0
      (demo_inbound false true [demo_nop, demo_nop])
      (demo_inbound false true [demo_nop, demo_nop]) DIRECTION_INBOUND).1 (by decide),
    by decide, by decide, by decide, by decide, by decide⟩

/-- C25 (witness): the option `demo_unknown` (subtype 7, length 4) behind a
no-operation, on an ACK without SYN. -/
theorem unmatched_dispatch_is_error_witness :
    dispatch_option demo_env demo_j0 (demo_inbound false true [demo_nop, demo_unknown])
      (demo_inbound false true [demo_nop, demo_unknown]) demo_unknown DIRECTION_INBOUND
      = .ret (STATUS_ERR, demo_j0, demo_unknown) ∧
    mptcp_insert_and_extract_opt_fields demo_env demo_j0
      (demo_inbound false true [demo_nop, demo_unknown])
      (demo_inbound false true [demo_nop, demo_unknown]) DIRECTION_INBOUND
      = .ret (STATUS_ERR, demo_j0,
          { demo_inbound false true [demo_nop, demo_unknown] with
            options := [demo_nop] ++ demo_unknown :: [] }) ∧
    mptcp_subtype_mp_capable demo_env demo_j0 (demo_inbound false true [demo_nop, demo_unknown])
      (demo_inbound false true [demo_nop, demo_unknown]) demo_unknown DIRECTION_INBOUND
      = .ret (STATUS_ERR, demo_j0, demo_unknown) ∧
    mptcp_subtype_mp_join demo_env demo_j0 (demo_inbound false true [demo_nop, demo_unknown])
      (demo_inbound false true [demo_nop, demo_unknown]) demo_unknown DIRECTION_INBOUND
      = .ret (STATUS_ERR, { demo_j0 with vars_queue := demo_j0.vars_queue.tail },
          demo_unknown) :=
  have h := unmatched_dispatch_is_error demo_env demo_j0
    (demo_inbound false true [demo_nop, demo_unknown])
    (demo_inbound false true [demo_nop, demo_unknown]) demo_unknown DIRECTION_INBOUND
  have h1 := h.1 (by decide) (by decide) (by decide)
  ⟨h1.1,
    h1.2 demo_j0 [demo_nop] [] rfl
      (.skip [] demo_nop [demo_unknown] demo_j0 _ _ _ (by decide) (.stop _ _ _)),
    h.2.1 (by decide) (by decide), h.2.2 (by decide)⟩

/-- C26 (counterexample): `remote_ssn` is 4294967294, below the maximum of a 32-bit
counter; an outbound packet with two MP_CAPABLE options of length 12 is handled with
`STATUS_OK` and leaves `remote_ssn = 0`.  Likewise `last_packetdrill_addr_id`
goes from 4294967294 to 0 on an inbound packet with two MP_JOIN SYN options. -/
theorem counters_wrap_counterexample :
    demo_env.remote_ssn_bits = 32 ∧
    demo_w0.remote_ssn = 4294967294 ∧ demo_w0.remote_ssn < 2 ^ 32 - 1 ∧
    mptcp_insert_and_extract_opt_fields demo_env demo_w0 demo_two_capable demo_live_synack
      DIRECTION_OUTBOUND
      = .ret (STATUS_OK, demo_w1,
          demo_outbound true false
            [{ demo_opt 12 0 with mp_capable_syn_key := 1 },
             { demo_opt 12 0 with mp_capable_syn_key := 2 }]) ∧
    demo_w1.remote_ssn = 0 ∧ ¬ (demo_w1.remote_ssn ≥ demo_w0.remote_ssn) ∧
    demo_v0.last_packetdrill_addr_id = 4294967294 ∧
    demo_v0.last_packetdrill_addr_id < 2 ^ 32 - 1 ∧
    ret_status (mptcp_insert_and_extract_opt_fields demo_env demo_v0 demo_two_join
      demo_two_join DIRECTION_INBOUND) = some STATUS_OK ∧
    demo_v1.last_packetdrill_addr_id = 0 ∧
    ¬ (demo_v1.last_packetdrill_addr_id ≥ demo_v0.last_packetdrill_addr_id) := by
  decide

/-- C26 (witness): the outbound MP_CAPABLE SYN/ACK of the handshake `demo_s0` through
the dispatcher counts `remote_ssn` from 0 to 1 and leaves
`last_packetdrill_addr_id`. -/
theorem counters_monotone_without_wrap_witness :
    demo_d1.last_packetdrill_addr_id
      + mptcp_option_count (demo_outbound true true [demo_opt 12 0]).options < 2 ^ 32 ∧
    demo_d1.remote_ssn + mptcp_option_count (demo_outbound true true [demo_opt 12 0]).options
      < 2 ^ demo_env.remote_ssn_bits ∧
    mptcp_insert_and_extract_opt_fields demo_env demo_d1
      (demo_outbound true true [demo_opt 12 0]) demo_live_synack DIRECTION_OUTBOUND
      = .ret (STATUS_OK, demo_d2, demo_dp2) ∧
    demo_d1.remote_ssn = 0 ∧ demo_d2.remote_ssn = 1 ∧
    demo_d1.last_packetdrill_addr_id ≤ demo_d2.last_packetdrill_addr_id ∧
    demo_d2.last_packetdrill_addr_id ≤ demo_d1.last_packetdrill_addr_id
      + mptcp_option_count (demo_outbound true true [demo_opt 12 0]).options ∧
    demo_d1.remote_ssn ≤ demo_d2.remote_ssn ∧
    demo_d2.remote_ssn ≤ demo_d1.remote_ssn
      + mptcp_option_count (demo_outbound true true [demo_opt 12 0]).options :=
  ⟨by decide, by decide, by decide, by decide, by decide,
    counters_monotone_without_wrap demo_env demo_d1 demo_d2
      (demo_outbound true true [demo_opt 12 0]) demo_live_synack demo_dp2
      DIRECTION_OUTBOUND STATUS_OK (by decide) (by decide) (by decide)⟩

/-- C27 (counterexample): a handshake opened by the kernel.  From `init_mp_state` and
the four key hints of `demo_s0`, the outbound MP_CAPABLE SYN, the inbound SYN/ACK and
the outbound third step all return `STATUS_OK`; the third step creates the subflow
with `new_subflow_outbound`, so the registry has one subflow while
`last_packetdrill_addr_id` is 0. -/
theorem addr_id_below_subflows_counterexample :
    demo_s0 = enqueue_var (enqueue_var (enqueue_var (enqueue_var
      (init_mp_state demo_env (mp_state_zero 7)) "a") "b") "a") "b" ∧
    mptcp_insert_and_extract_opt_fields demo_env demo_s0
      (demo_outbound true false [demo_opt 12 0])
      (demo_outbound true false [{ demo_opt 12 0 with mp_capable_syn_key := 43981 }])
      DIRECTION_OUTBOUND
      = .ret (STATUS_OK, demo_c1,
          demo_outbound true false [{ demo_opt 12 0 with mp_capable_syn_key := 43981 }]) ∧
    ret_status (mptcp_insert_and_extract_opt_fields demo_env demo_c1
      (demo_inbound true true [demo_opt 12 0]) (demo_inbound true true [demo_opt 12 0])
      DIRECTION_INBOUND) = some STATUS_OK ∧
    ret_status (mptcp_insert_and_extract_opt_fields demo_env demo_c2
      (demo_outbound false true [demo_opt 20 0]) (demo_outbound false true [demo_opt 20 0])
      DIRECTION_OUTBOUND) = some STATUS_OK ∧
    demo_c3.subflows.length = 1 ∧ demo_c3.last_packetdrill_addr_id = 0 ∧
    ¬ (demo_c3.last_packetdrill_addr_id ≥ demo_c3.subflows.length) := by
  decide

/-- C27 (witness): the state `demo_d3` after the handshake of `demo_s0` through the
dispatcher (inbound SYN, outbound SYN/ACK, inbound third step) is reachable with one
MPTCP option handled outbound, and its one subflow is within the bound. -/
theorem addr_id_bounds_subflows_witness :
    reachable demo_env (0 + mptcp_option_count (demo_outbound true true [demo_opt 12 0]).options)
      demo_d3 ∧
    demo_d3.subflows.length = 1 ∧ demo_d3.last_packetdrill_addr_id = 1 ∧
    demo_d3.subflows.length ≤ demo_d3.last_packetdrill_addr_id
      + (0 + mptcp_option_count (demo_outbound true true [demo_opt 12 0]).options) :=
  have r0 : reachable demo_env 0 demo_s0 :=
    .hint _ _ _ (.hint _ _ _ (.hint _ _ _ (.hint _ _ _ (.init 7))))
  have r1 : reachable demo_env 0 demo_d1 :=
    .inbound 0 demo_s0 demo_d1 (demo_inbound true false [demo_opt 12 0])
      (demo_inbound true false [demo_opt 12 0])
      (demo_inbound true false [{ demo_opt 12 0 with mp_capable_syn_key := 1008 }])
      STATUS_OK r0 (by decide) (by decide)
  have r2 : reachable demo_env
      (0 + mptcp_option_count (demo_outbound true true [demo_opt 12 0]).options) demo_d2 :=
    .other 0 demo_d1 demo_d2 (demo_outbound true true [demo_opt 12 0]) demo_live_synack
      demo_dp2 STATUS_OK DIRECTION_OUTBOUND r1 (by decide) (by decide)
  have r3 : reachable demo_env
      (0 + mptcp_option_count (demo_outbound true true [demo_opt 12 0]).options) demo_d3 :=
    .inbound _ demo_d2 demo_d3 (demo_inbound false true [demo_opt 20 0])
      (demo_inbound false true [demo_opt 20 0])
      (demo_inbound false true [demo_o3]) STATUS_OK r2 (by decide) (by decide)
  ⟨r3, by decide, by decide, (addr_id_bounds_subflows demo_env _ demo_d3 r3).1⟩

/-- C28 (counterexample): right after `init_mp_state`, with no hint queued, an inbound
MP_CAPABLE option of length 20 on an IPv4 packet makes the handler, and the
dispatcher, return `STATUS_ERR`, and the registry has one subflow more. -/
theorem subflow_added_on_error_counterexample :
    demo_i0.vars_queue = [] ∧ demo_i0.subflows.length = 0 ∧
    mptcp_subtype_mp_capable demo_env demo_i0 (demo_inbound false true [demo_opt 20 0])
      (demo_inbound false true [demo_opt 20 0]) (demo_opt 20 0) DIRECTION_INBOUND
      = .ret (STATUS_ERR, demo_i1, demo_opt 20 0) ∧
    mptcp_insert_and_extract_opt_fields demo_env demo_i0
      (demo_inbound false true [demo_opt 20 0]) (demo_inbound false true [demo_opt 20 0])
      DIRECTION_INBOUND
      = .ret (STATUS_ERR, demo_i1, demo_inbound false true [demo_opt 20 0]) ∧
    demo_i1.subflows.length = 1 ∧
    demo_i1.subflows.length ≠ demo_i0.subflows.length := by
  decide

/-- C28 (witness): the inbound third step of the handshake `demo_s0` (status
`STATUS_OK`) and the same option on `demo_i0` (status `STATUS_ERR`) both add one
subflow; a DSS option adds none. -/
theorem subflow_count_tracks_constructor_witness :
    dispatch_option demo_env demo_s2 (demo_inbound false true [demo_opt 20 0])
      (demo_inbound false true [demo_opt 20 0]) (demo_opt 20 0) DIRECTION_INBOUND
      = .ret (STATUS_OK, demo_s3, demo_o3) ∧
    demo_s3.subflows.length = demo_s2.subflows.length + 1 ∧
    dispatch_option demo_env demo_i0 (demo_inbound false true [demo_opt 20 0])
      (demo_inbound false true [demo_opt 20 0]) (demo_opt 20 0) DIRECTION_INBOUND
      = .ret (STATUS_ERR, demo_i1, demo_opt 20 0) ∧
    demo_i1.subflows.length = demo_i0.subflows.length + 1 ∧
    dispatch_option demo_env demo_s3 (demo_inbound false true [demo_dss_ack 1])
      (demo_inbound false true [demo_dss_ack 1]) (demo_dss_ack 1) DIRECTION_INBOUND
      = .ret (STATUS_OK, demo_s3, demo_dss_ack 1) ∧
    demo_s3.subflows.length = demo_s3.subflows.length :=
  ⟨by decide,
    ((subflow_count_tracks_constructor demo_env demo_s2 demo_s3
      (demo_inbound false true [demo_opt 20 0]) (demo_inbound false true [demo_opt 20 0])
      (demo_opt 20 0) demo_o3 DIRECTION_INBOUND STATUS_OK (by decide)).2.1 rfl rfl).1 rfl
      (by decide),
    by decide,
    ((subflow_count_tracks_constructor demo_env demo_i0 demo_i1
      (demo_inbound false true [demo_opt 20 0]) (demo_inbound false true [demo_opt 20 0])
      (demo_opt 20 0) (demo_opt 20 0) DIRECTION_INBOUND STATUS_ERR (by decide)).2.1 rfl
      rfl).1 rfl (by decide),
    by decide,
    (subflow_count_tracks_constructor demo_env demo_s3 demo_s3
      (demo_inbound false true [demo_dss_ack 1]) (demo_inbound false true [demo_dss_ack 1])
      (demo_dss_ack 1) (demo_dss_ack 1) DIRECTION_INBOUND STATUS_OK (by decide)).2.2.2.1
      (by decide)⟩

/-- C29 (witness): on `demo_s2` and an IPv4 packet from port 1000 to port 2000 that
carries an MPTCP option. -/
theorem registry_round_trip_witness :
    ((demo_inbound false true [demo_opt 20 0]).ipv4 ≠ none ∨
      (demo_inbound false true [demo_opt 20 0]).ipv6 ≠ none) ∧
    get_tcp_option (demo_inbound false true [demo_opt 20 0]) TCPOPT_MPTCP ≠ none ∧
    (∃ sf,
      (new_subflow_inbound demo_env demo_s2 (demo_inbound false true [demo_opt 20 0])).1
        = some 0 ∧
      (new_subflow_inbound demo_env demo_s2 (demo_inbound false true [demo_opt 20 0])).2.subflows
        = sf :: demo_s2.subflows ∧
      sf.src_port = ntohs (demo_inbound false true [demo_opt 20 0]).tcp.src_port ∧
      sf.dst_port = ntohs (demo_inbound false true [demo_opt 20 0]).tcp.dst_port ∧
      sf.ssn = 0 ∧
      find_subflow_matching_inbound_packet
        (new_subflow_inbound demo_env demo_s2 (demo_inbound false true [demo_opt 20 0])).2
        (demo_inbound false true [demo_opt 20 0]) = some 0 ∧
      ∀ q : packet,
        q.tcp.src_port = (demo_inbound false true [demo_opt 20 0]).tcp.dst_port →
        q.tcp.dst_port = (demo_inbound false true [demo_opt 20 0]).tcp.src_port →
        find_subflow_matching_outbound_packet
          (new_subflow_inbound demo_env demo_s2 (demo_inbound false true [demo_opt 20 0])).2
          q = some 0) ∧
    (∃ sf,
      (new_subflow_outbound demo_env demo_s2 (demo_inbound false true [demo_opt 20 0])).1
        = some 0 ∧
      (new_subflow_outbound demo_env demo_s2
        (demo_inbound false true [demo_opt 20 0])).2.subflows = sf :: demo_s2.subflows ∧
      sf.src_port = ntohs (demo_inbound false true [demo_opt 20 0]).tcp.dst_port ∧
      sf.dst_port = ntohs (demo_inbound false true [demo_opt 20 0]).tcp.src_port ∧
      sf.ssn = 0 ∧
      find_subflow_matching_outbound_packet
        (new_subflow_outbound demo_env demo_s2 (demo_inbound false true [demo_opt 20 0])).2
        (demo_inbound false true [demo_opt 20 0]) = some 0 ∧
      ∀ q : packet,
        q.tcp.src_port = (demo_inbound false true [demo_opt 20 0]).tcp.dst_port →
        q.tcp.dst_port = (demo_inbound false true [demo_opt 20 0]).tcp.src_port →
        find_subflow_matching_inbound_packet
          (new_subflow_outbound demo_env demo_s2 (demo_inbound false true [demo_opt 20 0])).2
          q = some 0) :=
  have h := registry_round_trip demo_env demo_s2 (demo_inbound false true [demo_opt 20 0])
    (Or.inl (by decide))
  ⟨Or.inl (by decide), by decide, h.1, h.2 (by decide)⟩

/-- C30 (counterexample): on `demo_s3`, where `htonl (last_dsn_rcvd mod 2^32)` is
1862468096, an inbound DSS option with a DSN (`flag_M` set) and a 4-byte DACK with
`dack4 = UNDEFINED` is returned with `STATUS_OK` and `dack4` still `UNDEFINED`; and on
an IPv6 packet `mptcp_subtype_dss` does not return. -/
theorem dss_dack_with_dsn_counterexample :
    demo_dss_dsn_ack.dss_flag_M = true ∧ demo_dss_dsn_ack.dss_flag_A = true ∧
    demo_dss_dsn_ack.dss_flag_a = false ∧
    demo_dss_dsn_ack.dss_dack_dack4 = to_unsigned 32 demo_env.UNDEFINED ∧
    mptcp_subtype_dss demo_env demo_s3 (demo_inbound false true [demo_dss_dsn_ack])
      (demo_inbound false true [demo_dss_dsn_ack]) demo_dss_dsn_ack DIRECTION_INBOUND
      = .ret (STATUS_OK, demo_s3, demo_dss_dsn_ack) ∧
    htonl (demo_s3.last_dsn_rcvd % 2 ^ 32) = 1862468096 ∧
    demo_dss_dsn_ack.dss_dack_dack4 ≠ htonl (demo_s3.last_dsn_rcvd % 2 ^ 32) ∧
    (demo_dss_ack 4294967295).dss_flag_M = false ∧
    mptcp_subtype_dss demo_env demo_s3 (demo_inbound6 false true [demo_dss_ack 4294967295])
      (demo_inbound6 false true [demo_dss_ack 4294967295]) (demo_dss_ack 4294967295)
      DIRECTION_INBOUND = .fault := by
  decide

/-- C30 (witness): on `demo_s3`, the state the third step of the handshake `demo_s0`
leaves, a DSS option with a 4-byte DACK only and `dack4 = UNDEFINED`. -/
theorem dss_inbound_undefined_dack_witness :
    (demo_inbound false true [demo_dss_ack 4294967295]).ipv4
      = some { ihl := 5, src_ip := 1, dst_ip := 2 } ∧
    (demo_dss_ack 4294967295).dss_dack_dack4 = to_unsigned 32 demo_env.UNDEFINED ∧
    mptcp_subtype_mp_capable demo_env demo_s2 (demo_inbound false true [demo_opt 20 0])
      (demo_inbound false true [demo_opt 20 0]) (demo_opt 20 0) DIRECTION_INBOUND
      = .ret (STATUS_OK, demo_s3, demo_o3) ∧
    mptcp_subtype_dss demo_env demo_s3 (demo_inbound false true [demo_dss_ack 4294967295])
      (demo_inbound false true [demo_dss_ack 4294967295]) (demo_dss_ack 4294967295)
      DIRECTION_INBOUND
      = .ret (STATUS_OK, demo_s3,
          { demo_dss_ack 4294967295 with
            dss_dack_dack4 := htonl (demo_s3.last_dsn_rcvd % 2 ^ 32) }) ∧
    mptcp_subtype_dss demo_env demo_s3 (demo_inbound false true [demo_dss_ack 4294967295])
      (demo_inbound false true [demo_dss_ack 4294967295]) (demo_dss_ack 4294967295)
      DIRECTION_INBOUND
      = .ret (STATUS_OK, demo_s3,
          { demo_dss_ack 4294967295 with
            dss_dack_dack4 :=
              htonl ((sha1_least_64bits demo_env demo_s3.kernel_key + demo_s3.remote_ssn)
                % 2 ^ 32) }) :=
  have h := dss_inbound_undefined_dack demo_env demo_s3
    (demo_inbound false true [demo_dss_ack 4294967295])
    (demo_inbound false true [demo_dss_ack 4294967295]) (demo_dss_ack 4294967295)
    { ihl := 5, src_ip := 1, dst_ip := 2 } rfl rfl rfl rfl (by decide)
  ⟨rfl, by decide, by decide, h.1,
    h.2 demo_s2 (demo_inbound false true [demo_opt 20 0])
      (demo_inbound false true [demo_opt 20 0]) (demo_opt 20 0) demo_o3 DIRECTION_INBOUND
      STATUS_OK rfl (Or.inl rfl) (by decide)⟩


/-! ## DSS with a script-defined acknowledgement, the IDSNs and the lookup order -/

/-- C31: an inbound DSS option without DSN, with a 4-byte DACK (`flag_A` set, `flag_a`
clear) and `dack4 = SCRIPT_DEFINED`, handled while the front hint names a variable of
the table with value `k`: `dss_inbound_parser` returns 0, removes exactly that hint,
sets `remote_idsn = sha1_least_32bits k` and writes
`dack4 = htobe32 ((sha1_least_32bits k + remote_ssn) mod 2^32)`; on an IPv4 packet
`mptcp_subtype_dss` returns `STATUS_OK` with the same state and option.  The sentinel
`UNDEFINED`, which the parser tests first, is taken different from
`SCRIPT_DEFINED`. -/
theorem dss_inbound_script_defined_dack (E : Env) (s : mp_state_s) (n : Nat)
    (o : tcp_option) (name : String) (rest : List queue_el) (v : mp_var)
    (hM : o.dss_flag_M = false) (hA : o.dss_flag_A = true) (ha : o.dss_flag_a = false)
    (hdack : o.dss_dack_dack4 = SCRIPT_DEFINED)
    (hund : to_unsigned 32 E.UNDEFINED ≠ SCRIPT_DEFINED)
    (hq : s.vars_queue = .var_name name :: rest)
    (hf : find_mp_var s name = some v) :
    dss_inbound_parser_fn E s n o
      = .ret (0,
          { s with
            vars_queue := rest
            remote_idsn := sha1_least_32bits E (deref s v.value) },
          { o with
            dss_dack_dack4 :=
              htobe32 ((sha1_least_32bits E (deref s v.value) + s.remote_ssn) % 2 ^ 32) }) ∧
    ∀ (p live : packet) (h4 : ipv4_hdr), p.ipv4 = some h4 →
      mptcp_subtype_dss E s p live o DIRECTION_INBOUND
        = .ret (STATUS_OK,
            { s with
              vars_queue := rest
              remote_idsn := sha1_least_32bits E (deref s v.value) },
            { o with
              dss_dack_dack4 :=
                htobe32 ((sha1_least_32bits E (deref s v.value) + s.remote_ssn)
                  % 2 ^ 32) }) := by
  have hne : ¬ (SCRIPT_DEFINED = to_unsigned 32 E.UNDEFINED) := fun h => hund h.symm
  have e : htobe32 ((sha1_least_32bits E (deref s v.value) + s.remote_ssn) % 2 ^ 32)
      = htobe32 (sha1_least_32bits E (deref s v.value) + s.remote_ssn) := bswap32_mod _
  have main : ∀ m : Nat, dss_inbound_parser_fn E s m o
      = .ret (0,
          { s with
            vars_queue := rest
            remote_idsn := sha1_least_32bits E (deref s v.value) },
          { o with
            dss_dack_dack4 :=
              htobe32 ((sha1_least_32bits E (deref s v.value) + s.remote_ssn) % 2 ^ 32) }) := by
    intro m
    unfold dss_inbound_parser_fn
    simp only [hM, hA, ha, hdack, hne, find_next_key_found s name rest v hq hf, if_true,
      Bool.false_eq_true, if_false, e]
  refine ⟨main n, ?_⟩
  intro p live h4 hip
  unfold mptcp_subtype_dss
  simp only [hip, main, if_true]

theorem find_next_key_idsn {s s1 : mp_state_s} {k : Option Nat}
    (h : find_next_key s = .ret (k, s1)) :
    s1.idsn = s.idsn ∧ s1.remote_idsn = s.remote_idsn := by
  have f := find_next_key_frame h
  rw [f]; exact ⟨rfl, rfl⟩

theorem mptcp_set_mp_cap_syn_key_idsn {s s1 : mp_state_s} {o o1 : tcp_option} {e : Int}
    (h : mptcp_set_mp_cap_syn_key s o = .ret (e, s1, o1)) :
    s1.idsn = s.idsn ∧ s1.remote_idsn = s.remote_idsn := by
  unfold mptcp_set_mp_cap_syn_key at h
  split at h
  · simp at h
  · rename_i sa hk
    simp at h; obtain ⟨-, rfl, -⟩ := h
    exact find_next_key_idsn hk
  · rename_i key sa hk
    simp at h; obtain ⟨-, rfl, -⟩ := h
    exact find_next_key_idsn hk

/-- The IDSNs across `mptcp_subtype_mp_capable`: an option of length 20 assigns them
from the two keys, which the call leaves as they are; every other option leaves the
IDSNs. -/
theorem mptcp_subtype_mp_capable_idsn {E : Env} {s s' : mp_state_s} {p live : packet}
    {o o' : tcp_option} {direction : Nat} {st : Int}
    (h : mptcp_subtype_mp_capable E s p live o direction = .ret (st, s', o')) :
    (o.length ≠ TCPOLEN_MP_CAPABLE → s'.idsn = s.idsn ∧ s'.remote_idsn = s.remote_idsn) ∧
    (o.length = TCPOLEN_MP_CAPABLE →
      s'.idsn = sha1_least_64bits E s.packetdrill_key ∧
      s'.remote_idsn = sha1_least_64bits E s.kernel_key ∧
      s'.packetdrill_key = s.packetdrill_key ∧ s'.kernel_key = s.kernel_key) := by
  have h1220 : ¬ (TCPOLEN_MP_CAPABLE_SYN = TCPOLEN_MP_CAPABLE) := by decide
  have inbound : ∀ r, (match mptcp_gen_key E s with
        | .fault => Outcome.fault
        | .ret (error, s) =>
          match mptcp_set_mp_cap_syn_key s o with
          | .fault => .fault
          | .ret (error2, s, opt) => .ret (c_or error2 error, s, opt)) = r →
      r = .ret (st, s', o') → s'.idsn = s.idsn ∧ s'.remote_idsn = s.remote_idsn := by
    intro r hr hr'
    rw [hr'] at hr
    split at hr
    · simp at hr
    · rename_i e1 s1 hg
      split at hr
      · simp at hr
      · rename_i e2 s2 o2 hk
        simp at hr
        obtain ⟨-, rfl, -⟩ := hr
        have f1 := mptcp_gen_key_frame hg
        have f2 := mptcp_set_mp_cap_syn_key_idsn hk
        rw [f2.1, f2.2, f1]
        exact ⟨rfl, rfl⟩
  unfold mptcp_subtype_mp_capable at h
  split at h
  · rename_i hc
    exact ⟨fun _ => inbound _ h rfl, fun hl => absurd (hc.1.symm.trans hl) h1220⟩
  · split at h
    · rename_i hc
      refine ⟨fun _ => ?_, fun hl => absurd (hc.1.symm.trans hl) h1220⟩
      split at h
      · simp at h
      · rename_i e1 s1 hg
        split at h
        · simp at h
        · rename_i e2 s2 o2 hk
          simp at h
          obtain ⟨-, rfl, -⟩ := h
          have f1 := extract_and_set_kernel_key_frame hg
          have f2 := mptcp_set_mp_cap_syn_key_idsn hk
          simp only
          rw [f2.1, f2.2, f1]
          exact ⟨rfl, rfl⟩
    · split at h
      · rename_i hlen
        refine ⟨fun hn => absurd hlen hn, fun _ => ?_⟩
        split at h
        · simp at h
        · rename_i e s1 o1 hk
          have f1 := mptcp_set_mp_cap_keys_frame hk
          simp only at h
          split at h
          · simp at h; obtain ⟨-, rfl, -⟩ := h
            rw [new_subflow_inbound_frame]
            simp only
            rw [f1]
            exact ⟨rfl, rfl, rfl, rfl⟩
          · split at h
            · simp at h; obtain ⟨-, rfl, -⟩ := h
              rw [new_subflow_outbound_frame]
              simp only
              rw [f1]
              exact ⟨rfl, rfl, rfl, rfl⟩
            · simp at h; obtain ⟨-, rfl, -⟩ := h
              simp only
              rw [f1]
              exact ⟨rfl, rfl, rfl, rfl⟩
      · rename_i hlen
        refine ⟨fun _ => ?_, fun hl => absurd hl hlen⟩
        split at h
        · exact inbound _ h rfl
        · simp at h; obtain ⟨-, rfl, -⟩ := h
          exact ⟨rfl, rfl⟩

theorem mptcp_subtype_dss_idsn {E : Env} {s s' : mp_state_s} {p live : packet}
    {o o' : tcp_option} {direction : Nat} {st : Int}
    (h : mptcp_subtype_dss E s p live o direction = .ret (st, s', o')) :
    s'.idsn = s.idsn ∧
    (¬ (direction = DIRECTION_INBOUND ∧ o.dss_flag_M = false ∧ o.dss_flag_A = true ∧
        o.dss_flag_a = false ∧ o.dss_dack_dack4 = SCRIPT_DEFINED) →
      s'.remote_idsn = s.remote_idsn) := by
  have f := mptcp_subtype_dss_frame h
  refine ⟨by rw [f], fun hn => ?_⟩
  unfold mptcp_subtype_dss at h
  split at h
  · simp at h
  · simp only at h
    split at h
    · rename_i hin
      unfold dss_inbound_parser_fn at h
      by_cases hM : o.dss_flag_M = true
      · simp [hM] at h; obtain ⟨-, rfl, -⟩ := h; rfl
      · by_cases hA : o.dss_flag_A = true
        · by_cases ha : o.dss_flag_a = false
          · by_cases hu : o.dss_dack_dack4 = to_unsigned 32 E.UNDEFINED
            · simp [hM, hA, ha, hu] at h; obtain ⟨-, rfl, -⟩ := h; rfl
            · have hs : ¬ (o.dss_dack_dack4 = SCRIPT_DEFINED) := fun hs =>
                hn ⟨hin, by simpa using hM, hA, ha, hs⟩
              simp [hM, hA, ha, hu, hs] at h; obtain ⟨-, rfl, -⟩ := h; rfl
          · simp [hM, hA, ha] at h; obtain ⟨-, rfl, -⟩ := h; rfl
        · simp [hM, hA] at h; obtain ⟨-, rfl, -⟩ := h; rfl
    · split at h
      · simp [dss_outbound_parser_fn] at h; obtain ⟨-, rfl, -⟩ := h; rfl
      · simp at h; obtain ⟨-, rfl, -⟩ := h; rfl

/-- The IDSNs across one handler call. -/
theorem dispatch_option_idsn {E : Env} {s s' : mp_state_s} {p live : packet}
    {o o' : tcp_option} {direction : Nat} {st : Int}
    (h : dispatch_option E s p live o direction = .ret (st, s', o')) :
    (¬ derives_idsn o → s'.idsn = s.idsn) ∧
    (¬ derives_idsn o → ¬ rebinds_remote_idsn direction o →
      s'.remote_idsn = s.remote_idsn) ∧
    (derives_idsn o →
      s'.idsn = sha1_least_64bits E s.packetdrill_key ∧
      s'.remote_idsn = sha1_least_64bits E s.kernel_key ∧
      s'.packetdrill_key = s.packetdrill_key ∧ s'.kernel_key = s.kernel_key) := by
  unfold dispatch_option at h
  split at h
  · rename_i hsub
    obtain ⟨g1, g2⟩ := mptcp_subtype_mp_capable_idsn h
    exact ⟨fun hn => (g1 (fun hl => hn ⟨hsub, hl⟩)).1,
      fun hn _ => (g1 (fun hl => hn ⟨hsub, hl⟩)).2, fun hd => g2 hd.2⟩
  · rename_i hsub0
    split at h
    · have f := mptcp_subtype_mp_join_frame h
      exact ⟨fun _ => by rw [f], fun _ _ => by rw [f], fun hd => absurd hd.1 hsub0⟩
    · split at h
      · rename_i hsub
        obtain ⟨g1, g2⟩ := mptcp_subtype_dss_idsn h
        exact ⟨fun _ => g1,
          fun _ hr => g2 (fun hc => hr ⟨hsub, hc⟩), fun hd => absurd hd.1 hsub0⟩
      · simp at h; obtain ⟨-, rfl, -⟩ := h
        exact ⟨fun _ => rfl, fun _ _ => rfl, fun hd => absurd hd.1 hsub0⟩

theorem options_loop_idsn (E : Env) (live : packet) (direction : Nat) (p : packet)
    (todo : List tcp_option) :
    ∀ (done : List tcp_option) (s s' : mp_state_s) (st : Int) (p' : packet),
      options_loop E live direction p done todo s = .ret (st, s', p') →
      ((∀ o ∈ todo, o.kind = TCPOPT_MPTCP → ¬ derives_idsn o) → s'.idsn = s.idsn) ∧
      ((∀ o ∈ todo, o.kind = TCPOPT_MPTCP →
          ¬ derives_idsn o ∧ ¬ rebinds_remote_idsn direction o) →
        s'.remote_idsn = s.remote_idsn) := by
  induction todo with
  | nil =>
    intro done s s' st p' h
    simp [options_loop] at h
    obtain ⟨-, rfl, -⟩ := h
    exact ⟨fun _ => rfl, fun _ => rfl⟩
  | cons opt todo ih =>
    intro done s s' st p' h
    rw [options_loop] at h
    split at h
    · rename_i hk
      split at h
      · simp at h
      · rename_i e s1 o1 hd
        obtain ⟨g1, g2, -⟩ := dispatch_option_idsn hd
        split at h
        · simp at h; obtain ⟨-, rfl, -⟩ := h
          exact ⟨fun hall => g1 (hall opt (List.mem_cons_self _ _) hk),
            fun hall => g2 (hall opt (List.mem_cons_self _ _) hk).1
              (hall opt (List.mem_cons_self _ _) hk).2⟩
        · obtain ⟨i1, i2⟩ := ih _ _ _ _ _ h
          exact ⟨fun hall =>
              (i1 (fun x hx => hall x (List.mem_cons_of_mem _ hx))).trans
                (g1 (hall opt (List.mem_cons_self _ _) hk)),
            fun hall =>
              (i2 (fun x hx => hall x (List.mem_cons_of_mem _ hx))).trans
                (g2 (hall opt (List.mem_cons_self _ _) hk).1
                  (hall opt (List.mem_cons_self _ _) hk).2)⟩
    · obtain ⟨i1, i2⟩ := ih _ _ _ _ _ h
      exact ⟨fun hall => i1 (fun x hx => hall x (List.mem_cons_of_mem _ hx)),
        fun hall => i2 (fun x hx => hall x (List.mem_cons_of_mem _ hx))⟩

/-- C32 (amended): a call of `mptcp_insert_and_extract_opt_fields` changes `idsn` only
when the packet carries an MP_CAPABLE option of length 20, and changes `remote_idsn`
only when it carries such an option or an inbound DSS option without DSN whose 4-byte
DACK is `SCRIPT_DEFINED`.  The handler of an MP_CAPABLE option of length 20 assigns
both again from the keys bound at that moment, so it leaves an IDSN that was derived
from the key still bound as it is. -/
theorem idsn_changed_only_by_rederivation (E : Env) (s s' : mp_state_s)
    (packet_to_modify live_packet p' : packet) (direction : Nat) (st : Int)
    (hret : mptcp_insert_and_extract_opt_fields E s packet_to_modify live_packet direction
      = .ret (st, s', p')) :
    ((∀ o ∈ packet_to_modify.options, o.kind = TCPOPT_MPTCP → ¬ derives_idsn o) →
      s'.idsn = s.idsn) ∧
    ((∀ o ∈ packet_to_modify.options, o.kind = TCPOPT_MPTCP →
        ¬ derives_idsn o ∧ ¬ rebinds_remote_idsn direction o) →
      s'.remote_idsn = s.remote_idsn) ∧
    (∀ (t t' : mp_state_s) (q l : packet) (o o' : tcp_option) (d : Nat) (e : Int),
      dispatch_option E t q l o d = .ret (e, t', o') → derives_idsn o →
      t'.idsn = sha1_least_64bits E t'.packetdrill_key ∧
      t'.remote_idsn = sha1_least_64bits E t'.kernel_key ∧
      t'.packetdrill_key = t.packetdrill_key ∧ t'.kernel_key = t.kernel_key ∧
      (t.idsn = sha1_least_64bits E t.packetdrill_key → t'.idsn = t.idsn) ∧
      (t.remote_idsn = sha1_least_64bits E t.kernel_key → t'.remote_idsn = t.remote_idsn)) := by
  unfold mptcp_insert_and_extract_opt_fields at hret
  obtain ⟨i1, i2⟩ := options_loop_idsn E live_packet direction packet_to_modify _ _ _ _ _ _ hret
  refine ⟨i1, i2, ?_⟩
  intro t t' q l o o' d e hd hder
  obtain ⟨-, -, g⟩ := dispatch_option_idsn hd
  obtain ⟨g1, g2, g3, g4⟩ := g hder
  exact ⟨by rw [g3]; exact g1, by rw [g4]; exact g2, g3, g4, fun h => g1.trans h.symm,
    fun h => g2.trans h.symm⟩

/-- C33 (amended): `dss_outbound_parser` has no live statement but `return 0`: on a
packet with an IPv4 header `mptcp_subtype_dss` handles every outbound DSS option,
with or without DSN and whatever the payload length, by returning `STATUS_OK` with the
session state, `last_dsn_rcvd` and `remote_ssn` included, and the option as they
were. -/
theorem dss_outbound_leaves_state (E : Env) (s : mp_state_s) (p live : packet)
    (o : tcp_option) (h4 : ipv4_hdr) (hip : p.ipv4 = some h4) :
    mptcp_subtype_dss E s p live o DIRECTION_OUTBOUND = .ret (STATUS_OK, s, o) ∧
    dss_outbound_parser_fn s (dss_tcp_payload_length p h4) o = .ret (0, s, o) := by
  have hd : ¬ (DIRECTION_OUTBOUND = DIRECTION_INBOUND) := by decide
  refine ⟨?_, rfl⟩
  unfold mptcp_subtype_dss
  simp only [hip, hd, if_false, if_true, dss_outbound_parser_fn]

/-- The record behind the pointer `find_matching_subflow` returns is the first subflow
of the list that `does_match` accepts. -/
theorem subflow_at_find_matching (s : mp_state_s) (p : packet)
    (does_match : mp_subflow → packet → Bool) :
    subflow_at s (find_matching_subflow s p does_match)
      = s.subflows.find? (fun sf => does_match sf p) := by
  unfold subflow_at find_matching_subflow
  generalize s.subflows = l
  induction l with
  | nil => simp
  | cons a l ih =>
    by_cases ha : does_match a p = true
    · simp [List.findIdx_cons, ha]
    · simp only [Bool.not_eq_true] at ha
      simp only [List.findIdx_cons, ha, cond_false, List.length_cons, List.find?_cons]
      by_cases hlt : List.findIdx (fun sf => does_match sf p) l < l.length
      · simp only [hlt, if_true] at ih
        simp [hlt, ← ih]
      · simp only [hlt, if_false] at ih
        simp [hlt, ← ih]

theorem find_perm_unique (f : mp_subflow → Bool) (l1 l2 : List mp_subflow)
    (hperm : l1.Perm l2)
    (huniq : ∀ a ∈ l1, ∀ b ∈ l1, f a = true → f b = true → a = b) :
    l1.find? f = l2.find? f := by
  rcases h1 : l1.find? f with _ | a
  · rcases h2 : l2.find? f with _ | b
    · rfl
    · have hb := List.find?_some h2
      have hm := hperm.mem_iff.mpr (List.mem_of_find?_eq_some h2)
      rw [List.find?_eq_none] at h1
      exact absurd hb (h1 b hm)
  · have ha := List.find?_some h1
    have hm1 := List.mem_of_find?_eq_some h1
    rcases h2 : l2.find? f with _ | b
    · rw [List.find?_eq_none] at h2
      exact absurd ha (h2 a (hperm.mem_iff.mp hm1))
    · have hb := List.find?_some h2
      have hm2 := hperm.mem_iff.mpr (List.mem_of_find?_eq_some h2)
      rw [huniq a hm1 b hm2 ha hb]

/-- C34 (amended): each lookup returns the first subflow of the list that matches the
packet's port pair.  For two registries that hold the same subflows in different
orders, the inbound lookups return the same subflow record when the subflows that
match the packet inbound are all the same record, and likewise the outbound
lookups. -/
theorem lookup_is_first_match (s1 s2 : mp_state_s) (p : packet)
    (hperm : s1.subflows.Perm s2.subflows) :
    subflow_at s1 (find_subflow_matching_inbound_packet s1 p)
      = s1.subflows.find? (fun sf => does_subflow_match_inbound_packet sf p) ∧
    subflow_at s1 (find_subflow_matching_outbound_packet s1 p)
      = s1.subflows.find? (fun sf => does_subflow_match_outbound_packet sf p) ∧
    ((∀ a ∈ s1.subflows, ∀ b ∈ s1.subflows,
        does_subflow_match_inbound_packet a p = true →
        does_subflow_match_inbound_packet b p = true → a = b) →
      subflow_at s1 (find_subflow_matching_inbound_packet s1 p)
        = subflow_at s2 (find_subflow_matching_inbound_packet s2 p)) ∧
    ((∀ a ∈ s1.subflows, ∀ b ∈ s1.subflows,
        does_subflow_match_outbound_packet a p = true →
        does_subflow_match_outbound_packet b p = true → a = b) →
      subflow_at s1 (find_subflow_matching_outbound_packet s1 p)
        = subflow_at s2 (find_subflow_matching_outbound_packet s2 p)) := by
  unfold find_subflow_matching_inbound_packet find_subflow_matching_outbound_packet
  refine ⟨subflow_at_find_matching _ _ _, subflow_at_find_matching _ _ _, ?_, ?_⟩
  · intro hu
    rw [subflow_at_find_matching, subflow_at_find_matching]
    exact find_perm_unique _ _ _ hperm hu
  · intro hu
    rw [subflow_at_find_matching, subflow_at_find_matching]
    exact find_perm_unique _ _ _ hperm hu

/-! ## Concrete runs for the DSS options, the IDSNs and the lookups -/

/-- C31 (witness): on `demo_e0` the front hint `b` names the kernel's key variable,
whose value is 43981; the inbound DSS option with `dack4 = SCRIPT_DEFINED` is
handled. -/
theorem dss_inbound_script_defined_dack_witness :
    to_unsigned 32 demo_env.UNDEFINED ≠ SCRIPT_DEFINED ∧
    demo_e0.vars_queue = .var_name "b" :: [] ∧
    find_mp_var demo_e0 "b"
      = some { name := "b", value := .kernel_key_ref, mptcp_subtype := MP_CAPABLE_SUBTYPE,
               script_defined := false } ∧
    deref demo_e0 .kernel_key_ref = 43981 ∧
    dss_inbound_parser_fn demo_env demo_e0 0 (demo_dss_ack 1)
      = .ret (0,
          { demo_e0 with
            vars_queue := []
            remote_idsn := sha1_least_32bits demo_env (deref demo_e0 .kernel_key_ref) },
          { demo_dss_ack 1 with
            dss_dack_dack4 :=
              htobe32 ((sha1_least_32bits demo_env (deref demo_e0 .kernel_key_ref)
                + demo_e0.remote_ssn) % 2 ^ 32) }) ∧
    mptcp_subtype_dss demo_env demo_e0 (demo_inbound false true [demo_dss_ack 1])
      (demo_inbound false true [demo_dss_ack 1]) (demo_dss_ack 1) DIRECTION_INBOUND
      = .ret (STATUS_OK,
          { demo_e0 with
            vars_queue := []
            remote_idsn := sha1_least_32bits demo_env (deref demo_e0 .kernel_key_ref) },
          { demo_dss_ack 1 with
            dss_dack_dack4 :=
              htobe32 ((sha1_least_32bits demo_env (deref demo_e0 .kernel_key_ref)
                + demo_e0.remote_ssn) % 2 ^ 32) }) :=
  have h := dss_inbound_script_defined_dack demo_env demo_e0 0 (demo_dss_ack 1) "b" []
    { name := "b", value := .kernel_key_ref, mptcp_subtype := MP_CAPABLE_SUBTYPE,
      script_defined := false } rfl rfl rfl rfl (by decide) (by decide) (by decide)
  ⟨by decide, by decide, by decide, by decide, h.1,
    h.2 (demo_inbound false true [demo_dss_ack 1]) (demo_inbound false true [demo_dss_ack 1])
      { ihl := 5, src_ip := 1, dst_ip := 2 } rfl⟩

/-- C32 (counterexample): `demo_s3` is the state after the third step, with
`remote_idsn = 131950`; the inbound DSS option with a script-defined DACK on `demo_e0`
returns `STATUS_OK` and leaves `remote_idsn = 219916`.  And along `demo_q0` the third
step derives `idsn = 10` from the key 1, a second inbound SYN whose hint names the
script-defined variable `b` rebinds the key to 2, and a second third step leaves
`idsn = 13`; every call returns `STATUS_OK`. -/
theorem idsn_invariance_counterexample :
    mptcp_subtype_mp_capable demo_env demo_s2 (demo_inbound false true [demo_opt 20 0])
      (demo_inbound false true [demo_opt 20 0]) (demo_opt 20 0) DIRECTION_INBOUND
      = .ret (STATUS_OK, demo_s3, demo_o3) ∧
    demo_e0 = enqueue_var demo_s3 "b" ∧ demo_e0.remote_idsn = 131950 ∧
    mptcp_insert_and_extract_opt_fields demo_env demo_e0
      (demo_inbound false true [demo_dss_ack 1]) (demo_inbound false true [demo_dss_ack 1])
      DIRECTION_INBOUND
      = .ret (STATUS_OK, demo_e1,
          demo_inbound false true [{ demo_dss_ack 1 with dss_dack_dack4 := 224068352 }]) ∧
    demo_e1.remote_idsn = 219916 ∧ demo_e1.remote_idsn ≠ demo_e0.remote_idsn ∧
    ret_status (mptcp_insert_and_extract_opt_fields demo_env demo_q0
      (demo_inbound true false [demo_opt 12 0]) (demo_inbound true false [demo_opt 12 0])
      DIRECTION_INBOUND) = some STATUS_OK ∧
    ret_status (mptcp_insert_and_extract_opt_fields demo_env demo_q1
      (demo_outbound true true [demo_opt 12 0]) demo_live_synack DIRECTION_OUTBOUND)
      = some STATUS_OK ∧
    ret_status (mptcp_insert_and_extract_opt_fields demo_env demo_q2
      (demo_inbound false true [demo_opt 20 0]) (demo_inbound false true [demo_opt 20 0])
      DIRECTION_INBOUND) = some STATUS_OK ∧
    ret_status (mptcp_insert_and_extract_opt_fields demo_env demo_q3
      (demo_inbound true false [demo_opt 12 0]) (demo_inbound true false [demo_opt 12 0])
      DIRECTION_INBOUND) = some STATUS_OK ∧
    ret_status (mptcp_insert_and_extract_opt_fields demo_env demo_q4
      (demo_inbound false true [demo_opt 20 0]) (demo_inbound false true [demo_opt 20 0])
      DIRECTION_INBOUND) = some STATUS_OK ∧
    demo_q3.idsn = 10 ∧ demo_q3.packetdrill_key = 1 ∧ demo_q4.packetdrill_key = 2 ∧
    demo_q4.idsn = 10 ∧ demo_q5.idsn = 13 ∧ demo_q5.idsn ≠ demo_q3.idsn := by
  decide

/-- C32 (witness): the packet `demo_mixed` carries MP_JOIN options and an option of
unknown subtype only; the call on `demo_j0` leaves both IDSNs. -/
theorem idsn_changed_only_by_rederivation_witness :
    mptcp_insert_and_extract_opt_fields demo_env demo_j0 demo_mixed demo_mixed
      DIRECTION_INBOUND = .ret (STATUS_ERR, demo_m1, demo_mp1) ∧
    (∀ o ∈ demo_mixed.options, o.kind = TCPOPT_MPTCP →
      ¬ derives_idsn o ∧ ¬ rebinds_remote_idsn DIRECTION_INBOUND o) ∧
    demo_m1.idsn = demo_j0.idsn ∧ demo_m1.remote_idsn = demo_j0.remote_idsn :=
  have h := idsn_changed_only_by_rederivation demo_env demo_j0 demo_m1 demo_mixed demo_mixed
    demo_mp1 DIRECTION_INBOUND STATUS_ERR (by decide)
  ⟨by decide, by decide, h.1 (by decide), h.2.1 (by decide)⟩

/-- C33 (counterexample): on `demo_s3` (`remote_ssn = 1`) an outbound DSS option with a
DSN on a packet whose TCP payload length is 100 is handled with `STATUS_OK`, and the
state is the same afterwards: `remote_ssn` is still 1, not 101. -/
theorem dss_outbound_no_advance_counterexample :
    demo_dss_dsn_ack.dss_flag_M = true ∧
    dss_tcp_payload_length demo_data_out { ihl := 5, src_ip := 2, dst_ip := 1 } = 100 ∧
    mptcp_subtype_dss demo_env demo_s3 demo_data_out demo_data_out demo_dss_dsn_ack
      DIRECTION_OUTBOUND = .ret (STATUS_OK, demo_s3, demo_dss_dsn_ack) ∧
    mptcp_insert_and_extract_opt_fields demo_env demo_s3 demo_data_out demo_data_out
      DIRECTION_OUTBOUND = .ret (STATUS_OK, demo_s3, demo_data_out) ∧
    demo_s3.remote_ssn = 1 ∧
    demo_s3.remote_ssn ≠ (demo_s3.remote_ssn + 100) % 2 ^ demo_env.remote_ssn_bits := by
  decide

/-- C33 (witness): the outbound DSS option of `demo_data_out` on `demo_s3`. -/
theorem dss_outbound_leaves_state_witness :
    demo_data_out.ipv4 = some { ihl := 5, src_ip := 2, dst_ip := 1 } ∧
    mptcp_subtype_dss demo_env demo_s3 demo_data_out demo_data_out demo_dss_dsn_ack
      DIRECTION_OUTBOUND = .ret (STATUS_OK, demo_s3, demo_dss_dsn_ack) ∧
    dss_outbound_parser_fn demo_s3
      (dss_tcp_payload_length demo_data_out { ihl := 5, src_ip := 2, dst_ip := 1 })
      demo_dss_dsn_ack = .ret (0, demo_s3, demo_dss_dsn_ack) :=
  have h := dss_outbound_leaves_state demo_env demo_s3 demo_data_out demo_data_out
    demo_dss_dsn_ack { ihl := 5, src_ip := 2, dst_ip := 1 } rfl
  ⟨rfl, h.1, h.2⟩

/-- C34 (counterexample): the registries `demo_r1` and `demo_r2` hold the same two
subflows, both with the ports 1001 and 2000, in the two orders; for a packet of that
port pair the inbound lookup returns the record `demo_sf_a` in one and `demo_sf_b` in
the other, and so does the outbound lookup for the packet with the ports
exchanged. -/
theorem lookup_order_counterexample :
    demo_r1.subflows.Perm demo_r2.subflows ∧ demo_sf_a ≠ demo_sf_b ∧
    subflow_at demo_r1
      (find_subflow_matching_inbound_packet demo_r1 (demo_join_inbound false true []))
      = some demo_sf_a ∧
    subflow_at demo_r2
      (find_subflow_matching_inbound_packet demo_r2 (demo_join_inbound false true []))
      = some demo_sf_b ∧
    subflow_at demo_r1
      (find_subflow_matching_outbound_packet demo_r1 (demo_join_outbound false true []))
      = some demo_sf_a ∧
    subflow_at demo_r2
      (find_subflow_matching_outbound_packet demo_r2 (demo_join_outbound false true []))
      = some demo_sf_b :=
  ⟨List.Perm.swap _ _ _, by decide, by decide, by decide, by decide, by decide⟩

/-- C34 (witness): the two subflows of `demo_j1` have different port pairs; the lookups
in `demo_j1` and in `demo_r3`, its registry reversed, return the same record, at
position 0 in one and at position 1 in the other. -/
theorem lookup_is_first_match_witness :
    demo_j1.subflows.Perm demo_r3.subflows ∧
    find_subflow_matching_inbound_packet demo_j1 (demo_join_inbound false true []) = some 0 ∧
    find_subflow_matching_inbound_packet demo_r3 (demo_join_inbound false true []) = some 1 ∧
    subflow_at demo_j1
      (find_subflow_matching_inbound_packet demo_j1 (demo_join_inbound false true []))
      = subflow_at demo_r3
        (find_subflow_matching_inbound_packet demo_r3 (demo_join_inbound false true [])) :=
  ⟨(List.reverse_perm _).symm, by decide, by decide,
    (lookup_is_first_match demo_j1 demo_r3 (demo_join_inbound false true [])
      (List.reverse_perm _).symm).2.2.1 (by decide)⟩

end Mptcp
